import Mathlib

/-!
# esp-idf-cxx: lifecycle state machines and the cross-context queue

A shallow embedding of the resource-owning facades of the repository
(`gptimer_cxx.cpp`, `pulse_counter_cxx.cpp`, the timer of `mcpwm_cxx.cpp`,
`include/queue_cxx.hpp`) together with theorems about them.

The register-level drivers are external collaborators.  A driver is therefore
a parameter of every facade operation: a function that, given the call and the
driver-side state behind the handle, answers with an error code and the new
driver-side state.  Each facade carries a ghost list `calls` recording the
driver calls it has issued, oldest first.

`assert(e)` is embedded as compiled in: `e` is evaluated, and the program
aborts when it is false.
-/

namespace idf

/-! ## Error codes and exceptions -/

/-- The platform error code type `esp_err_t`. -/
abbrev esp_err_t := Int

/-- Success value of `esp_err_t`. -/
def ESP_OK : esp_err_t := 0

/-- Generic failure value of `esp_err_t`. -/
def ESP_FAIL : esp_err_t := -1

/-- Out of memory. -/
def ESP_ERR_NO_MEM : esp_err_t := 0x101

/-- Invalid argument. -/
def ESP_ERR_INVALID_ARG : esp_err_t := 0x102

/-- Invalid state. -/
def ESP_ERR_INVALID_STATE : esp_err_t := 0x103

/-- Modelled from the spec: the macro `CHECK_THROW(error_)` of
`esp_exception.hpp` (absent from the sources).  Errors "surface synchronously
to the ordinary-context caller of the failing operation", and the headers list
`idf::ESPException(code)` under `@throw`: the macro throws
`ESPException(error_)` unless the code is `ESP_OK`.  `none` is normal
completion, `some e` the exception thrown. -/
def CHECK_THROW (error_ : esp_err_t) : Option esp_err_t :=
  if error_ = ESP_OK then none else some error_

/-! ## Lifecycle state -/

/-- The enum `State {INIT, ENABLE, RUN}` declared, with the same enumerators,
by both `GpTimer` and `PulseCounter`. -/
inductive State where
  | INIT
  | ENABLE
  | RUN
  deriving DecidableEq, Repr

/-- The four public transition operations of a facade. -/
inductive Op where
  | enable
  | disable
  | start
  | stop
  deriving DecidableEq, Repr

/-- The state each operation assigns to `_state` after its driver call
returned `ESP_OK` (the assignment statement following `CHECK_THROW`). -/
def Op.assigned : Op → State
  | .enable => State.ENABLE
  | .disable => State.INIT
  | .start => State.RUN
  | .stop => State.ENABLE

/-- Outcome of a destructor: whether an `assert` failed (process abort), the
driver-side state left behind and all driver calls issued, oldest first. -/
structure Teardown (σ : Type) (C : Type) where
  aborted : Bool
  hw : σ
  calls : List C

/-! ## GpTimer (`gptimer_cxx.cpp`) -/

/-- The driver functions `GpTimer` calls for its lifecycle. -/
inductive GptimerCall where
  | gptimer_new_timer
  | gptimer_enable
  | gptimer_disable
  | gptimer_start
  | gptimer_stop
  | gptimer_del_timer
  deriving DecidableEq, Repr

/-- An external GPTimer driver over driver-side state `σ`. -/
abbrev GptimerDriver (σ : Type) := GptimerCall → σ → esp_err_t × σ

/-- The class `GpTimer`: the recorded `_state`, the driver-side state behind
the handle `_gptimer`, and the ghost log of driver calls. -/
structure GpTimer (σ : Type) where
  _state : State
  _gptimer : σ
  calls : List GptimerCall

namespace GpTimer

variable {σ : Type}

/-- Issue one driver call on the handle and log it. -/
def driverCall (drv : GptimerDriver σ) (c : GptimerCall) (self : GpTimer σ) :
    esp_err_t × GpTimer σ :=
  let r := drv c self._gptimer
  (r.1, { self with _gptimer := r.2, calls := self.calls ++ [c] })

/-- The constructor `GpTimer::GpTimer`: `_state(State::INIT)` then
`CHECK_THROW(gptimer_new_timer(...))`.  A throwing constructor yields no
object. -/
def construct (drv : GptimerDriver σ) (hw : σ) : Except esp_err_t (GpTimer σ) :=
  let self : GpTimer σ := { _state := State.INIT, _gptimer := hw, calls := [] }
  let r := self.driverCall drv GptimerCall.gptimer_new_timer
  match CHECK_THROW r.1 with
  | some e => Except.error e
  | none => Except.ok r.2

/-- The method `GpTimer::enable`. -/
def enable (drv : GptimerDriver σ) (self : GpTimer σ) : Option esp_err_t × GpTimer σ :=
  let r := self.driverCall drv GptimerCall.gptimer_enable
  match CHECK_THROW r.1 with
  | some e => (some e, r.2)
  | none => (none, { r.2 with _state := State.ENABLE })

/-- The method `GpTimer::disable`. -/
def disable (drv : GptimerDriver σ) (self : GpTimer σ) : Option esp_err_t × GpTimer σ :=
  let r := self.driverCall drv GptimerCall.gptimer_disable
  match CHECK_THROW r.1 with
  | some e => (some e, r.2)
  | none => (none, { r.2 with _state := State.INIT })

/-- The method `GpTimer::start`. -/
def start (drv : GptimerDriver σ) (self : GpTimer σ) : Option esp_err_t × GpTimer σ :=
  let r := self.driverCall drv GptimerCall.gptimer_start
  match CHECK_THROW r.1 with
  | some e => (some e, r.2)
  | none => (none, { r.2 with _state := State.RUN })

/-- The method `GpTimer::stop`. -/
def stop (drv : GptimerDriver σ) (self : GpTimer σ) : Option esp_err_t × GpTimer σ :=
  let r := self.driverCall drv GptimerCall.gptimer_stop
  match CHECK_THROW r.1 with
  | some e => (some e, r.2)
  | none => (none, { r.2 with _state := State.ENABLE })

/-- The accessor `GpTimer::getState`. -/
def getState (self : GpTimer σ) : State := self._state

/-- The destructor `GpTimer::~GpTimer`: a `switch` on `_state` that falls
through from `RUN` (stop) to `ENABLE` (disable) to `INIT`, the return codes of
both calls being dropped, followed by `assert(gptimer_del_timer(...) == ESP_OK)`. -/
def destroy (drv : GptimerDriver σ) (self : GpTimer σ) : Teardown σ GptimerCall :=
  let s1 := match self._state with
    | State.RUN => (self.driverCall drv GptimerCall.gptimer_stop).2
    | _ => self
  let s2 := match self._state with
    | State.INIT => s1
    | _ => (s1.driverCall drv GptimerCall.gptimer_disable).2
  let r := s2.driverCall drv GptimerCall.gptimer_del_timer
  { aborted := decide (r.1 ≠ ESP_OK), hw := r.2._gptimer, calls := r.2.calls }

/-- The driver function behind each transition operation. -/
def callOf : Op → GptimerCall
  | .enable => GptimerCall.gptimer_enable
  | .disable => GptimerCall.gptimer_disable
  | .start => GptimerCall.gptimer_start
  | .stop => GptimerCall.gptimer_stop

/-- Dispatch of a transition operation to its method. -/
def apply (drv : GptimerDriver σ) (op : Op) (self : GpTimer σ) :
    Option esp_err_t × GpTimer σ :=
  match op with
  | .enable => self.enable drv
  | .disable => self.disable drv
  | .start => self.start drv
  | .stop => self.stop drv

/-- What a caller observes of one operation: the exception code, or the state
`getState()` reports afterwards. -/
def outcome (drv : GptimerDriver σ) (op : Op) (self : GpTimer σ) : Except esp_err_t State :=
  match self.apply drv op with
  | (some e, _) => Except.error e
  | (none, t) => Except.ok t.getState

/-- Run operations in order until one throws. -/
def runOps (drv : GptimerDriver σ) : List Op → GpTimer σ → Option esp_err_t × GpTimer σ
  | [], t => (none, t)
  | op :: rest, t =>
    match t.apply drv op with
    | (some e, t1) => (some e, t1)
    | (none, t1) => runOps drv rest t1

/-- A block that constructs a timer, runs the operations and leaves the scope:
the destructor runs whether the block ended normally or by an exception. -/
def scopedBlock (drv : GptimerDriver σ) (hw : σ) (ops : List Op) :
    Except esp_err_t (Option esp_err_t × Teardown σ GptimerCall) :=
  match construct drv hw with
  | Except.error e => Except.error e
  | Except.ok t =>
    let r := runOps drv ops t
    Except.ok (r.1, r.2.destroy drv)

end GpTimer

/-! ## PulseCounter (`pulse_counter_cxx.cpp`) -/

/-- The driver functions `PulseCounter` calls for its lifecycle. -/
inductive PcntCall where
  | pcnt_new_unit
  | pcnt_unit_enable
  | pcnt_unit_disable
  | pcnt_unit_start
  | pcnt_unit_stop
  | pcnt_del_unit
  deriving DecidableEq, Repr

/-- An external PCNT driver over driver-side state `σ`. -/
abbrev PcntDriver (σ : Type) := PcntCall → σ → esp_err_t × σ

/-- The class `PulseCounter`: the recorded `_state`, the driver-side state
behind the handle `_unit`, and the ghost log of driver calls. -/
structure PulseCounter (σ : Type) where
  _state : State
  _unit : σ
  calls : List PcntCall

namespace PulseCounter

variable {σ : Type}

/-- Issue one driver call on the handle and log it. -/
def driverCall (drv : PcntDriver σ) (c : PcntCall) (self : PulseCounter σ) :
    esp_err_t × PulseCounter σ :=
  let r := drv c self._unit
  (r.1, { self with _unit := r.2, calls := self.calls ++ [c] })

/-- The constructor `PulseCounter::PulseCounter`. -/
def construct (drv : PcntDriver σ) (hw : σ) : Except esp_err_t (PulseCounter σ) :=
  let self : PulseCounter σ := { _state := State.INIT, _unit := hw, calls := [] }
  let r := self.driverCall drv PcntCall.pcnt_new_unit
  match CHECK_THROW r.1 with
  | some e => Except.error e
  | none => Except.ok r.2

/-- The method `PulseCounter::enable`. -/
def enable (drv : PcntDriver σ) (self : PulseCounter σ) : Option esp_err_t × PulseCounter σ :=
  let r := self.driverCall drv PcntCall.pcnt_unit_enable
  match CHECK_THROW r.1 with
  | some e => (some e, r.2)
  | none => (none, { r.2 with _state := State.ENABLE })

/-- The method `PulseCounter::disable`. -/
def disable (drv : PcntDriver σ) (self : PulseCounter σ) : Option esp_err_t × PulseCounter σ :=
  let r := self.driverCall drv PcntCall.pcnt_unit_disable
  match CHECK_THROW r.1 with
  | some e => (some e, r.2)
  | none => (none, { r.2 with _state := State.INIT })

/-- The method `PulseCounter::start`. -/
def start (drv : PcntDriver σ) (self : PulseCounter σ) : Option esp_err_t × PulseCounter σ :=
  let r := self.driverCall drv PcntCall.pcnt_unit_start
  match CHECK_THROW r.1 with
  | some e => (some e, r.2)
  | none => (none, { r.2 with _state := State.RUN })

/-- The method `PulseCounter::stop`. -/
def stop (drv : PcntDriver σ) (self : PulseCounter σ) : Option esp_err_t × PulseCounter σ :=
  let r := self.driverCall drv PcntCall.pcnt_unit_stop
  match CHECK_THROW r.1 with
  | some e => (some e, r.2)
  | none => (none, { r.2 with _state := State.ENABLE })

/-- The accessor `PulseCounter::getState`. -/
def getState (self : PulseCounter σ) : State := self._state

/-- The destructor `PulseCounter::~PulseCounter`, of the same shape as the
timer's: fall-through `switch`, return codes of stop and disable dropped, then
`assert(pcnt_del_unit(_unit) == ESP_OK)`. -/
def destroy (drv : PcntDriver σ) (self : PulseCounter σ) : Teardown σ PcntCall :=
  let s1 := match self._state with
    | State.RUN => (self.driverCall drv PcntCall.pcnt_unit_stop).2
    | _ => self
  let s2 := match self._state with
    | State.INIT => s1
    | _ => (s1.driverCall drv PcntCall.pcnt_unit_disable).2
  let r := s2.driverCall drv PcntCall.pcnt_del_unit
  { aborted := decide (r.1 ≠ ESP_OK), hw := r.2._unit, calls := r.2.calls }

/-- The driver function behind each transition operation. -/
def callOf : Op → PcntCall
  | .enable => PcntCall.pcnt_unit_enable
  | .disable => PcntCall.pcnt_unit_disable
  | .start => PcntCall.pcnt_unit_start
  | .stop => PcntCall.pcnt_unit_stop

/-- Dispatch of a transition operation to its method. -/
def apply (drv : PcntDriver σ) (op : Op) (self : PulseCounter σ) :
    Option esp_err_t × PulseCounter σ :=
  match op with
  | .enable => self.enable drv
  | .disable => self.disable drv
  | .start => self.start drv
  | .stop => self.stop drv

/-- What a caller observes of one operation: the exception code, or the state
`getState()` reports afterwards. -/
def outcome (drv : PcntDriver σ) (op : Op) (self : PulseCounter σ) : Except esp_err_t State :=
  match self.apply drv op with
  | (some e, _) => Except.error e
  | (none, t) => Except.ok t.getState

end PulseCounter

/-! ## mcpwm::Timer (`mcpwm_cxx.cpp`) -/

namespace mcpwm

/-- The driver functions `mcpwm::Timer` calls for its lifecycle. -/
inductive TimerCall where
  | mcpwm_new_timer
  | mcpwm_timer_enable
  | mcpwm_timer_disable
  | mcpwm_del_timer
  deriving DecidableEq, Repr

/-- An external MCPWM timer driver over driver-side state `σ`. -/
abbrev TimerDriver (σ : Type) := TimerCall → σ → esp_err_t × σ

/-- The class `mcpwm::Timer`: the flag `_isEnable`, the driver-side state
behind `_handle`, and the ghost log of driver calls. -/
structure Timer (σ : Type) where
  _isEnable : Bool
  _handle : σ
  calls : List TimerCall

namespace Timer

variable {σ : Type}

/-- Issue one driver call on the handle and log it. -/
def driverCall (drv : TimerDriver σ) (c : TimerCall) (self : Timer σ) :
    esp_err_t × Timer σ :=
  let r := drv c self._handle
  (r.1, { self with _handle := r.2, calls := self.calls ++ [c] })

/-- The constructor `Timer::Timer`. -/
def construct (drv : TimerDriver σ) (hw : σ) : Except esp_err_t (Timer σ) :=
  let self : Timer σ := { _isEnable := false, _handle := hw, calls := [] }
  let r := self.driverCall drv TimerCall.mcpwm_new_timer
  match CHECK_THROW r.1 with
  | some e => Except.error e
  | none => Except.ok r.2

/-- The method `Timer::enable`. -/
def enable (drv : TimerDriver σ) (self : Timer σ) : Option esp_err_t × Timer σ :=
  let r := self.driverCall drv TimerCall.mcpwm_timer_enable
  match CHECK_THROW r.1 with
  | some e => (some e, r.2)
  | none => (none, { r.2 with _isEnable := true })

/-- The method `Timer::disable`. -/
def disable (drv : TimerDriver σ) (self : Timer σ) : Option esp_err_t × Timer σ :=
  let r := self.driverCall drv TimerCall.mcpwm_timer_disable
  match CHECK_THROW r.1 with
  | some e => (some e, r.2)
  | none => (none, { r.2 with _isEnable := false })

/-- The destructor `Timer::~Timer`: when `_isEnable`,
`assert(mcpwm_timer_disable(_handle) == ESP_OK)`; then
`assert(mcpwm_del_timer(_handle) == ESP_OK)`.  A failed assertion aborts, so
nothing after it is executed. -/
def destroy (drv : TimerDriver σ) (self : Timer σ) : Teardown σ TimerCall :=
  if self._isEnable then
    let r1 := self.driverCall drv TimerCall.mcpwm_timer_disable
    if r1.1 ≠ ESP_OK then
      { aborted := true, hw := r1.2._handle, calls := r1.2.calls }
    else
      let s := { r1.2 with _isEnable := false }
      let r2 := s.driverCall drv TimerCall.mcpwm_del_timer
      { aborted := decide (r2.1 ≠ ESP_OK), hw := r2.2._handle, calls := r2.2.calls }
  else
    let r2 := self.driverCall drv TimerCall.mcpwm_del_timer
    { aborted := decide (r2.1 ≠ ESP_OK), hw := r2.2._handle, calls := r2.2.calls }

end Timer

end mcpwm

/-! ## The documented transition table and stand-in drivers -/

/-- The transition table as the specification documents it: the four legal
pairs with their next state, `ESP_ERR_INVALID_STATE` for every other pair. -/
def lifecycleTable : State → Op → Except esp_err_t State
  | State.INIT, Op.enable => Except.ok State.ENABLE
  | State.ENABLE, Op.disable => Except.ok State.INIT
  | State.ENABLE, Op.start => Except.ok State.RUN
  | State.RUN, Op.stop => Except.ok State.ENABLE
  | _, _ => Except.error ESP_ERR_INVALID_STATE

/-- A stand-in for the external GPTimer driver that keeps the three-state
machine the `@note`/`@throw` lines of `gptimer_cxx.hpp` describe: enable only
from init, disable and start only from enable, stop only from run, delete only
from init; anything else answers `ESP_ERR_INVALID_STATE` and changes nothing.
The driver-side state is the driver's own state variable. -/
def gptimerDocumented : GptimerDriver State
  | GptimerCall.gptimer_new_timer, _ => (ESP_OK, State.INIT)
  | GptimerCall.gptimer_enable, State.INIT => (ESP_OK, State.ENABLE)
  | GptimerCall.gptimer_disable, State.ENABLE => (ESP_OK, State.INIT)
  | GptimerCall.gptimer_start, State.ENABLE => (ESP_OK, State.RUN)
  | GptimerCall.gptimer_stop, State.RUN => (ESP_OK, State.ENABLE)
  | GptimerCall.gptimer_del_timer, State.INIT => (ESP_OK, State.INIT)
  | _, s => (ESP_ERR_INVALID_STATE, s)

/-- A stand-in for the external PCNT driver as the `@note`/`@throw` lines of
`pulse_counter_cxx.hpp` describe it.  The driver-side state is whether the unit
is enabled.  `enable` fails "if is already enabled", `disable` fails "if not
enabled yet", and both `start` and `stop` "should be called when the unit is in
the enable state" and fail only "if not enabled yet"; neither moves the unit
out of the enable state.  Deletion needs the init state. -/
def pcntDocumented : PcntDriver Bool
  | PcntCall.pcnt_new_unit, _ => (ESP_OK, false)
  | PcntCall.pcnt_unit_enable, false => (ESP_OK, true)
  | PcntCall.pcnt_unit_disable, true => (ESP_OK, false)
  | PcntCall.pcnt_unit_start, true => (ESP_OK, true)
  | PcntCall.pcnt_unit_stop, true => (ESP_OK, true)
  | PcntCall.pcnt_del_unit, false => (ESP_OK, false)
  | _, s => (ESP_ERR_INVALID_STATE, s)

/-- A GPTimer driver without state whose every call succeeds. -/
def gptimerAlwaysOk : GptimerDriver Unit := fun _ _ => (ESP_OK, ())

/-- A GPTimer driver without state whose `gptimer_stop` answers `ESP_FAIL`
("if other error") and whose other calls succeed. -/
def gptimerStopFails : GptimerDriver Unit := fun c _ =>
  (if c = GptimerCall.gptimer_stop then ESP_FAIL else ESP_OK, ())

/-! ## Cross-context queue (`include/queue_cxx.hpp`)

`Queue<T>` forwards every operation to the kernel queue behind `_handle`.  The
kernel is not part of the repository; it is modelled below from the
specification's description of the queue: a bounded buffer in strict FIFO
order, rejecting new items when full, with a separate overwrite operation for
one-slot queues. -/

/-- The kernel's `BaseType_t`. -/
abbrev BaseType_t := Int

/-- The kernel's `TickType_t`. -/
abbrev TickType_t := Nat

/-- The kernel constant `pdFALSE`. -/
def pdFALSE : BaseType_t := 0

/-- The kernel constant `pdTRUE`. -/
def pdTRUE : BaseType_t := 1

/-- The kernel constant `pdPASS`, equal to `pdTRUE`. -/
def pdPASS : BaseType_t := 1

/-- The kernel constant `errQUEUE_FULL`. -/
def errQUEUE_FULL : BaseType_t := 0

/-- The kernel constant `errQUEUE_EMPTY`. -/
def errQUEUE_EMPTY : BaseType_t := 0

/-- Where `xQueueGenericSend` puts the new item. -/
inductive QueuePosition where
  | queueSEND_TO_BACK
  | queueSEND_TO_FRONT
  | queueOVERWRITE
  deriving DecidableEq, Repr

/-- Modelled from the spec: the kernel queue object behind a `QueueHandle_t`
(absent from the sources).  "Attributes: capacity (items), current occupancy,
strict FIFO ordering": `uxLength` is the capacity and `items` the queued
elements, oldest first.  The ghost counter `ticksBlocked` adds up the ticks
for which callers were suspended on this queue. -/
structure QueueDefinition (T : Type) where
  uxLength : Nat
  items : List T
  ticksBlocked : Nat
  deriving DecidableEq, Repr

/-- Modelled from the spec: `xQueueCreate` (absent from the sources), "created
with a fixed capacity", empty.  No queue is returned for length zero or when
the allocation fails. -/
def xQueueCreate {T : Type} (uxQueueLength : Nat) (heapOk : Bool) :
    Option (QueueDefinition T) :=
  if uxQueueLength = 0 ∨ heapOk = false then none
  else some { uxLength := uxQueueLength, items := [], ticksBlocked := 0 }

/-- Modelled from the spec: how the kernel places an item (absent from the
sources).  To the back, to the front, or "unconditionally replaces the sole
slot's content": overwriting keeps the occupancy of a non-empty queue, the new
item becoming the one received next; on a one-slot queue the result is exactly
the new item. -/
def prvCopyDataToQueue {T : Type} (items : List T) (x : T) : QueuePosition → List T
  | QueuePosition.queueSEND_TO_BACK => items ++ [x]
  | QueuePosition.queueSEND_TO_FRONT => x :: items
  | QueuePosition.queueOVERWRITE => x :: items.dropLast

/-- Modelled from the spec: `xQueueGenericSend` (absent from the sources), the
function behind `xQueueSend`, `xQueueSendToBack`, `xQueueSendToFront` and
`xQueueOverwrite`.  `x` is the item-sized content found at `pvItemToQueue`.
"Reject new items when full (never silently drop or overwrite)"; a caller that
finds the queue full is suspended for `xTicksToWait` ticks and, nothing else
running, "returns false on timeout without enqueueing". -/
def xQueueGenericSend {T : Type} (q : QueueDefinition T) (x : T)
    (xTicksToWait : TickType_t) (xCopyPosition : QueuePosition) :
    BaseType_t × QueueDefinition T :=
  if q.items.length < q.uxLength ∨ xCopyPosition = QueuePosition.queueOVERWRITE then
    (pdPASS, { q with items := prvCopyDataToQueue q.items x xCopyPosition })
  else
    (errQUEUE_FULL, { q with ticksBlocked := q.ticksBlocked + xTicksToWait })

/-- Modelled from the spec: `xQueueGenericSendFromISR` (absent from the
sources): "never blocks; returns accepted=false if the queue is full, and
wakeHint=true if a blocked consumer was unblocked by this enqueue".  `woken` is
the content of `*pxHigherPriorityTaskWoken` before the call, `waiter` tells
whether a higher-priority task is blocked receiving; the second component of
the result is the content of `*pxHigherPriorityTaskWoken` afterwards. -/
def xQueueGenericSendFromISR {T : Type} (q : QueueDefinition T) (x : T)
    (woken : BaseType_t) (waiter : Bool) (xCopyPosition : QueuePosition) :
    BaseType_t × BaseType_t × QueueDefinition T :=
  if q.items.length < q.uxLength ∨ xCopyPosition = QueuePosition.queueOVERWRITE then
    (pdPASS, (if waiter then pdTRUE else woken),
      { q with items := prvCopyDataToQueue q.items x xCopyPosition })
  else
    (errQUEUE_FULL, woken, q)

/-- Modelled from the spec: `xQueueReceive` (absent from the sources):
"dequeues the oldest item, blocking up to maxWait if empty; returns none on
timeout".  The second component is the receive buffer as the kernel leaves it,
`none` when it was not written. -/
def xQueueReceive {T : Type} (q : QueueDefinition T) (xTicksToWait : TickType_t) :
    BaseType_t × Option T × QueueDefinition T :=
  match q.items with
  | x :: rest => (pdPASS, some x, { q with items := rest })
  | [] => (errQUEUE_EMPTY, none, { q with ticksBlocked := q.ticksBlocked + xTicksToWait })

/-- Modelled from the spec: `xQueueReceiveFromISR` (absent from the sources):
"never blocks".  `woken` and `waiter` are as for sending, the waiter being a
task blocked sending. -/
def xQueueReceiveFromISR {T : Type} (q : QueueDefinition T) (woken : BaseType_t)
    (waiter : Bool) : BaseType_t × Option T × BaseType_t × QueueDefinition T :=
  match q.items with
  | x :: rest => (pdPASS, some x, (if waiter then pdTRUE else woken), { q with items := rest })
  | [] => (pdFALSE, none, woken, q)

/-- Modelled from the spec: `xQueuePeek` (absent from the sources): "peek
variants return a copy without removing". -/
def xQueuePeek {T : Type} (q : QueueDefinition T) (xTicksToWait : TickType_t) :
    BaseType_t × Option T × QueueDefinition T :=
  match q.items with
  | x :: _ => (pdPASS, some x, q)
  | [] => (errQUEUE_EMPTY, none, { q with ticksBlocked := q.ticksBlocked + xTicksToWait })

/-- Modelled from the spec: `xQueuePeekFromISR` (absent from the sources). -/
def xQueuePeekFromISR {T : Type} (q : QueueDefinition T) : BaseType_t × Option T :=
  match q.items with
  | x :: _ => (pdPASS, some x)
  | [] => (pdFALSE, none)

/-- Modelled from the spec: `uxQueueMessagesWaiting` (absent from the
sources), the current occupancy. -/
def uxQueueMessagesWaiting {T : Type} (q : QueueDefinition T) : Nat := q.items.length

/-- Modelled from the spec: `uxQueueSpacesAvailable` (absent from the
sources), capacity minus occupancy. -/
def uxQueueSpacesAvailable {T : Type} (q : QueueDefinition T) : Nat :=
  q.uxLength - q.items.length

/-- Modelled from the spec: `xQueueReset` (absent from the sources), back to
the empty state; always `pdPASS`. -/
def xQueueReset {T : Type} (q : QueueDefinition T) : BaseType_t × QueueDefinition T :=
  (pdPASS, { q with items := [] })

/-- The class template `Queue<T>`: its only member is `_handle`. -/
structure Queue (T : Type) where
  _handle : QueueDefinition T
  deriving DecidableEq, Repr

namespace Queue

variable {T : Type}

/-- The constructor `Queue::Queue(length)`: `xQueueCreate`, and
`ESPException(ESP_ERR_NO_MEM)` when it returns a null handle. -/
def construct (length : Nat) (heapOk : Bool) : Except esp_err_t (Queue T) :=
  match xQueueCreate length heapOk with
  | none => Except.error ESP_ERR_NO_MEM
  | some h => Except.ok { _handle := h }

/-- The method `Queue::isQueueEmptyFromISR`. -/
def isQueueEmptyFromISR (self : Queue T) : Bool := self._handle.items.isEmpty

/-- The method `Queue::isQueueFullFromISR`. -/
def isQueueFullFromISR (self : Queue T) : Bool :=
  decide (self._handle.items.length = self._handle.uxLength)

/-- The method `Queue::messagesWaiting`. -/
def messagesWaiting (self : Queue T) : Nat := uxQueueMessagesWaiting self._handle

/-- The method `Queue::messagesWaitingFromISR`. -/
def messagesWaitingFromISR (self : Queue T) : Nat := uxQueueMessagesWaiting self._handle

/-- The method `Queue::spacesAvailable`. -/
def spacesAvailable (self : Queue T) : Nat := uxQueueSpacesAvailable self._handle

/-- The method `Queue::sendToFront`: `xQueueSendToFront(_handle, &itemToQueue,
ticksToWait) == pdTRUE`. -/
def sendToFront (self : Queue T) (itemToQueue : T) (ticksToWait : TickType_t) :
    Bool × Queue T :=
  let r := xQueueGenericSend self._handle itemToQueue ticksToWait
    QueuePosition.queueSEND_TO_FRONT
  (decide (r.1 = pdTRUE), { _handle := r.2 })

/-- The method `Queue::sendToFrontFromISR`: `temp` starts as `pdFALSE`; on a
result other than `pdTRUE` it returns false at once; otherwise the caller's
flag is set when `temp == pdTRUE`.  The result carries the returned boolean and
the caller's flag after the call. -/
def sendToFrontFromISR (self : Queue T) (itemToQueue : T) (higherPriorityTaskWoken : Bool)
    (waiter : Bool) : Bool × Bool × Queue T :=
  let r := xQueueGenericSendFromISR self._handle itemToQueue pdFALSE waiter
    QueuePosition.queueSEND_TO_FRONT
  if r.1 ≠ pdTRUE then (false, higherPriorityTaskWoken, { _handle := r.2.2 })
  else (true, (if r.2.1 = pdTRUE then true else higherPriorityTaskWoken),
    { _handle := r.2.2 })

/-- The method `Queue::sendToBack`. -/
def sendToBack (self : Queue T) (itemToQueue : T) (ticksToWait : TickType_t) :
    Bool × Queue T :=
  let r := xQueueGenericSend self._handle itemToQueue ticksToWait
    QueuePosition.queueSEND_TO_BACK
  (decide (r.1 = pdTRUE), { _handle := r.2 })

/-- The method `Queue::sendToBackFromISR`. -/
def sendToBackFromISR (self : Queue T) (itemToQueue : T) (higherPriorityTaskWoken : Bool)
    (waiter : Bool) : Bool × Bool × Queue T :=
  let r := xQueueGenericSendFromISR self._handle itemToQueue pdFALSE waiter
    QueuePosition.queueSEND_TO_BACK
  if r.1 ≠ pdTRUE then (false, higherPriorityTaskWoken, { _handle := r.2.2 })
  else (true, (if r.2.1 = pdTRUE then true else higherPriorityTaskWoken),
    { _handle := r.2.2 })

/-- The method `Queue::send`: `xQueueSend(_handle, &itemToQueue, ticksToWait)
== pdTRUE`, `xQueueSend` posting to the back. -/
def send (self : Queue T) (itemToQueue : T) (ticksToWait : TickType_t) : Bool × Queue T :=
  let r := xQueueGenericSend self._handle itemToQueue ticksToWait
    QueuePosition.queueSEND_TO_BACK
  (decide (r.1 = pdTRUE), { _handle := r.2 })

/-- The method `Queue::sendFromISR`, `xQueueSendFromISR` posting to the back. -/
def sendFromISR (self : Queue T) (itemToQueue : T) (higherPriorityTaskWoken : Bool)
    (waiter : Bool) : Bool × Bool × Queue T :=
  let r := xQueueGenericSendFromISR self._handle itemToQueue pdFALSE waiter
    QueuePosition.queueSEND_TO_BACK
  if r.1 ≠ pdTRUE then (false, higherPriorityTaskWoken, { _handle := r.2.2 })
  else (true, (if r.2.1 = pdTRUE then true else higherPriorityTaskWoken),
    { _handle := r.2.2 })

/-- The method `Queue::overwrite`:
`assert(xQueueOverwrite(_handle, itemToQueue) == pdPASS)`.  The second argument
is `itemToQueue` itself, not `&itemToQueue` as in every other sending method,
so the kernel copies the item-sized content found at the address the item's
value converts to; `pointee` gives that content.  The boolean tells whether the
assertion failed. -/
def overwrite (pointee : T → T) (self : Queue T) (itemToQueue : T) : Bool × Queue T :=
  let r := xQueueGenericSend self._handle (pointee itemToQueue) 0
    QueuePosition.queueOVERWRITE
  (decide (r.1 ≠ pdPASS), { _handle := r.2 })

/-- The method `Queue::overwriteFromISR`:
`assert(xQueueOverwriteFromISR(_handle, &itemToQueue, &temp) == pdPASS)`, then
the caller's flag is set when `temp == pdTRUE`.  The result carries whether the
assertion failed and the caller's flag after the call. -/
def overwriteFromISR (self : Queue T) (itemToQueue : T) (higherPriorityTaskWoken : Bool)
    (waiter : Bool) : Bool × Bool × Queue T :=
  let r := xQueueGenericSendFromISR self._handle itemToQueue pdFALSE waiter
    QueuePosition.queueOVERWRITE
  if r.1 ≠ pdPASS then (true, higherPriorityTaskWoken, { _handle := r.2.2 })
  else (false, (if r.2.1 = pdTRUE then true else higherPriorityTaskWoken),
    { _handle := r.2.2 })

/-- The method `Queue::peek`: an empty optional unless `xQueuePeek` returns
`pdTRUE`, else the buffer the kernel filled. -/
def peek (self : Queue T) (ticksToWait : TickType_t) : Option T × Queue T :=
  let r := xQueuePeek self._handle ticksToWait
  if r.1 ≠ pdTRUE then (none, { _handle := r.2.2 }) else (r.2.1, { _handle := r.2.2 })

/-- The method `Queue::peekFromISR`. -/
def peekFromISR (self : Queue T) : Option T :=
  let r := xQueuePeekFromISR self._handle
  if pdTRUE ≠ r.1 then none else r.2

/-- The method `Queue::receive`: an empty optional unless `xQueueReceive`
returns `pdTRUE`, else the buffer the kernel filled. -/
def receive (self : Queue T) (ticksToWait : TickType_t) : Option T × Queue T :=
  let r := xQueueReceive self._handle ticksToWait
  if r.1 ≠ pdTRUE then (none, { _handle := r.2.2 }) else (r.2.1, { _handle := r.2.2 })

/-- The method `Queue::receiveFromISR`: `taskWokenByReceive` is a pointer that
may be null (`none`); the pointee is set when it is not null and
`temp == pdTRUE`. -/
def receiveFromISR (self : Queue T) (taskWokenByReceive : Option Bool) (waiter : Bool) :
    Option T × Option Bool × Queue T :=
  let r := xQueueReceiveFromISR self._handle pdFALSE waiter
  if r.1 ≠ pdTRUE then (none, taskWokenByReceive, { _handle := r.2.2.2 })
  else (r.2.1,
    (match taskWokenByReceive with
     | none => none
     | some b => some (if r.2.2.1 = pdTRUE then true else b)),
    { _handle := r.2.2.2 })

/-- The method `Queue::reset`: `assert(xQueueReset(_handle) == pdPASS)`.  The
boolean tells whether the assertion failed. -/
def reset (self : Queue T) : Bool × Queue T :=
  let r := xQueueReset self._handle
  (decide (r.1 ≠ pdPASS), { _handle := r.2 })

end Queue

/-- One call of a sending method, from a task or from an interrupt handler. -/
inductive SendCall (T : Type) where
  | send (itemToQueue : T) (ticksToWait : TickType_t)
  | sendFromISR (itemToQueue : T) (higherPriorityTaskWoken : Bool) (waiter : Bool)

namespace SendCall

variable {T : Type}

/-- The item a call carries. -/
def item : SendCall T → T
  | send x _ => x
  | sendFromISR x _ _ => x

/-- Whether the call cannot suspend its caller: `send` with no wait, or any
call from an interrupt handler. -/
def nonBlocking : SendCall T → Bool
  | send _ t => decide (t = 0)
  | sendFromISR _ _ _ => true

end SendCall

namespace Queue

variable {T : Type}

/-- Perform one sending call; the boolean is what the method returned. -/
def perform (self : Queue T) : SendCall T → Bool × Queue T
  | SendCall.send x t => self.send x t
  | SendCall.sendFromISR x w k => ((self.sendFromISR x w k).1, (self.sendFromISR x w k).2.2)

/-- Perform sending calls in order, collecting what each returned. -/
def performAll (self : Queue T) : List (SendCall T) → List Bool × Queue T
  | [] => ([], self)
  | c :: cs =>
    let r := self.perform c
    let rs := performAll r.2 cs
    (r.1 :: rs.1, rs.2)

/-- The items of the calls that returned true, in call order. -/
def accepted (calls : List (SendCall T)) (results : List Bool) : List T :=
  ((calls.zip results).filter (fun p => p.2)).map (fun p => p.1.item)

/-- Call `receive(0)` the given number of times, collecting what each
returned. -/
def drain (self : Queue T) : Nat → List (Option T) × Queue T
  | 0 => ([], self)
  | n + 1 =>
    let r := self.receive 0
    let rs := drain r.2 n
    (r.1 :: rs.1, rs.2)

end Queue

/-- A memory for the overwrite scenario: the word stored at each address.
Address 100 holds 7, address 200 holds 9, every other address holds 0. -/
def wordAt : Nat → Nat := fun addr =>
  if addr = 100 then 7 else if addr = 200 then 9 else 0

/-- One call of a method that may change the queue, for sequences of mixed
operations. -/
inductive QueueOp (T : Type) where
  | send (itemToQueue : T) (ticksToWait : TickType_t)
  | sendToFront (itemToQueue : T) (ticksToWait : TickType_t)
  | sendToBack (itemToQueue : T) (ticksToWait : TickType_t)
  | overwrite (itemToQueue : T)
  | receive (ticksToWait : TickType_t)
  | peek (ticksToWait : TickType_t)
  | reset

/-- Whether the operation is `overwrite`. -/
def QueueOp.isOverwrite {T : Type} : QueueOp T → Bool
  | QueueOp.overwrite _ => true
  | _ => false

namespace Queue

variable {T : Type}

/-- The queue after one operation. -/
def applyOp (pointee : T → T) (self : Queue T) : QueueOp T → Queue T
  | QueueOp.send x t => (self.send x t).2
  | QueueOp.sendToFront x t => (self.sendToFront x t).2
  | QueueOp.sendToBack x t => (self.sendToBack x t).2
  | QueueOp.overwrite x => (Queue.overwrite pointee self x).2
  | QueueOp.receive t => (self.receive t).2
  | QueueOp.peek t => (self.peek t).2
  | QueueOp.reset => self.reset.2

/-- The queue after a sequence of operations, performed in order. -/
def applyOps (pointee : T → T) (self : Queue T) : List (QueueOp T) → Queue T
  | [] => self
  | op :: ops => applyOps pointee (self.applyOp pointee op) ops

end Queue

/-! ## Callback slots and interrupt dispatch -/

/-- The address of a facade object: what `this`, a `const Facade &` argument
and a `void * userCtx` denote.  Address 0 is `nullptr`. -/
abbrev Addr := Nat

/-- A `std::function<bool(const Facade &, const EventData &)>`; `none` is the
empty (default-constructed) function.  The facade reference is the address of
the facade. -/
abbrev EventCallBack (E : Type) := Option (Addr → E → Bool)

/-- What one event delivery leads to: no handler is called, the handler
returns a boolean, the handler calls an empty `std::function` (which throws
`std::bad_function_call`), or the handler's context points to no facade. -/
inductive Dispatch where
  | notInvoked
  | returned (b : Bool)
  | bad_function_call
  | wildPointer
  deriving DecidableEq, Repr

/-- A handler function as it is stored in a driver's callbacks structure: given
the memory (which facade lives at which address), the user context and the
event data. -/
abbrev Handler (O E : Type) := (Addr → Option O) → Addr → E → Dispatch

/-- The body shared by every handler lambda of the facades:
`facade = reinterpret_cast<const Facade *>(userCtx);
return facade->member(*facade, *edata);`. -/
def trampoline {O E : Type} (member : O → EventCallBack E) : Handler O E :=
  fun heap userCtx edata =>
    match heap userCtx with
    | none => Dispatch.wildPointer
    | some facade =>
      match member facade with
      | none => Dispatch.bad_function_call
      | some f => Dispatch.returned (f userCtx edata)

/-- A memory holding one facade at one address. -/
def heapOf {O : Type} (self : Addr) (facade : O) : Addr → Option O :=
  fun a => if a = self then some facade else none

/-- Modelled from the spec: event delivery by the driver (absent from the
sources).  "The bridge invoked directly by hardware interrupt delivery" is
called with the "opaque user-context pointer supplied at registration time";
a null handler is not called. -/
def deliver {O E : Type} (handler : Option (Handler O E)) (heap : Addr → Option O)
    (user_data : Addr) (edata : E) : Dispatch :=
  match handler with
  | none => Dispatch.notInvoked
  | some h => h heap user_data edata

/-- An external driver's registration function over driver-side state `σ`.
The first argument is `none` when the callbacks pointer passed is null, and
otherwise tells, member by member, which handlers of the callbacks structure
are non-null. -/
abbrev RegisterDriver (σ : Type) := Option (List Bool) → σ → esp_err_t × σ

/-- Outcome of a registration method: the exception thrown if any, the facade
afterwards, and the callbacks structure (`none` for a null pointer) and user
context handed to the driver. -/
structure Registered (O H : Type) where
  thrown : Option esp_err_t
  obj : O
  cbs : Option H
  user_data : Addr

/-- The class `GpTimer` with its member `_callback` and its own address. -/
structure GpTimerObject (σ E : Type) extends GpTimer σ where
  self : Addr
  _callback : EventCallBack E

/-- The driver structure `gptimer_event_callbacks_t`. -/
structure gptimer_event_callbacks_t (σ E : Type) where
  on_alarm : Option (Handler (GpTimerObject σ E) E)

namespace GpTimerObject

variable {σ E : Type}

/-- The lambda `GpTimer::registerEventCallbacks` installs as `on_alarm`. -/
def on_alarm : Handler (GpTimerObject σ E) E := trampoline (fun t => t._callback)

/-- The method `GpTimer::registerEventCallbacks`: `_callback = callback`, then
`on_alarm` is the lambda when `_callback` is non-empty and `nullptr`
otherwise, then `CHECK_THROW(gptimer_register_event_callbacks(_gptimer, &cbs,
this))`. -/
def registerEventCallbacks (reg : RegisterDriver σ) (callback : EventCallBack E)
    (t : GpTimerObject σ E) :
    Registered (GpTimerObject σ E) (gptimer_event_callbacks_t σ E) :=
  let t1 : GpTimerObject σ E := { t with _callback := callback }
  let cbs : gptimer_event_callbacks_t σ E :=
    { on_alarm := if t1._callback.isSome then some on_alarm else none }
  let r := reg (some [cbs.on_alarm.isSome]) t1._gptimer
  { thrown := CHECK_THROW r.1, obj := { t1 with _gptimer := r.2 },
    cbs := some cbs, user_data := t1.self }

end GpTimerObject

/-- The class `PulseCounter` with its member `_callback` and its own address. -/
structure PulseCounterObject (σ E : Type) extends PulseCounter σ where
  self : Addr
  _callback : EventCallBack E

/-- The driver structure `pcnt_event_callbacks_t`. -/
structure pcnt_event_callbacks_t (σ E : Type) where
  on_reach : Option (Handler (PulseCounterObject σ E) E)

namespace PulseCounterObject

variable {σ E : Type}

/-- The lambda `PulseCounter::registerEventCallbacks` installs as `on_reach`. -/
def on_reach : Handler (PulseCounterObject σ E) E := trampoline (fun u => u._callback)

/-- The method `PulseCounter::registerEventCallbacks`: `_callback = callback`,
then `on_reach` is the lambda, whatever the callback, then
`CHECK_THROW(pcnt_unit_register_event_callbacks(_unit, &callbacks, this))`. -/
def registerEventCallbacks (reg : RegisterDriver σ) (callback : EventCallBack E)
    (u : PulseCounterObject σ E) :
    Registered (PulseCounterObject σ E) (pcnt_event_callbacks_t σ E) :=
  let u1 : PulseCounterObject σ E := { u with _callback := callback }
  let callbacks : pcnt_event_callbacks_t σ E := { on_reach := some on_reach }
  let r := reg (some [callbacks.on_reach.isSome]) u1._unit
  { thrown := CHECK_THROW r.1, obj := { u1 with _unit := r.2 },
    cbs := some callbacks, user_data := u1.self }

/-- The method `PulseCounter::unregisterEventCallbacks`:
`CHECK_THROW(pcnt_unit_register_event_callbacks(_unit, nullptr, nullptr))`;
`_callback` is left as it is. -/
def unregisterEventCallbacks (reg : RegisterDriver σ) (u : PulseCounterObject σ E) :
    Registered (PulseCounterObject σ E) (pcnt_event_callbacks_t σ E) :=
  let r := reg none u._unit
  { thrown := CHECK_THROW r.1, obj := { u with _unit := r.2 }, cbs := none, user_data := 0 }

end PulseCounterObject

namespace mcpwm

/-- The class `mcpwm::Timer` with its members `_onFull`, `_onEmpty`, `_onStop`
and its own address. -/
structure TimerObject (σ E : Type) extends Timer σ where
  self : Addr
  _onFull : EventCallBack E
  _onEmpty : EventCallBack E
  _onStop : EventCallBack E

/-- The driver structure `mcpwm_timer_event_callbacks_t`. -/
structure mcpwm_timer_event_callbacks_t (σ E : Type) where
  on_full : Option (Handler (TimerObject σ E) E)
  on_empty : Option (Handler (TimerObject σ E) E)
  on_stop : Option (Handler (TimerObject σ E) E)

namespace TimerObject

variable {σ E : Type}

/-- The lambda installed as `on_full`. -/
def on_full : Handler (TimerObject σ E) E := trampoline (fun t => t._onFull)

/-- The lambda installed as `on_empty`. -/
def on_empty : Handler (TimerObject σ E) E := trampoline (fun t => t._onEmpty)

/-- The lambda installed as `on_stop`. -/
def on_stop : Handler (TimerObject σ E) E := trampoline (fun t => t._onStop)

/-- The method `mcpwm::Timer::registerEventCallBacks`: the three members are
assigned, each handler is its lambda when the member is non-empty and `nullptr`
otherwise, then
`CHECK_THROW(mcpwm_timer_register_event_callbacks(_handle, &cbs, this))`. -/
def registerEventCallBacks (reg : RegisterDriver σ)
    (onFull onEmpty onStop : EventCallBack E) (t : TimerObject σ E) :
    Registered (TimerObject σ E) (mcpwm_timer_event_callbacks_t σ E) :=
  let t1 : TimerObject σ E :=
    { t with
      _onFull := onFull,
      _onEmpty := onEmpty,
      _onStop := onStop }
  let cbs : mcpwm_timer_event_callbacks_t σ E :=
    { on_full := if t1._onFull.isSome then some on_full else none,
      on_empty := if t1._onEmpty.isSome then some on_empty else none,
      on_stop := if t1._onStop.isSome then some on_stop else none }
  let r := reg (some [cbs.on_full.isSome, cbs.on_empty.isSome, cbs.on_stop.isSome])
    t1._handle
  { thrown := CHECK_THROW r.1, obj := { t1 with _handle := r.2 },
    cbs := some cbs, user_data := t1.self }

end TimerObject

/-- The class `mcpwm::Fault`: handle, own address, and the members
`_onFaultEnter`, `_onFaultExit`. -/
structure Fault (σ E : Type) where
  _handle : σ
  self : Addr
  _onFaultEnter : EventCallBack E
  _onFaultExit : EventCallBack E

/-- The driver structure `mcpwm_fault_event_callbacks_t`. -/
structure mcpwm_fault_event_callbacks_t (σ E : Type) where
  on_fault_enter : Option (Handler (Fault σ E) E)
  on_fault_exit : Option (Handler (Fault σ E) E)

namespace Fault

variable {σ E : Type}

/-- The lambda installed as `on_fault_enter`. -/
def on_fault_enter : Handler (Fault σ E) E := trampoline (fun f => f._onFaultEnter)

/-- The lambda installed as `on_fault_exit`. -/
def on_fault_exit : Handler (Fault σ E) E := trampoline (fun f => f._onFaultExit)

/-- The method `mcpwm::Fault::registerEventCallbacks`. -/
def registerEventCallbacks (reg : RegisterDriver σ)
    (onFaultEnter onFaultExit : EventCallBack E) (f : Fault σ E) :
    Registered (Fault σ E) (mcpwm_fault_event_callbacks_t σ E) :=
  let f1 : Fault σ E := { f with _onFaultEnter := onFaultEnter, _onFaultExit := onFaultExit }
  let cbs : mcpwm_fault_event_callbacks_t σ E :=
    { on_fault_enter := if f1._onFaultEnter.isSome then some on_fault_enter else none,
      on_fault_exit := if f1._onFaultExit.isSome then some on_fault_exit else none }
  let r := reg (some [cbs.on_fault_enter.isSome, cbs.on_fault_exit.isSome]) f1._handle
  { thrown := CHECK_THROW r.1, obj := { f1 with _handle := r.2 },
    cbs := some cbs, user_data := f1.self }

end Fault

/-- The class `mcpwm::Operator`: handle, own address, and the members
`_onBrakeCbc`, `_onBrakeOst`. -/
structure Operator (σ E : Type) where
  _handle : σ
  self : Addr
  _onBrakeCbc : EventCallBack E
  _onBrakeOst : EventCallBack E

/-- The driver structure `mcpwm_operator_event_callbacks_t`. -/
structure mcpwm_operator_event_callbacks_t (σ E : Type) where
  on_brake_cbc : Option (Handler (Operator σ E) E)
  on_brake_ost : Option (Handler (Operator σ E) E)

namespace Operator

variable {σ E : Type}

/-- The lambda installed as `on_brake_cbc`. -/
def on_brake_cbc : Handler (Operator σ E) E := trampoline (fun o => o._onBrakeCbc)

/-- The lambda installed as `on_brake_ost`. -/
def on_brake_ost : Handler (Operator σ E) E := trampoline (fun o => o._onBrakeOst)

/-- The method `mcpwm::Operator::registerEventCallbacks`. -/
def registerEventCallbacks (reg : RegisterDriver σ)
    (onBrakeCbc onBrakeOst : EventCallBack E) (o : Operator σ E) :
    Registered (Operator σ E) (mcpwm_operator_event_callbacks_t σ E) :=
  let o1 : Operator σ E := { o with _onBrakeCbc := onBrakeCbc, _onBrakeOst := onBrakeOst }
  let cbs : mcpwm_operator_event_callbacks_t σ E :=
    { on_brake_cbc := if o1._onBrakeCbc.isSome then some on_brake_cbc else none,
      on_brake_ost := if o1._onBrakeOst.isSome then some on_brake_ost else none }
  let r := reg (some [cbs.on_brake_cbc.isSome, cbs.on_brake_ost.isSome]) o1._handle
  { thrown := CHECK_THROW r.1, obj := { o1 with _handle := r.2 },
    cbs := some cbs, user_data := o1.self }

end Operator

/-- The class `mcpwm::Comparators`: handle, own address, and the member
`_callback`. -/
structure Comparators (σ E : Type) where
  _handle : σ
  self : Addr
  _callback : EventCallBack E

/-- The driver structure `mcpwm_comparator_event_callbacks_t`. -/
structure mcpwm_comparator_event_callbacks_t (σ E : Type) where
  on_reach : Option (Handler (Comparators σ E) E)

namespace Comparators

variable {σ E : Type}

/-- The lambda installed as `on_reach`. -/
def on_reach : Handler (Comparators σ E) E := trampoline (fun c => c._callback)

/-- The method `mcpwm::Comparators::registerEventCallBacks`. -/
def registerEventCallBacks (reg : RegisterDriver σ) (callback : EventCallBack E)
    (c : Comparators σ E) :
    Registered (Comparators σ E) (mcpwm_comparator_event_callbacks_t σ E) :=
  let c1 : Comparators σ E := { c with _callback := callback }
  let cbs : mcpwm_comparator_event_callbacks_t σ E :=
    { on_reach := if c1._callback.isSome then some on_reach else none }
  let r := reg (some [cbs.on_reach.isSome]) c1._handle
  { thrown := CHECK_THROW r.1, obj := { c1 with _handle := r.2 },
    cbs := some cbs, user_data := c1.self }

end Comparators

/-- The class `mcpwm::CaptureChannel`: handle, own address, and the member
`_callback`. -/
structure CaptureChannel (σ E : Type) where
  _handle : σ
  self : Addr
  _callback : EventCallBack E

/-- The driver structure `mcpwm_capture_event_callbacks_t`. -/
structure mcpwm_capture_event_callbacks_t (σ E : Type) where
  on_cap : Option (Handler (CaptureChannel σ E) E)

namespace CaptureChannel

variable {σ E : Type}

/-- The lambda installed as `on_cap`. -/
def on_cap : Handler (CaptureChannel σ E) E := trampoline (fun c => c._callback)

/-- The method `mcpwm::CaptureChannel::registerEventCallbacks`. -/
def registerEventCallbacks (reg : RegisterDriver σ) (callback : EventCallBack E)
    (c : CaptureChannel σ E) :
    Registered (CaptureChannel σ E) (mcpwm_capture_event_callbacks_t σ E) :=
  let c1 : CaptureChannel σ E := { c with _callback := callback }
  let cbs : mcpwm_capture_event_callbacks_t σ E :=
    { on_cap := if c1._callback.isSome then some on_cap else none }
  let r := reg (some [cbs.on_cap.isSome]) c1._handle
  { thrown := CHECK_THROW r.1, obj := { c1 with _handle := r.2 },
    cbs := some cbs, user_data := c1.self }

end CaptureChannel

end mcpwm

/-- A stand-in for `gptimer_register_event_callbacks` following the `@note`
and `@throw` lines of `gptimer_cxx.hpp`: "the first call to this function
needs to be before the call to `enable`", failing with
`ESP_ERR_INVALID_STATE` "if the timer is not in init state".  The driver-side
state pairs the driver's state variable with whether a first registration has
been accepted. -/
def gptimerRegisterDocumented : RegisterDriver (State × Bool) := fun _ s =>
  if s.2 = true then (ESP_OK, s)
  else if s.1 = State.INIT then (ESP_OK, (s.1, true))
  else (ESP_ERR_INVALID_STATE, s)

/-- The documented GPTimer lifecycle driver on the paired driver-side state. -/
def gptimerDocumentedPaired : GptimerDriver (State × Bool) := fun c s =>
  ((gptimerDocumented c s.1).1, ((gptimerDocumented c s.1).2, s.2))

/-- A stand-in for `pcnt_unit_register_event_callbacks` following the `@note`
and `@throw` lines of `pulse_counter_cxx.hpp`, the same as for the timer.  The
driver-side state pairs "unit enabled" with whether a first registration has
been accepted. -/
def pcntRegisterDocumented : RegisterDriver (Bool × Bool) := fun _ s =>
  if s.2 = true then (ESP_OK, s)
  else if s.1 = false then (ESP_OK, (s.1, true))
  else (ESP_ERR_INVALID_STATE, s)

/-- The documented PCNT lifecycle driver on the paired driver-side state. -/
def pcntDocumentedPaired : PcntDriver (Bool × Bool) := fun c s =>
  ((pcntDocumented c s.1).1, ((pcntDocumented c s.1).2, s.2))

/-- A registration function without state that always succeeds. -/
def registerAlwaysOk : RegisterDriver Unit := fun _ _ => (ESP_OK, ())

/-- The dispatch contract for one installed handler: the user context handed
to the driver is the facade's address, the handler is non-null, and delivering
any event where the facade lives at that address returns what the callback
returns for that facade and that event. -/
def Forwards {O E : Type} (handler : Option (Handler O E)) (self : Addr) (facade : O)
    (user_data : Addr) (cb : Addr → E → Bool) : Prop :=
  user_data = self ∧ handler.isSome = true
    ∧ ∀ e : E, deliver handler (heapOf self facade) user_data e = Dispatch.returned (cb self e)

/-- A timer at address 1, just constructed against the documented driver, no
registration accepted yet. -/
def freshTimerObject : GpTimerObject (State × Bool) Unit :=
  { _state := State.INIT,
    _gptimer := (State.INIT, false),
    calls := [GptimerCall.gptimer_new_timer],
    self := 1,
    _callback := none }

/-- The timer `freshTimerObject` after `registerEventCallbacks` with a
callback and then `enable()`, both against the documented driver. -/
def enabledTimerObject : GpTimerObject (State × Bool) Unit :=
  { (freshTimerObject.registerEventCallbacks gptimerRegisterDocumented
      (some (fun _ _ => true))).obj with
    toGpTimer := (GpTimer.enable gptimerDocumentedPaired
      (freshTimerObject.registerEventCallbacks gptimerRegisterDocumented
        (some (fun _ _ => true))).obj.toGpTimer).2 }

/-! ## GPIOInput (`gpio_cxx.cpp`) -/

/-- The driver enum `gpio_int_type_t`. -/
inductive gpio_int_type_t where
  | GPIO_INTR_DISABLE
  | GPIO_INTR_POSEDGE
  | GPIO_INTR_NEGEDGE
  | GPIO_INTR_ANYEDGE
  | GPIO_INTR_LOW_LEVEL
  | GPIO_INTR_HIGH_LEVEL
  deriving DecidableEq, Repr

/-- The driver enum `gpio_mode_t`, as far as the classes use it. -/
inductive gpio_mode_t where
  | GPIO_MODE_INPUT
  | GPIO_MODE_OUTPUT
  | GPIO_MODE_INPUT_OUTPUT_OD
  deriving DecidableEq, Repr

/-- The driver functions `GPIOInput` calls in its constructor and destructor,
with their arguments. -/
inductive GpioCall where
  | gpio_reset_pin (gpio_num : Nat)
  | gpio_set_direction (gpio_num : Nat) (mode : gpio_mode_t)
  | gpio_set_intr_type (gpio_num : Nat) (intr_type : gpio_int_type_t)
  | gpio_install_isr_service (intr_alloc_flags : Nat)
  | gpio_isr_handler_add (gpio_num : Nat) (args : Addr)
  | gpio_isr_handler_remove (gpio_num : Nat)
  | gpio_uninstall_isr_service
  deriving DecidableEq, Repr

/-- An external GPIO driver over driver-side state `σ`. -/
abbrev GpioDriver (σ : Type) := GpioCall → σ → esp_err_t × σ

/-- The process-wide state the GPIO classes act on: the static member
`GPIOInput::_isrHandlerCount`, the driver-side state, and the ghost log of
driver calls, oldest first. -/
structure GpioWorld (σ : Type) where
  _isrHandlerCount : Int
  hw : σ
  calls : List GpioCall

/-- Issue one driver call and log it. -/
def GpioWorld.call {σ : Type} (drv : GpioDriver σ) (c : GpioCall) (w : GpioWorld σ) :
    esp_err_t × GpioWorld σ :=
  ((drv c w.hw).1, { w with hw := (drv c w.hw).2, calls := w.calls ++ [c] })

/-- The class `GPIOInput`: the pin number of its base `GPIOBase`, its own
address, and the member `_callback`, a `std::function` that is `none` when
empty and otherwise identified by a tag. -/
structure GPIOInput where
  gpio_num : Nat
  self : Addr
  _callback : Option Nat
  deriving DecidableEq, Repr

namespace GPIOInput

variable {σ : Type}

/-- The constructor `GPIOInput::GPIOInput(num, intType, callback)`, run for the
object at address `self`.  First the base `GPIOBase(num)` resets the pin and
`_callback` starts empty; then direction and interrupt type are set; then,
unless `intType` is `GPIO_INTR_DISABLE`: an empty callback throws
`ESPException(ESP_ERR_INVALID_ARG)`; the ISR service is installed when
`_isrHandlerCount == 0`; the count is incremented; the callback is stored; the
handler is added.  Every driver call goes through `GPIO_CHECK_THROW`.  A
throwing constructor yields no object, and no destructor runs for it. -/
def construct (drv : GpioDriver σ) (self : Addr) (num : Nat) (intType : gpio_int_type_t)
    (callback : Option Nat) (w : GpioWorld σ) : Except esp_err_t GPIOInput × GpioWorld σ :=
  let r0 := w.call drv (GpioCall.gpio_reset_pin num)
  match CHECK_THROW r0.1 with
  | some e => (Except.error e, r0.2)
  | none =>
    let r1 := r0.2.call drv (GpioCall.gpio_set_direction num gpio_mode_t.GPIO_MODE_INPUT)
    match CHECK_THROW r1.1 with
    | some e => (Except.error e, r1.2)
    | none =>
      let r2 := r1.2.call drv (GpioCall.gpio_set_intr_type num intType)
      match CHECK_THROW r2.1 with
      | some e => (Except.error e, r2.2)
      | none =>
        if intType ≠ gpio_int_type_t.GPIO_INTR_DISABLE then
          if callback.isNone then (Except.error ESP_ERR_INVALID_ARG, r2.2)
          else
            let r3 :=
              if r2.2._isrHandlerCount = 0 then
                r2.2.call drv (GpioCall.gpio_install_isr_service 0)
              else (ESP_OK, r2.2)
            match CHECK_THROW r3.1 with
            | some e => (Except.error e, r3.2)
            | none =>
              let w4 : GpioWorld σ :=
                { r3.2 with _isrHandlerCount := r3.2._isrHandlerCount + 1 }
              let r5 := w4.call drv (GpioCall.gpio_isr_handler_add num self)
              match CHECK_THROW r5.1 with
              | some e => (Except.error e, r5.2)
              | none =>
                (Except.ok { gpio_num := num, self := self, _callback := callback }, r5.2)
        else
          (Except.ok { gpio_num := num, self := self, _callback := none }, r2.2)

/-- The destructor `GPIOInput::~GPIOInput`: when `_callback` is non-empty,
`assert(gpio_isr_handler_remove(...) == ESP_OK)`, the count is decremented, and
the ISR service is uninstalled when the count reached zero.  The boolean tells
whether the assertion failed. -/
def destroy (drv : GpioDriver σ) (g : GPIOInput) (w : GpioWorld σ) : Bool × GpioWorld σ :=
  if g._callback.isSome then
    let r := w.call drv (GpioCall.gpio_isr_handler_remove g.gpio_num)
    if r.1 ≠ ESP_OK then (true, r.2)
    else
      let w1 : GpioWorld σ := { r.2 with _isrHandlerCount := r.2._isrHandlerCount - 1 }
      if w1._isrHandlerCount = 0 then
        (false, (w1.call drv GpioCall.gpio_uninstall_isr_service).2)
      else (false, w1)
  else (false, w)

/-- The arguments of one construction. -/
structure Args where
  self : Addr
  num : Nat
  intType : gpio_int_type_t
  callback : Option Nat

/-- Construct objects one after the other, collecting each result. -/
def constructAll (drv : GpioDriver σ) :
    List Args → GpioWorld σ → List (Except esp_err_t GPIOInput) × GpioWorld σ
  | [], w => ([], w)
  | a :: rest, w =>
    let r := construct drv a.self a.num a.intType a.callback w
    let rs := constructAll drv rest r.2
    (r.1 :: rs.1, rs.2)

/-- Destroy objects one after the other; a failed assertion ends the program. -/
def destroyAll (drv : GpioDriver σ) : List GPIOInput → GpioWorld σ → Bool × GpioWorld σ
  | [], w => (false, w)
  | g :: rest, w =>
    let r := destroy drv g w
    if r.1 then (true, r.2) else destroyAll drv rest r.2

end GPIOInput

/-- A GPIO driver without state whose every call succeeds. -/
def gpioAlwaysOk : GpioDriver Unit := fun _ _ => (ESP_OK, ())

/-- Construct objects one after the other starting with no `GPIOInput` alive:
the count is zero and no driver call has been issued. -/
def GPIOInput.fromNothing {σ : Type} (drv : GpioDriver σ) (hw : σ)
    (args : List GPIOInput.Args) : List (Except esp_err_t GPIOInput) × GpioWorld σ :=
  GPIOInput.constructAll drv args { _isrHandlerCount := 0, hw := hw, calls := [] }

/-! ## BdcMotor (`bdc_motor_cxx.cpp`) and the MCPWM facades it is made of -/

namespace mcpwm

/-- Which of the two comparators, or of the two generators, of a motor a driver
call concerns: the one of `_cmpa` / `_gena` or the one of `_cmpb` / `_genb`. -/
inductive Side where
  | A
  | B
  deriving DecidableEq, Repr

/-- The driver enum `mcpwm_timer_start_stop_cmd_t`. -/
inductive mcpwm_timer_start_stop_cmd_t where
  | MCPWM_TIMER_STOP_EMPTY
  | MCPWM_TIMER_STOP_FULL
  | MCPWM_TIMER_START_NO_STOP
  | MCPWM_TIMER_START_STOP_EMPTY
  | MCPWM_TIMER_START_STOP_FULL
  deriving DecidableEq, Repr

/-- The MCPWM driver functions a `BdcMotor` calls, directly or through its
members; the lifecycle calls of the timer are those of `TimerCall`. -/
inductive Call where
  | timer (c : TimerCall)
  | mcpwm_timer_start_stop (command : mcpwm_timer_start_stop_cmd_t)
  | mcpwm_new_operator
  | mcpwm_del_operator
  | mcpwm_operator_connect_timer
  | mcpwm_new_comparator (which : Side)
  | mcpwm_del_comparator (which : Side)
  | mcpwm_comparator_set_compare_value (which : Side) (cmpTicks : Nat)
  | mcpwm_new_generator (which : Side) (gen_gpio_num : Nat)
  | mcpwm_del_generator (which : Side)
  | mcpwm_generator_set_action_on_timer_event (which : Side)
  | mcpwm_generator_set_action_on_compare_event (which : Side) (comparator : Side)
  | mcpwm_generator_set_force_level (which : Side) (level : Int) (hold_on : Bool)
  deriving DecidableEq, Repr

/-- An external MCPWM driver over driver-side state `σ`. -/
abbrev Driver (σ : Type) := Call → σ → esp_err_t × σ

/-- The driver-side state together with the ghost log of driver calls, oldest
first. -/
structure World (σ : Type) where
  hw : σ
  calls : List Call

/-- Issue one driver call and log it. -/
def World.call {σ : Type} (drv : Driver σ) (c : Call) (w : World σ) : esp_err_t × World σ :=
  ((drv c w.hw).1, { hw := (drv c w.hw).2, calls := w.calls ++ [c] })

/-- The timer's share of an MCPWM driver, acting on the world. -/
def timerDriver {σ : Type} (drv : Driver σ) : TimerDriver (World σ) :=
  fun c w => w.call drv (Call.timer c)

/-- The constructor `Timer::Timer` as an effect on the world. -/
def Timer.ctor {σ : Type} (drv : Driver σ) (w : World σ) : Option esp_err_t × World σ :=
  match Timer.construct (timerDriver drv) w with
  | Except.ok t => (none, t._handle)
  | Except.error e => (some e, (w.call drv (Call.timer TimerCall.mcpwm_new_timer)).2)

/-- The destructor `Timer::~Timer` as an effect on the world, for a timer whose
flag `_isEnable` is given; the boolean tells whether an assertion failed. -/
def Timer.dtor {σ : Type} (drv : Driver σ) (isEnable : Bool) (w : World σ) : Bool × World σ :=
  ((Timer.destroy (timerDriver drv) { _isEnable := isEnable, _handle := w, calls := [] }).aborted,
   (Timer.destroy (timerDriver drv) { _isEnable := isEnable, _handle := w, calls := [] }).hw)

/-- The constructor `Operator::Operator`: `CHECK_THROW(mcpwm_new_operator(...))`. -/
def Operator.ctor {σ : Type} (drv : Driver σ) (w : World σ) : Option esp_err_t × World σ :=
  (CHECK_THROW (w.call drv Call.mcpwm_new_operator).1, (w.call drv Call.mcpwm_new_operator).2)

/-- The destructor `Operator::~Operator`:
`assert(mcpwm_del_operator(_handle) == ESP_OK)`. -/
def Operator.dtor {σ : Type} (drv : Driver σ) (w : World σ) : Bool × World σ :=
  (decide ((w.call drv Call.mcpwm_del_operator).1 ≠ ESP_OK),
   (w.call drv Call.mcpwm_del_operator).2)

/-- The method `Operator::connect`. -/
def Operator.connect {σ : Type} (drv : Driver σ) (w : World σ) : Option esp_err_t × World σ :=
  (CHECK_THROW (w.call drv Call.mcpwm_operator_connect_timer).1,
   (w.call drv Call.mcpwm_operator_connect_timer).2)

/-- The constructor `Comparators::Comparators`. -/
def Comparators.ctor {σ : Type} (drv : Driver σ) (which : Side) (w : World σ) :
    Option esp_err_t × World σ :=
  (CHECK_THROW (w.call drv (Call.mcpwm_new_comparator which)).1,
   (w.call drv (Call.mcpwm_new_comparator which)).2)

/-- The destructor `Comparators::~Comparators`. -/
def Comparators.dtor {σ : Type} (drv : Driver σ) (which : Side) (w : World σ) :
    Bool × World σ :=
  (decide ((w.call drv (Call.mcpwm_del_comparator which)).1 ≠ ESP_OK),
   (w.call drv (Call.mcpwm_del_comparator which)).2)

/-- The method `Comparators::setCompareValue`. -/
def Comparators.setCompareValue {σ : Type} (drv : Driver σ) (which : Side) (cmpTicks : Nat)
    (w : World σ) : Option esp_err_t × World σ :=
  (CHECK_THROW (w.call drv (Call.mcpwm_comparator_set_compare_value which cmpTicks)).1,
   (w.call drv (Call.mcpwm_comparator_set_compare_value which cmpTicks)).2)

/-- The constructor `Generators::Generators`. -/
def Generators.ctor {σ : Type} (drv : Driver σ) (which : Side) (gpioNum : Nat) (w : World σ) :
    Option esp_err_t × World σ :=
  (CHECK_THROW (w.call drv (Call.mcpwm_new_generator which gpioNum)).1,
   (w.call drv (Call.mcpwm_new_generator which gpioNum)).2)

/-- The destructor `Generators::~Generators`. -/
def Generators.dtor {σ : Type} (drv : Driver σ) (which : Side) (w : World σ) :
    Bool × World σ :=
  (decide ((w.call drv (Call.mcpwm_del_generator which)).1 ≠ ESP_OK),
   (w.call drv (Call.mcpwm_del_generator which)).2)

/-- The method `Generators::setActionOnTimerEvent`. -/
def Generators.setActionOnTimerEvent {σ : Type} (drv : Driver σ) (which : Side)
    (w : World σ) : Option esp_err_t × World σ :=
  (CHECK_THROW (w.call drv (Call.mcpwm_generator_set_action_on_timer_event which)).1,
   (w.call drv (Call.mcpwm_generator_set_action_on_timer_event which)).2)

/-- The method `Generators::setActionOnCompareEvent`. -/
def Generators.setActionOnCompareEvent {σ : Type} (drv : Driver σ) (which : Side)
    (comparator : Side) (w : World σ) : Option esp_err_t × World σ :=
  (CHECK_THROW
    (w.call drv (Call.mcpwm_generator_set_action_on_compare_event which comparator)).1,
   (w.call drv (Call.mcpwm_generator_set_action_on_compare_event which comparator)).2)

/-- The method `Generators::setForceLevel(level, holdOn)`: `levelInt` is -1 for
an empty optional and otherwise 1 or 0 for true or false. -/
def Generators.setForceLevel {σ : Type} (drv : Driver σ) (which : Side) (level : Option Bool)
    (holdOn : Bool) (w : World σ) : Option esp_err_t × World σ :=
  let levelInt : Int :=
    match level with
    | none => -1
    | some b => if b then 1 else 0
  (CHECK_THROW (w.call drv (Call.mcpwm_generator_set_force_level which levelInt holdOn)).1,
   (w.call drv (Call.mcpwm_generator_set_force_level which levelInt holdOn)).2)

end mcpwm

/-- The data members of `BdcMotor`, in their order of declaration. -/
inductive BdcMotor.Member where
  | _timer
  | _operat
  | _cmpa
  | _cmpb
  | _gena
  | _genb
  deriving DecidableEq, Repr

/-- The class `BdcMotor`, as far as it has state of its own: the flag
`_isEnable` of its member `_timer`.  The other members hold a handle only. -/
structure BdcMotor where
  _timer_isEnable : Bool
  deriving DecidableEq, Repr

/-- Outcome of constructing a motor: the object or the exception, whether an
assertion failed while members were destroyed again, and the world. -/
structure BdcMotor.Construction (σ : Type) where
  result : Except esp_err_t BdcMotor
  aborted : Bool
  world : mcpwm.World σ

namespace BdcMotor

variable {σ : Type}

/-- The member initialiser of each member in `BdcMotor::BdcMotor`. -/
def Member.ctor (drv : mcpwm.Driver σ) (pwmAGpio pwmBGpio : Nat) :
    Member → mcpwm.World σ → Option esp_err_t × mcpwm.World σ
  | Member._timer => mcpwm.Timer.ctor drv
  | Member._operat => mcpwm.Operator.ctor drv
  | Member._cmpa => mcpwm.Comparators.ctor drv mcpwm.Side.A
  | Member._cmpb => mcpwm.Comparators.ctor drv mcpwm.Side.B
  | Member._gena => mcpwm.Generators.ctor drv mcpwm.Side.A pwmAGpio
  | Member._genb => mcpwm.Generators.ctor drv mcpwm.Side.B pwmBGpio

/-- The destructor of each member. -/
def Member.dtor (drv : mcpwm.Driver σ) (timerIsEnable : Bool) :
    Member → mcpwm.World σ → Bool × mcpwm.World σ
  | Member._timer => mcpwm.Timer.dtor drv timerIsEnable
  | Member._operat => mcpwm.Operator.dtor drv
  | Member._cmpa => mcpwm.Comparators.dtor drv mcpwm.Side.A
  | Member._cmpb => mcpwm.Comparators.dtor drv mcpwm.Side.B
  | Member._gena => mcpwm.Generators.dtor drv mcpwm.Side.A
  | Member._genb => mcpwm.Generators.dtor drv mcpwm.Side.B

/-- Destroy the given members in the given order; a failed assertion ends the
program, so nothing after it is destroyed. -/
def destroyMembers (drv : mcpwm.Driver σ) (timerIsEnable : Bool) :
    List Member → mcpwm.World σ → Bool × mcpwm.World σ
  | [], w => (false, w)
  | m :: rest, w =>
    if (Member.dtor drv timerIsEnable m w).1 then (true, (Member.dtor drv timerIsEnable m w).2)
    else destroyMembers drv timerIsEnable rest (Member.dtor drv timerIsEnable m w).2

/-- Initialise the members still to do, in order; `done` lists the members
already constructed, the latest first.  When an initialiser throws, the
members already constructed are destroyed, the latest first, and the exception
propagates. -/
def constructMembers (drv : mcpwm.Driver σ) (pwmAGpio pwmBGpio : Nat) :
    List Member → List Member → mcpwm.World σ → Option esp_err_t × Bool × mcpwm.World σ
  | [], _, w => (none, false, w)
  | m :: rest, done, w =>
    match (Member.ctor drv pwmAGpio pwmBGpio m w).1 with
    | some e =>
      (some e, destroyMembers drv false done (Member.ctor drv pwmAGpio pwmBGpio m w).2)
    | none =>
      constructMembers drv pwmAGpio pwmBGpio rest (m :: done)
        (Member.ctor drv pwmAGpio pwmBGpio m w).2

/-- Run steps in order until one throws. -/
def runSteps : List (mcpwm.World σ → Option esp_err_t × mcpwm.World σ) → mcpwm.World σ →
    Option esp_err_t × mcpwm.World σ
  | [], w => (none, w)
  | f :: rest, w =>
    match (f w).1 with
    | some e => (some e, (f w).2)
    | none => runSteps rest (f w).2

/-- The body of the constructor `BdcMotor::BdcMotor`: connect the operator to
the timer, both compare values to 0, and for each generator the action on the
timer event and on the compare event of its comparator. -/
def constructorBody (drv : mcpwm.Driver σ) :
    List (mcpwm.World σ → Option esp_err_t × mcpwm.World σ) :=
  [mcpwm.Operator.connect drv,
   mcpwm.Comparators.setCompareValue drv mcpwm.Side.A 0,
   mcpwm.Comparators.setCompareValue drv mcpwm.Side.B 0,
   mcpwm.Generators.setActionOnTimerEvent drv mcpwm.Side.A,
   mcpwm.Generators.setActionOnCompareEvent drv mcpwm.Side.A mcpwm.Side.A,
   mcpwm.Generators.setActionOnTimerEvent drv mcpwm.Side.B,
   mcpwm.Generators.setActionOnCompareEvent drv mcpwm.Side.B mcpwm.Side.B]

/-- The members in their order of declaration, which is the order of the
member initialiser list. -/
def members : List Member :=
  [Member._timer, Member._operat, Member._cmpa, Member._cmpb, Member._gena, Member._genb]

/-- The constructor `BdcMotor::BdcMotor`: the members are initialised in their
order of declaration, then the body runs.  When the body throws, all members
are destroyed in reverse order. -/
def construct (drv : mcpwm.Driver σ) (pwmAGpio pwmBGpio : Nat) (w : mcpwm.World σ) :
    Construction σ :=
  match constructMembers drv pwmAGpio pwmBGpio members [] w with
  | (some e, aborted, w1) => { result := Except.error e, aborted := aborted, world := w1 }
  | (none, _, w1) =>
    match runSteps (constructorBody drv) w1 with
    | (some e, w2) =>
      { result := Except.error e,
        aborted := (destroyMembers drv false members.reverse w2).1,
        world := (destroyMembers drv false members.reverse w2).2 }
    | (none, w2) =>
      { result := Except.ok { _timer_isEnable := false }, aborted := false, world := w2 }

/-- The destructor `BdcMotor::~BdcMotor`: its body is empty; the members are
destroyed in the reverse of their order of declaration. -/
def destroy (drv : mcpwm.Driver σ) (m : BdcMotor) (w : mcpwm.World σ) :
    Bool × mcpwm.World σ :=
  destroyMembers drv m._timer_isEnable members.reverse w

end BdcMotor

/-- An MCPWM driver without state whose every call succeeds. -/
def mcpwmAlwaysOk : mcpwm.Driver Unit := fun _ _ => (ESP_OK, ())

/-! ## LedcChannel (`ledc_cxx.cpp`) -/

/-- The driver functions `LedcChannel` calls for configuring and stopping a
channel, with their arguments. -/
inductive LedcCall where
  | ledc_channel_config (speed_mode : Nat) (channel : Nat)
  | ledc_stop (speed_mode : Nat) (channel : Nat) (idle_level : Nat)
  deriving DecidableEq, Repr

/-- An external LEDC driver over driver-side state `σ`. -/
abbrev LedcDriver (σ : Type) := LedcCall → σ → esp_err_t × σ

/-- The class `LedcChannel`: `_channelId`, the speed mode of the timer `_timer`
refers to, the driver-side state, and the ghost log of driver calls. -/
structure LedcChannel (σ : Type) where
  _channelId : Nat
  speedMode : Nat
  hw : σ
  calls : List LedcCall

namespace LedcChannel

variable {σ : Type}

/-- Issue one driver call and log it. -/
def driverCall (drv : LedcDriver σ) (c : LedcCall) (self : LedcChannel σ) :
    esp_err_t × LedcChannel σ :=
  ((drv c self.hw).1, { self with hw := (drv c self.hw).2, calls := self.calls ++ [c] })

/-- The method `LedcChannel::stop(bool idleLevel)`:
`CHECK_THROW(ledc_stop(_timer.getSpeedMode(), _channelId, idleLevel?0:1))`. -/
def stop (drv : LedcDriver σ) (idleLevel : Bool) (self : LedcChannel σ) :
    Option esp_err_t × LedcChannel σ :=
  let r := self.driverCall drv
    (LedcCall.ledc_stop self.speedMode self._channelId (if idleLevel then 0 else 1))
  (CHECK_THROW r.1, r.2)

/-- The call `stop()`: the declaration gives `idleLevel` the default `false`. -/
def stopDefault (drv : LedcDriver σ) (self : LedcChannel σ) :
    Option esp_err_t × LedcChannel σ :=
  self.stop drv false

/-- The destructor `LedcChannel::~LedcChannel`:
`assert(ledc_stop(_timer.getSpeedMode(), _channelId, 0) == ESP_OK)`. -/
def destroy (drv : LedcDriver σ) (self : LedcChannel σ) : Teardown σ LedcCall :=
  let r := self.driverCall drv (LedcCall.ledc_stop self.speedMode self._channelId 0)
  { aborted := decide (r.1 ≠ ESP_OK), hw := r.2.hw, calls := r.2.calls }

end LedcChannel

/-- An LEDC driver without state whose every call succeeds. -/
def ledcAlwaysOk : LedcDriver Unit := fun _ _ => (ESP_OK, ())

namespace BdcMotor

variable {σ : Type}

/-- The method `BdcMotor::forward`: `_gena.setForceLevel({}, true)` then
`_genb.setForceLevel(false, true)`. -/
def forward (drv : mcpwm.Driver σ) (w : mcpwm.World σ) : Option esp_err_t × mcpwm.World σ :=
  runSteps
    [mcpwm.Generators.setForceLevel drv mcpwm.Side.A none true,
     mcpwm.Generators.setForceLevel drv mcpwm.Side.B (some false) true] w

/-- The method `BdcMotor::reverse`: `_gena.setForceLevel(false, true)` then
`_genb.setForceLevel({}, true)`. -/
def reverse (drv : mcpwm.Driver σ) (w : mcpwm.World σ) : Option esp_err_t × mcpwm.World σ :=
  runSteps
    [mcpwm.Generators.setForceLevel drv mcpwm.Side.A (some false) true,
     mcpwm.Generators.setForceLevel drv mcpwm.Side.B none true] w

/-- The method `BdcMotor::coast`: `setForceLevel(false, true)` on both
generators. -/
def coast (drv : mcpwm.Driver σ) (w : mcpwm.World σ) : Option esp_err_t × mcpwm.World σ :=
  runSteps
    [mcpwm.Generators.setForceLevel drv mcpwm.Side.A (some false) true,
     mcpwm.Generators.setForceLevel drv mcpwm.Side.B (some false) true] w

/-- The method `BdcMotor::brake`: `setForceLevel(true, true)` on both
generators. -/
def brake (drv : mcpwm.Driver σ) (w : mcpwm.World σ) : Option esp_err_t × mcpwm.World σ :=
  runSteps
    [mcpwm.Generators.setForceLevel drv mcpwm.Side.A (some true) true,
     mcpwm.Generators.setForceLevel drv mcpwm.Side.B (some true) true] w

/-- The force level and hold flag most recently passed to the driver for one
generator, read off a log of driver calls; `none` when there is none. -/
def forced (which : mcpwm.Side) : List mcpwm.Call → Option (Int × Bool)
  | [] => none
  | c :: rest =>
    match forced which rest with
    | some p => some p
    | none =>
      match c with
      | mcpwm.Call.mcpwm_generator_set_force_level s level hold =>
        if s = which then some (level, hold) else none
      | _ => none

end BdcMotor

/-- Modelled from the spec: the driver's side of a timer's registration
(absent from the sources): the alarm handler and user context the driver has
installed.  An accepted registration installs what it was given; a rejected
one keeps what was installed before. -/
structure InstalledAlarm (σ E : Type) where
  on_alarm : Option (Handler (GpTimerObject σ E) E)
  user_ctx : Addr

namespace GpTimerObject

variable {σ E : Type}

/-- One call of `registerEventCallbacks` together with the driver's
bookkeeping of what is installed. -/
def registerAndInstall (reg : RegisterDriver σ) (callback : EventCallBack E)
    (p : GpTimerObject σ E × InstalledAlarm σ E) : GpTimerObject σ E × InstalledAlarm σ E :=
  ((p.1.registerEventCallbacks reg callback).obj,
   if (p.1.registerEventCallbacks reg callback).thrown.isNone then
     { on_alarm := (p.1.registerEventCallbacks reg callback).cbs.bind (fun c => c.on_alarm),
       user_ctx := (p.1.registerEventCallbacks reg callback).user_data }
   else p.2)

/-- A sequence of `registerEventCallbacks` calls, each exception being caught
by the caller. -/
def registerAllAndInstall (reg : RegisterDriver σ) :
    List (EventCallBack E) → GpTimerObject σ E × InstalledAlarm σ E →
      GpTimerObject σ E × InstalledAlarm σ E
  | [], p => p
  | cb :: rest, p => registerAllAndInstall reg rest (registerAndInstall reg cb p)

/-- An alarm: the driver delivers the event to the handler it has installed,
the timer living at its own address. -/
def alarm (p : GpTimerObject σ E × InstalledAlarm σ E) (edata : E) : Dispatch :=
  deliver p.2.on_alarm (heapOf p.1.self p.1) p.2.user_ctx edata

end GpTimerObject

/-- A registration function that accepts its first call and answers `ESP_FAIL`
("if other error") to every later one; the driver-side state counts the
calls. -/
def registerFailsAfterFirst : RegisterDriver Nat := fun _ n =>
  (if n = 0 then ESP_OK else ESP_FAIL, n + 1)

/-- A timer at address 1 just constructed against `registerFailsAfterFirst`,
with nothing installed in the driver. -/
def freshTimerNothingInstalled : GpTimerObject Nat Unit × InstalledAlarm Nat Unit :=
  ({ _state := State.INIT,
     _gptimer := 0,
     calls := [GptimerCall.gptimer_new_timer],
     self := 1,
     _callback := none },
   { on_alarm := none, user_ctx := 0 })

/-- A GPIO driver whose `gpio_isr_handler_add` answers
`ESP_ERR_INVALID_STATE` for pin 4 and whose other calls succeed.  The
driver-side state tells whether the ISR service is installed. -/
def gpioHandlerAddFailsOnPin4 : GpioDriver Bool
  | GpioCall.gpio_install_isr_service _, _ => (ESP_OK, true)
  | GpioCall.gpio_uninstall_isr_service, _ => (ESP_OK, false)
  | GpioCall.gpio_isr_handler_add pin _, s =>
    (if pin = 4 then ESP_ERR_INVALID_STATE else ESP_OK, s)
  | _, s => (ESP_OK, s)

/-- The number of objects, among those alive, that hold a callback. -/
def GPIOInput.holdingCallback (alive : List GPIOInput) : Nat :=
  (alive.filter (fun g => g._callback.isSome)).length

/-! ## DacOneshot (`dac_cxx.cpp`) -/

/-- The driver functions `DacOneshot` calls, with their arguments. -/
inductive DacCall where
  | dac_oneshot_new_channel (chan_id : Nat)
  | dac_oneshot_output_voltage (digi_value : Nat)
  | dac_oneshot_del_channel
  deriving DecidableEq, Repr

/-- An external DAC driver over driver-side state `σ`. -/
abbrev DacDriver (σ : Type) := DacCall → σ → esp_err_t × σ

/-- The class `DacOneshot`: the driver-side state behind `_handle` and the
ghost log of driver calls. -/
structure DacOneshot (σ : Type) where
  _handle : σ
  calls : List DacCall

namespace DacOneshot

variable {σ : Type}

/-- The method `DacOneshot::setVoltageRaw(uint8_t valueRaw)`: the parameter
holds its argument reduced to 8 bits. -/
def setVoltageRaw (drv : DacDriver σ) (valueRaw : Nat) (self : DacOneshot σ) :
    Option esp_err_t × DacOneshot σ :=
  (CHECK_THROW (drv (DacCall.dac_oneshot_output_voltage (valueRaw % 2 ^ 8)) self._handle).1,
   { _handle := (drv (DacCall.dac_oneshot_output_voltage (valueRaw % 2 ^ 8)) self._handle).2,
     calls := self.calls ++ [DacCall.dac_oneshot_output_voltage (valueRaw % 2 ^ 8)] })

/-- The argument expression `valueMlVolt*255/3300` of
`DacOneshot::setVoltageMlVolt(uint16_t valueMlVolt)`: the parameter holds its
argument reduced to 16 bits and is promoted to `int`; the product is below
2^24, so the `int` arithmetic is exact. -/
def rawArgument (valueMlVolt : Nat) : Nat := valueMlVolt % 2 ^ 16 * 255 / 3300

/-- The method `DacOneshot::setVoltageMlVolt`:
`setVoltageRaw(valueMlVolt*255/3300)`. -/
def setVoltageMlVolt (drv : DacDriver σ) (valueMlVolt : Nat) (self : DacOneshot σ) :
    Option esp_err_t × DacOneshot σ :=
  self.setVoltageRaw drv (rawArgument valueMlVolt)

/-- The raw value the driver receives from `setVoltageMlVolt`: the argument of
the `dac_oneshot_output_voltage` call it issues. -/
def rawSent (valueMlVolt : Nat) : Nat := rawArgument valueMlVolt % 2 ^ 8

end DacOneshot

/-- A DAC driver without state whose every call succeeds. -/
def dacAlwaysOk : DacDriver Unit := fun _ _ => (ESP_OK, ())

/-! ## AdcOneshot (`adc_cxx.cpp`) -/

/-- The driver enum `adc_bitwidth_t`: the default and 9 to 13 bits. -/
inductive adc_bitwidth_t where
  | ADC_BITWIDTH_DEFAULT
  | ADC_BITWIDTH_9
  | ADC_BITWIDTH_10
  | ADC_BITWIDTH_11
  | ADC_BITWIDTH_12
  | ADC_BITWIDTH_13
  deriving DecidableEq, Repr

/-- The value of each enumerator of `adc_bitwidth_t`. -/
def adc_bitwidth_t.toInt : adc_bitwidth_t → Int
  | ADC_BITWIDTH_DEFAULT => 0
  | ADC_BITWIDTH_9 => 9
  | ADC_BITWIDTH_10 => 10
  | ADC_BITWIDTH_11 => 11
  | ADC_BITWIDTH_12 => 12
  | ADC_BITWIDTH_13 => 13

/-- The bit width a configuration stands for, the default counting as 12. -/
def adc_bitwidth_t.bits : adc_bitwidth_t → Nat
  | ADC_BITWIDTH_DEFAULT => 12
  | ADC_BITWIDTH_9 => 9
  | ADC_BITWIDTH_10 => 10
  | ADC_BITWIDTH_11 => 11
  | ADC_BITWIDTH_12 => 12
  | ADC_BITWIDTH_13 => 13

/-- An external ADC driver over driver-side state `σ`: channel configuration
(channel, attenuation, bit width) and one-shot read of a channel, which also
yields the value written to `out_raw`. -/
structure AdcDriver (σ : Type) where
  adc_oneshot_config_channel : Nat → Nat → adc_bitwidth_t → σ → esp_err_t × σ
  adc_oneshot_read : Nat → σ → esp_err_t × Int × σ

/-- What `AdcOneshot::readMlVolt` can throw: an `ESPException` with its code,
or `std::out_of_range` from `_maxRawValue.at(channel)`. -/
inductive AdcException where
  | esp (error : esp_err_t)
  | out_of_range
  deriving DecidableEq, Repr

/-- A value of type `int` (32 bits, two's complement) for an exact integer. -/
def wrapInt32 (x : Int) : Int := (x + 2 ^ 31) % 2 ^ 32 - 2 ^ 31

/-- The class `AdcOneshot`: the driver-side state behind `_handle` and the
member `_maxRawValue`, a container from channel to `int` written with
`operator[]` and read with `.at()`; `none` is a channel without entry. -/
structure AdcOneshot (σ : Type) where
  _handle : σ
  _maxRawValue : Nat → Option Int

namespace AdcOneshot

variable {σ : Type}

/-- The method `AdcOneshot::configure`: `bitwithInt` is the enumerator's value,
or `ADC_BITWIDTH_12` for `ADC_BITWIDTH_DEFAULT`; `_maxRawValue[channel] =
1<<bitwithInt`; then `CHECK_THROW(adc_oneshot_config_channel(...))`. -/
def configure (drv : AdcDriver σ) (channel atten : Nat) (bitwidth : adc_bitwidth_t)
    (self : AdcOneshot σ) : Option esp_err_t × AdcOneshot σ :=
  let bitwithInt : Int :=
    if bitwidth = adc_bitwidth_t.ADC_BITWIDTH_DEFAULT then
      adc_bitwidth_t.ADC_BITWIDTH_12.toInt
    else bitwidth.toInt
  let maxRaw : Nat → Option Int := fun c =>
    if c = channel then some (wrapInt32 (2 ^ bitwithInt.toNat)) else self._maxRawValue c
  (CHECK_THROW (drv.adc_oneshot_config_channel channel atten bitwidth self._handle).1,
   { _handle := (drv.adc_oneshot_config_channel channel atten bitwidth self._handle).2,
     _maxRawValue := maxRaw })

/-- The method `AdcOneshot::readRaw`. -/
def readRaw (drv : AdcDriver σ) (channel : Nat) (self : AdcOneshot σ) :
    Except esp_err_t Int × AdcOneshot σ :=
  match CHECK_THROW (drv.adc_oneshot_read channel self._handle).1 with
  | some e => (Except.error e, { self with _handle := (drv.adc_oneshot_read channel self._handle).2.2 })
  | none =>
    (Except.ok (drv.adc_oneshot_read channel self._handle).2.1,
     { self with _handle := (drv.adc_oneshot_read channel self._handle).2.2 })

/-- The expression `raw*3300/_maxRawValue.at(channel)` in `int` arithmetic:
the product in 32 bits, the quotient truncated toward zero. -/
def toMlVolt (raw maxRawValue : Int) : Int := Int.tdiv (wrapInt32 (raw * 3300)) maxRawValue

/-- The method `AdcOneshot::readMlVolt`: `raw = readRaw(channel)`, then
`raw*3300/_maxRawValue.at(channel)`. -/
def readMlVolt (drv : AdcDriver σ) (channel : Nat) (self : AdcOneshot σ) :
    Except AdcException Int × AdcOneshot σ :=
  match self.readRaw drv channel with
  | (Except.error e, s) => (Except.error (AdcException.esp e), s)
  | (Except.ok raw, s) =>
    match s._maxRawValue channel with
    | none => (Except.error AdcException.out_of_range, s)
    | some m => (Except.ok (toMlVolt raw m), s)

end AdcOneshot

/-- An ADC driver without state that accepts every configuration and reads
the raw value 512 on every channel. -/
def adcReads512 : AdcDriver Unit :=
  { adc_oneshot_config_channel := fun _ _ _ _ => (ESP_OK, ()),
    adc_oneshot_read := fun _ _ => (ESP_OK, 512, ()) }

/-! # Theorems -/

/-! ## Lifecycle -/

/-- C1 (as stated, refuted): against the PCNT driver as documented, a pulse
counter that was constructed and enabled has recorded state `ENABLE`, and
`stop()` then succeeds and leaves `ENABLE`, where the table demands a failure
with `ESP_ERR_INVALID_STATE`. -/
theorem C1_counterexample_stop_while_enabled :
    PulseCounter.construct pcntDocumented false
        = Except.ok ⟨State.INIT, false, [PcntCall.pcnt_new_unit]⟩
    ∧ (PulseCounter.apply pcntDocumented Op.enable
        ⟨State.INIT, false, [PcntCall.pcnt_new_unit]⟩).2.getState = State.ENABLE
    ∧ (PulseCounter.apply pcntDocumented Op.enable
        ⟨State.INIT, false, [PcntCall.pcnt_new_unit]⟩).2._unit = true
    ∧ PulseCounter.outcome pcntDocumented Op.stop
        ⟨State.ENABLE, true, [PcntCall.pcnt_new_unit, PcntCall.pcnt_unit_enable]⟩
        = Except.ok State.ENABLE
    ∧ lifecycleTable State.ENABLE Op.stop = Except.error ESP_ERR_INVALID_STATE := by
  refine ⟨rfl, rfl, rfl, rfl, rfl⟩

/-- Closed form of a `GpTimer` transition: one driver call, logged; on `ESP_OK`
the state the operation assigns, otherwise the driver's code is thrown and the
recorded state is kept. -/
theorem GpTimer.gptimer_apply_eq {σ : Type} (drv : GptimerDriver σ) (op : Op) (t : GpTimer σ) :
    GpTimer.apply drv op t =
      if (drv (GpTimer.callOf op) t._gptimer).1 = ESP_OK then
        (none, ⟨op.assigned, (drv (GpTimer.callOf op) t._gptimer).2,
          t.calls ++ [GpTimer.callOf op]⟩)
      else
        (some (drv (GpTimer.callOf op) t._gptimer).1,
          ⟨t._state, (drv (GpTimer.callOf op) t._gptimer).2,
            t.calls ++ [GpTimer.callOf op]⟩) := by
  cases op
  · by_cases h : (drv GptimerCall.gptimer_enable t._gptimer).1 = ESP_OK <;>
      simp [GpTimer.apply, GpTimer.enable, GpTimer.driverCall, GpTimer.callOf, CHECK_THROW,
        Op.assigned, h]
  · by_cases h : (drv GptimerCall.gptimer_disable t._gptimer).1 = ESP_OK <;>
      simp [GpTimer.apply, GpTimer.disable, GpTimer.driverCall, GpTimer.callOf, CHECK_THROW,
        Op.assigned, h]
  · by_cases h : (drv GptimerCall.gptimer_start t._gptimer).1 = ESP_OK <;>
      simp [GpTimer.apply, GpTimer.start, GpTimer.driverCall, GpTimer.callOf, CHECK_THROW,
        Op.assigned, h]
  · by_cases h : (drv GptimerCall.gptimer_stop t._gptimer).1 = ESP_OK <;>
      simp [GpTimer.apply, GpTimer.stop, GpTimer.driverCall, GpTimer.callOf, CHECK_THROW,
        Op.assigned, h]

/-- Closed form of a `PulseCounter` transition, as for the timer. -/
theorem PulseCounter.pcnt_apply_eq {σ : Type} (drv : PcntDriver σ) (op : Op)
    (u : PulseCounter σ) :
    PulseCounter.apply drv op u =
      if (drv (PulseCounter.callOf op) u._unit).1 = ESP_OK then
        (none, ⟨op.assigned, (drv (PulseCounter.callOf op) u._unit).2,
          u.calls ++ [PulseCounter.callOf op]⟩)
      else
        (some (drv (PulseCounter.callOf op) u._unit).1,
          ⟨u._state, (drv (PulseCounter.callOf op) u._unit).2,
            u.calls ++ [PulseCounter.callOf op]⟩) := by
  cases op
  · by_cases h : (drv PcntCall.pcnt_unit_enable u._unit).1 = ESP_OK <;>
      simp [PulseCounter.apply, PulseCounter.enable, PulseCounter.driverCall,
        PulseCounter.callOf, CHECK_THROW, Op.assigned, h]
  · by_cases h : (drv PcntCall.pcnt_unit_disable u._unit).1 = ESP_OK <;>
      simp [PulseCounter.apply, PulseCounter.disable, PulseCounter.driverCall,
        PulseCounter.callOf, CHECK_THROW, Op.assigned, h]
  · by_cases h : (drv PcntCall.pcnt_unit_start u._unit).1 = ESP_OK <;>
      simp [PulseCounter.apply, PulseCounter.start, PulseCounter.driverCall,
        PulseCounter.callOf, CHECK_THROW, Op.assigned, h]
  · by_cases h : (drv PcntCall.pcnt_unit_stop u._unit).1 = ESP_OK <;>
      simp [PulseCounter.apply, PulseCounter.stop, PulseCounter.driverCall,
        PulseCounter.callOf, CHECK_THROW, Op.assigned, h]

/-- C1 (amended): neither facade checks its recorded state.  For every driver,
recorded state and operation, the operation succeeds exactly when its driver
call answers `ESP_OK`, the state reported afterwards then being the one the
operation assigns; otherwise it fails with the driver's code.  Against a
GPTimer driver keeping the documented three-state machine, with the recorded
state equal to the driver's, the outcome is exactly the documented table.
Against the PCNT driver as documented, the unit being enabled exactly when the
recorded state is not `INIT`, `enable` succeeds exactly from `INIT` and
`disable`, `start` and `stop` succeed exactly from `ENABLE` and `RUN`; every
other pair fails with `ESP_ERR_INVALID_STATE`. -/
theorem C1_outcome_follows_driver :
    (∀ (σ : Type) (drv : GptimerDriver σ) (op : Op) (t : GpTimer σ),
      GpTimer.outcome drv op t =
        if (drv (GpTimer.callOf op) t._gptimer).1 = ESP_OK then Except.ok op.assigned
        else Except.error (drv (GpTimer.callOf op) t._gptimer).1)
    ∧ (∀ (σ : Type) (drv : PcntDriver σ) (op : Op) (u : PulseCounter σ),
      PulseCounter.outcome drv op u =
        if (drv (PulseCounter.callOf op) u._unit).1 = ESP_OK then Except.ok op.assigned
        else Except.error (drv (PulseCounter.callOf op) u._unit).1)
    ∧ (∀ (s : State) (op : Op) (log : List GptimerCall),
      GpTimer.outcome gptimerDocumented op ⟨s, s, log⟩ = lifecycleTable s op)
    ∧ (∀ (s : State) (op : Op) (log : List PcntCall),
      PulseCounter.outcome pcntDocumented op ⟨s, decide (s ≠ State.INIT), log⟩ =
        if (op = Op.enable ∧ s = State.INIT) ∨ (op ≠ Op.enable ∧ s ≠ State.INIT) then
          Except.ok op.assigned
        else Except.error ESP_ERR_INVALID_STATE) := by
  refine ⟨?_, ?_, ?_, ?_⟩
  · intro σ drv op t
    rw [GpTimer.outcome, GpTimer.gptimer_apply_eq]
    by_cases h : (drv (GpTimer.callOf op) t._gptimer).1 = ESP_OK <;>
      simp [h, GpTimer.getState]
  · intro σ drv op u
    rw [PulseCounter.outcome, PulseCounter.pcnt_apply_eq]
    by_cases h : (drv (PulseCounter.callOf op) u._unit).1 = ESP_OK <;>
      simp [h, PulseCounter.getState]
  · intro s op log
    cases s <;> cases op <;> rfl
  · intro s op log
    cases s <;> cases op <;> rfl

/-- C2: for both facades and every operation, when the driver call fails the
operation throws an exception carrying exactly the driver's code, and
`getState()` afterwards returns what it returned before the call. -/
theorem C2_failed_transition_throws_and_keeps_state {σ τ : Type}
    (drvT : GptimerDriver σ) (drvP : PcntDriver τ) (op : Op)
    (t : GpTimer σ) (u : PulseCounter τ) :
    ((drvT (GpTimer.callOf op) t._gptimer).1 ≠ ESP_OK →
      (GpTimer.apply drvT op t).1 = some (drvT (GpTimer.callOf op) t._gptimer).1
      ∧ (GpTimer.apply drvT op t).2.getState = t.getState)
    ∧ ((drvP (PulseCounter.callOf op) u._unit).1 ≠ ESP_OK →
      (PulseCounter.apply drvP op u).1 = some (drvP (PulseCounter.callOf op) u._unit).1
      ∧ (PulseCounter.apply drvP op u).2.getState = u.getState) := by
  constructor
  · intro h
    rw [GpTimer.gptimer_apply_eq]
    simp [h, GpTimer.getState]
  · intro h
    rw [PulseCounter.pcnt_apply_eq]
    simp [h, PulseCounter.getState]

/-- C2 at a concrete input: `start()` on a freshly constructed timer and on a
freshly constructed pulse counter, against the documented drivers, throws
`ESP_ERR_INVALID_STATE` and leaves the state at `INIT`. -/
theorem C2_witness_start_before_enable :
    ((GpTimer.apply gptimerDocumented Op.start
        ⟨State.INIT, State.INIT, [GptimerCall.gptimer_new_timer]⟩).1
        = some ESP_ERR_INVALID_STATE
      ∧ (GpTimer.apply gptimerDocumented Op.start
        ⟨State.INIT, State.INIT, [GptimerCall.gptimer_new_timer]⟩).2.getState = State.INIT)
    ∧ ((PulseCounter.apply pcntDocumented Op.start
        ⟨State.INIT, false, [PcntCall.pcnt_new_unit]⟩).1 = some ESP_ERR_INVALID_STATE
      ∧ (PulseCounter.apply pcntDocumented Op.start
        ⟨State.INIT, false, [PcntCall.pcnt_new_unit]⟩).2.getState = State.INIT) :=
  ⟨(C2_failed_transition_throws_and_keeps_state gptimerDocumented pcntDocumented Op.start
      ⟨State.INIT, State.INIT, [GptimerCall.gptimer_new_timer]⟩
      ⟨State.INIT, false, [PcntCall.pcnt_new_unit]⟩).1 (by decide),
   (C2_failed_transition_throws_and_keeps_state gptimerDocumented pcntDocumented Op.start
      ⟨State.INIT, State.INIT, [GptimerCall.gptimer_new_timer]⟩
      ⟨State.INIT, false, [PcntCall.pcnt_new_unit]⟩).2 (by decide)⟩

/-- C3: when every driver call succeeds, a block that constructs a `GpTimer`,
calls `enable(); start(); stop(); disable()` and leaves the scope throws
nothing, trips no assertion, and issues exactly the driver calls new_timer,
enable, start, stop, disable, del_timer in this order. -/
theorem C3_round_trip_call_sequence {σ : Type} (drv : GptimerDriver σ) (hw : σ)
    (h : ∀ (c : GptimerCall) (s : σ), (drv c s).1 = ESP_OK) :
    ∃ td : Teardown σ GptimerCall,
      GpTimer.scopedBlock drv hw [Op.enable, Op.start, Op.stop, Op.disable]
        = Except.ok (none, td)
      ∧ td.aborted = false
      ∧ td.calls = [GptimerCall.gptimer_new_timer, GptimerCall.gptimer_enable,
          GptimerCall.gptimer_start, GptimerCall.gptimer_stop,
          GptimerCall.gptimer_disable, GptimerCall.gptimer_del_timer] := by
  simp [GpTimer.scopedBlock, GpTimer.construct, GpTimer.runOps, GpTimer.gptimer_apply_eq, h,
    GpTimer.destroy, GpTimer.driverCall, CHECK_THROW, Op.assigned, GpTimer.callOf]

/-- C3 at a concrete input: the round trip against the driver whose calls all
succeed. -/
theorem C3_witness_always_ok :
    ∃ td : Teardown Unit GptimerCall,
      GpTimer.scopedBlock gptimerAlwaysOk () [Op.enable, Op.start, Op.stop, Op.disable]
        = Except.ok (none, td)
      ∧ td.aborted = false
      ∧ td.calls = [GptimerCall.gptimer_new_timer, GptimerCall.gptimer_enable,
          GptimerCall.gptimer_start, GptimerCall.gptimer_stop,
          GptimerCall.gptimer_disable, GptimerCall.gptimer_del_timer] :=
  C3_round_trip_call_sequence gptimerAlwaysOk () (fun _ _ => rfl)

/-- C4: for both facades and every driver, the destructor adds to the calls
issued so far exactly stop, disable, delete from `RUN`; disable, delete from
`ENABLE`; delete alone from `INIT`. -/
theorem C4_destructor_unwinds_minimally :
    (∀ (σ : Type) (drv : GptimerDriver σ) (t : GpTimer σ),
      (t.destroy drv).calls = t.calls ++
        (match t._state with
         | State.RUN => [GptimerCall.gptimer_stop, GptimerCall.gptimer_disable,
             GptimerCall.gptimer_del_timer]
         | State.ENABLE => [GptimerCall.gptimer_disable, GptimerCall.gptimer_del_timer]
         | State.INIT => [GptimerCall.gptimer_del_timer]))
    ∧ (∀ (σ : Type) (drv : PcntDriver σ) (u : PulseCounter σ),
      (u.destroy drv).calls = u.calls ++
        (match u._state with
         | State.RUN => [PcntCall.pcnt_unit_stop, PcntCall.pcnt_unit_disable,
             PcntCall.pcnt_del_unit]
         | State.ENABLE => [PcntCall.pcnt_unit_disable, PcntCall.pcnt_del_unit]
         | State.INIT => [PcntCall.pcnt_del_unit])) := by
  constructor
  · rintro σ drv ⟨s, hw, log⟩
    cases s <;> simp [GpTimer.destroy, GpTimer.driverCall]
  · rintro σ drv ⟨s, hw, log⟩
    cases s <;> simp [PulseCounter.destroy, PulseCounter.driverCall]

/-- C5 (as stated, refuted): a timer that was constructed, enabled and started
against a driver whose `gptimer_stop` answers `ESP_FAIL` is destroyed without
any assertion failing: the failed stop is dropped, disable and delete follow. -/
theorem C5_counterexample_failed_stop_is_dropped :
    (gptimerStopFails GptimerCall.gptimer_stop ()).1 = ESP_FAIL
    ∧ ESP_FAIL ≠ ESP_OK
    ∧ ∃ td : Teardown Unit GptimerCall,
        GpTimer.scopedBlock gptimerStopFails () [Op.enable, Op.start] = Except.ok (none, td)
        ∧ td.aborted = false
        ∧ td.calls = [GptimerCall.gptimer_new_timer, GptimerCall.gptimer_enable,
            GptimerCall.gptimer_start, GptimerCall.gptimer_stop,
            GptimerCall.gptimer_disable, GptimerCall.gptimer_del_timer] := by
  refine ⟨rfl, by decide, ⟨_, rfl, rfl, rfl⟩⟩

/-- C5 (amended): the destructors of `GpTimer` and `PulseCounter` abort exactly
when the delete call fails, whatever the stop and disable calls before it
answered; the destructor of `mcpwm::Timer` aborts exactly when one of the calls
it issues fails: disable (issued when `_isEnable`), after which delete is not
reached, or delete. -/
theorem C5_teardown_assertions :
    (∀ (σ : Type) (drv : GptimerDriver σ) (t : GpTimer σ),
      (t.destroy drv).aborted = decide
        ((drv GptimerCall.gptimer_del_timer
          (match t._state with
           | State.RUN => (drv GptimerCall.gptimer_disable
               (drv GptimerCall.gptimer_stop t._gptimer).2).2
           | State.ENABLE => (drv GptimerCall.gptimer_disable t._gptimer).2
           | State.INIT => t._gptimer)).1 ≠ ESP_OK))
    ∧ (∀ (σ : Type) (drv : PcntDriver σ) (u : PulseCounter σ),
      (u.destroy drv).aborted = decide
        ((drv PcntCall.pcnt_del_unit
          (match u._state with
           | State.RUN => (drv PcntCall.pcnt_unit_disable
               (drv PcntCall.pcnt_unit_stop u._unit).2).2
           | State.ENABLE => (drv PcntCall.pcnt_unit_disable u._unit).2
           | State.INIT => u._unit)).1 ≠ ESP_OK))
    ∧ (∀ (σ : Type) (drv : mcpwm.TimerDriver σ) (m : mcpwm.Timer σ),
      ((m.destroy drv).aborted = decide
        (if m._isEnable then
          (drv mcpwm.TimerCall.mcpwm_timer_disable m._handle).1 ≠ ESP_OK
          ∨ (drv mcpwm.TimerCall.mcpwm_del_timer
              (drv mcpwm.TimerCall.mcpwm_timer_disable m._handle).2).1 ≠ ESP_OK
         else (drv mcpwm.TimerCall.mcpwm_del_timer m._handle).1 ≠ ESP_OK))
      ∧ (m.destroy drv).calls = m.calls ++
          (if m._isEnable then
            (if (drv mcpwm.TimerCall.mcpwm_timer_disable m._handle).1 ≠ ESP_OK then
              [mcpwm.TimerCall.mcpwm_timer_disable]
             else [mcpwm.TimerCall.mcpwm_timer_disable, mcpwm.TimerCall.mcpwm_del_timer])
           else [mcpwm.TimerCall.mcpwm_del_timer])) := by
  refine ⟨?_, ?_, ?_⟩
  · rintro σ drv ⟨s, hw, log⟩
    cases s <;> simp [GpTimer.destroy, GpTimer.driverCall]
  · rintro σ drv ⟨s, hw, log⟩
    cases s <;> simp [PulseCounter.destroy, PulseCounter.driverCall]
  · rintro σ drv ⟨en, hw, log⟩
    constructor
    · cases en
      · simp [mcpwm.Timer.destroy, mcpwm.Timer.driverCall]
      · by_cases h : (drv mcpwm.TimerCall.mcpwm_timer_disable hw).1 = ESP_OK <;>
          simp [mcpwm.Timer.destroy, mcpwm.Timer.driverCall, h]
    · cases en
      · simp [mcpwm.Timer.destroy, mcpwm.Timer.driverCall]
      · by_cases h : (drv mcpwm.TimerCall.mcpwm_timer_disable hw).1 = ESP_OK <;>
          simp [mcpwm.Timer.destroy, mcpwm.Timer.driverCall, h]

/-! ## Queue -/

/-- A sending call on a queue with room is accepted and appends its item. -/
theorem Queue.perform_of_room {T : Type} (q : Queue T) (c : SendCall T)
    (h : q._handle.items.length < q._handle.uxLength) :
    q.perform c = (true, ⟨{ q._handle with items := q._handle.items ++ [c.item] }⟩) := by
  cases c <;>
    simp [Queue.perform, Queue.send, Queue.sendFromISR, xQueueGenericSend,
      xQueueGenericSendFromISR, prvCopyDataToQueue, h, SendCall.item, pdPASS, pdTRUE]

/-- A sending call on a full queue is rejected and leaves capacity and items as
they were; a call that cannot block leaves the whole queue as it was. -/
theorem Queue.perform_full {T : Type} (q : Queue T) (c : SendCall T)
    (h : ¬ q._handle.items.length < q._handle.uxLength) :
    (q.perform c).1 = false
    ∧ (q.perform c).2._handle.items = q._handle.items
    ∧ (q.perform c).2._handle.uxLength = q._handle.uxLength
    ∧ (c.nonBlocking = true → (q.perform c).2 = q) := by
  cases c with
  | send x t =>
    refine ⟨?_, ?_, ?_, ?_⟩ <;>
      simp [Queue.perform, Queue.send, xQueueGenericSend, h, errQUEUE_FULL, pdTRUE,
        SendCall.nonBlocking]
    intro ht
    subst ht
    rfl
  | sendFromISR x w k =>
    refine ⟨?_, ?_, ?_, ?_⟩ <;>
      simp [Queue.perform, Queue.sendFromISR, xQueueGenericSendFromISR, h, errQUEUE_FULL,
        pdTRUE, SendCall.nonBlocking]

/-- Calls that all fit into the free space are all accepted, and their items
are appended in call order. -/
theorem Queue.performAll_fits {T : Type} (cs : List (SendCall T)) :
    ∀ q : Queue T, q._handle.items.length + cs.length ≤ q._handle.uxLength →
      q.performAll cs = (List.replicate cs.length true,
        ⟨{ q._handle with items := q._handle.items ++ cs.map SendCall.item }⟩) := by
  induction cs with
  | nil => intro q _; simp [Queue.performAll]
  | cons c cs ih =>
    intro q h
    have hroom : q._handle.items.length < q._handle.uxLength := by
      simp only [List.length_cons] at h; omega
    have hnext : (q.perform c).2._handle.items.length + cs.length
        ≤ (q.perform c).2._handle.uxLength := by
      rw [Queue.perform_of_room q c hroom]
      simp only [List.length_append, List.length_cons, List.length_nil] at h ⊢
      omega
    rw [Queue.performAll, ih _ hnext, Queue.perform_of_room q c hroom]
    simp [List.replicate_succ]

/-- After any sending calls the queue holds what it held before followed by the
items of the accepted calls, in call order. -/
theorem Queue.performAll_items {T : Type} (cs : List (SendCall T)) :
    ∀ q : Queue T, (q.performAll cs).2._handle.items
      = q._handle.items ++ Queue.accepted cs (q.performAll cs).1 := by
  induction cs with
  | nil => intro q; simp [Queue.performAll, Queue.accepted]
  | cons c cs ih =>
    intro q
    by_cases hroom : q._handle.items.length < q._handle.uxLength
    · have hp := Queue.perform_of_room q c hroom
      simp only [Queue.performAll, ih, hp]
      simp [Queue.accepted]
    · have hp := Queue.perform_full q c hroom
      simp only [Queue.performAll, ih, hp.1, hp.2.1]
      simp [Queue.accepted]

/-- Receiving as many times as there are items returns them oldest first and
empties the queue. -/
theorem Queue.drain_all {T : Type} (xs : List T) :
    ∀ q : Queue T, q._handle.items = xs →
      (q.drain xs.length).1 = xs.map some ∧ (q.drain xs.length).2._handle.items = [] := by
  induction xs with
  | nil => intro q h; simp [Queue.drain, h]
  | cons x xs ih =>
    intro q h
    have hr : q.receive 0 = (some x, ⟨{ q._handle with items := xs }⟩) := by
      simp [Queue.receive, xQueueReceive, h, pdPASS, pdTRUE]
    have := ih ⟨{ q._handle with items := xs }⟩ rfl
    simp only [List.length_cons, Queue.drain, hr, List.map_cons]
    exact ⟨by rw [this.1], this.2⟩

/-- A freshly constructed queue has the requested capacity and is empty. -/
theorem Queue.construct_ok {T : Type} (N : Nat) (heapOk : Bool) (q : Queue T)
    (hq : Queue.construct N heapOk = Except.ok q) :
    q._handle = { uxLength := N, items := [], ticksBlocked := 0 } ∧ 1 ≤ N := by
  unfold Queue.construct xQueueCreate at hq
  by_cases h : N = 0 ∨ heapOk = false
  · simp [h] at hq
  · simp only [h, if_false] at hq
    injection hq with hq
    subst hq
    exact ⟨rfl, by omega⟩

/-- C6: on a freshly constructed queue of capacity `N` (hence `N ≥ 1`), `N`
consecutive `send` / `sendFromISR` calls in any mix all return true; one more
non-blocking call returns false and leaves the queue exactly as it was; a
receive then returns the first item sent, and the next sending call returns
true again. -/
theorem C6_capacity_rejects_then_releases {T : Type} (N : Nat) (heapOk : Bool)
    (q : Queue T) (hq : Queue.construct N heapOk = Except.ok q)
    (calls : List (SendCall T)) (hlen : calls.length = N)
    (extra next : SendCall T) (hnb : extra.nonBlocking = true) (t : TickType_t) :
    (q.performAll calls).1 = List.replicate N true
    ∧ (q.performAll calls).2.perform extra = (false, (q.performAll calls).2)
    ∧ ((q.performAll calls).2.receive t).1 = calls.head?.map SendCall.item
    ∧ (((q.performAll calls).2.receive t).1).isSome = true
    ∧ (((q.performAll calls).2.receive t).2.perform next).1 = true := by
  obtain ⟨hh, hN⟩ := Queue.construct_ok N heapOk q hq
  have hfit : q._handle.items.length + calls.length ≤ q._handle.uxLength := by
    rw [hh, hlen]; simp
  have hall := Queue.performAll_fits calls q hfit
  rw [hall, hh]
  simp only [List.nil_append, hlen]
  have hfull : ¬ (calls.map SendCall.item).length < N := by simp [hlen]
  refine ⟨trivial, ?_, ?_⟩
  · have hf := Queue.perform_full
      (⟨{ uxLength := N, items := calls.map SendCall.item, ticksBlocked := 0 }⟩ : Queue T)
      extra hfull
    exact Prod.ext hf.1 (hf.2.2.2 hnb)
  · cases calls with
    | nil => simp at hlen; omega
    | cons c cs =>
      have hr : Queue.receive
          (⟨⟨N, (c :: cs).map SendCall.item, 0⟩⟩ : Queue T) t
          = (some c.item, ⟨⟨N, cs.map SendCall.item, 0⟩⟩) := by
        simp [Queue.receive, xQueueReceive, pdPASS, pdTRUE]
      rw [hr]
      refine ⟨rfl, rfl, ?_⟩
      have hroom : (cs.map SendCall.item).length < N := by
        simp only [List.length_cons] at hlen
        simp only [List.length_map]
        omega
      rw [Queue.perform_of_room _ next hroom]

/-- C6 at a concrete input: capacity 2, one `send` and one `sendFromISR` are
accepted, a third non-blocking `send` is rejected without effect, and after a
receive (which returns the first item) a `sendFromISR` is accepted. -/
theorem C6_witness_capacity_two :
    ((⟨⟨2, [], 0⟩⟩ : Queue Nat).performAll
        [SendCall.send 11 0, SendCall.sendFromISR 12 false false]).1
      = List.replicate 2 true
    ∧ ((⟨⟨2, [], 0⟩⟩ : Queue Nat).performAll
        [SendCall.send 11 0, SendCall.sendFromISR 12 false false]).2.perform
          (SendCall.send 13 0)
      = (false, ((⟨⟨2, [], 0⟩⟩ : Queue Nat).performAll
        [SendCall.send 11 0, SendCall.sendFromISR 12 false false]).2)
    ∧ (((⟨⟨2, [], 0⟩⟩ : Queue Nat).performAll
        [SendCall.send 11 0, SendCall.sendFromISR 12 false false]).2.receive 0).1
      = [SendCall.send 11 0, SendCall.sendFromISR 12 false false].head?.map SendCall.item
    ∧ ((((⟨⟨2, [], 0⟩⟩ : Queue Nat).performAll
        [SendCall.send 11 0, SendCall.sendFromISR 12 false false]).2.receive 0).1).isSome
      = true
    ∧ ((((⟨⟨2, [], 0⟩⟩ : Queue Nat).performAll
        [SendCall.send 11 0, SendCall.sendFromISR 12 false false]).2.receive 0).2.perform
          (SendCall.sendFromISR 14 false true)).1 = true :=
  C6_capacity_rejects_then_releases 2 true ⟨⟨2, [], 0⟩⟩ rfl
    [SendCall.send 11 0, SendCall.sendFromISR 12 false false] rfl
    (SendCall.send 13 0) (SendCall.sendFromISR 14 false true) rfl 0

/-- C7: after any sequence of `send` and `sendFromISR` calls on a freshly
constructed queue, in any interleaving and with any waits, receiving as many
times as calls were accepted returns exactly the items of the calls that
returned true, in the order of those calls, and a further receive returns
nothing. -/
theorem C7_fifo_of_accepted_calls {T : Type} (N : Nat) (heapOk : Bool)
    (q : Queue T) (hq : Queue.construct N heapOk = Except.ok q)
    (calls : List (SendCall T)) :
    ((q.performAll calls).2.drain
        (Queue.accepted calls (q.performAll calls).1).length).1
      = (Queue.accepted calls (q.performAll calls).1).map some
    ∧ (((q.performAll calls).2.drain
        (Queue.accepted calls (q.performAll calls).1).length).2.receive 0).1 = none := by
  obtain ⟨hh, _⟩ := Queue.construct_ok N heapOk q hq
  have hitems : (q.performAll calls).2._handle.items
      = Queue.accepted calls (q.performAll calls).1 := by
    rw [Queue.performAll_items, hh]; rfl
  obtain ⟨h1, h2⟩ := Queue.drain_all _ (q.performAll calls).2 hitems
  refine ⟨h1, ?_⟩
  simp [Queue.receive, xQueueReceive, h2, errQUEUE_EMPTY, pdTRUE]

/-- C7 at a concrete input: capacity 2; `send 1`, `sendFromISR 2` are
accepted, `send 3` (waiting 5 ticks) and `sendFromISR 4` are rejected; two
receives return 1 then 2 and a third returns nothing. -/
theorem C7_witness_interleaved :
    ((⟨⟨2, [], 0⟩⟩ : Queue Nat).performAll
        [SendCall.send 1 0, SendCall.sendFromISR 2 false true, SendCall.send 3 5,
          SendCall.sendFromISR 4 false false]).1 = [true, true, false, false]
    ∧ (((⟨⟨2, [], 0⟩⟩ : Queue Nat).performAll
        [SendCall.send 1 0, SendCall.sendFromISR 2 false true, SendCall.send 3 5,
          SendCall.sendFromISR 4 false false]).2.drain 2).1 = [some 1, some 2]
    ∧ ((((⟨⟨2, [], 0⟩⟩ : Queue Nat).performAll
        [SendCall.send 1 0, SendCall.sendFromISR 2 false true, SendCall.send 3 5,
          SendCall.sendFromISR 4 false false]).2.drain 2).2.receive 0).1 = none :=
  ⟨by decide,
   (C7_fifo_of_accepted_calls 2 true ⟨⟨2, [], 0⟩⟩ rfl
      [SendCall.send 1 0, SendCall.sendFromISR 2 false true, SendCall.send 3 5,
        SendCall.sendFromISR 4 false false]).1,
   (C7_fifo_of_accepted_calls 2 true ⟨⟨2, [], 0⟩⟩ rfl
      [SendCall.send 1 0, SendCall.sendFromISR 2 false true, SendCall.send 3 5,
        SendCall.sendFromISR 4 false false]).2⟩

/-- C8 (the code at the failing input): a one-slot queue of pointer-sized
words, with the word 7 stored at address 100 and the word 9 at address 200.
After `overwrite(100)` and `overwrite(200)` no assertion has failed, and
`receive` returns 9, the word stored at address 200, not the item 200 itself;
a further receive returns nothing.  The same scenario through
`overwriteFromISR`, which passes the address of the item, returns 200. -/
theorem C8_overwrite_delivers_pointee_not_item :
    Queue.construct 1 true = Except.ok (⟨⟨1, [], 0⟩⟩ : Queue Nat)
    ∧ (Queue.overwrite wordAt (⟨⟨1, [], 0⟩⟩ : Queue Nat) 100).1 = false
    ∧ (Queue.overwrite wordAt (Queue.overwrite wordAt (⟨⟨1, [], 0⟩⟩ : Queue Nat) 100).2
        200).1 = false
    ∧ ((Queue.overwrite wordAt (Queue.overwrite wordAt (⟨⟨1, [], 0⟩⟩ : Queue Nat) 100).2
        200).2.receive 0).1 = some 9
    ∧ (((Queue.overwrite wordAt (Queue.overwrite wordAt (⟨⟨1, [], 0⟩⟩ : Queue Nat) 100).2
        200).2.receive 0).2.receive 0).1 = none
    ∧ ((Queue.overwriteFromISR
        (Queue.overwriteFromISR (⟨⟨1, [], 0⟩⟩ : Queue Nat) 100 false false).2.2
        200 false false).2.2.receive 0).1 = some 200 :=
  ⟨rfl, rfl, rfl, rfl, rfl, rfl⟩

/-- For every memory and every two items, on an empty one-slot queue:
`overwrite(a); overwrite(b); receive` returns the content found at the address
`b` converts to, while with `overwriteFromISR` it returns `b`; in both cases a
further receive returns nothing. -/
theorem Queue.overwrite_twice_receive {T : Type} (pointee : T → T) (a b : T)
    (w1 w2 k1 k2 : Bool) :
    ((Queue.overwrite pointee (Queue.overwrite pointee (⟨⟨1, [], 0⟩⟩ : Queue T) a).2
        b).2.receive 0).1 = some (pointee b)
    ∧ (((Queue.overwrite pointee (Queue.overwrite pointee (⟨⟨1, [], 0⟩⟩ : Queue T) a).2
        b).2.receive 0).2.receive 0).1 = none
    ∧ ((Queue.overwriteFromISR
        (Queue.overwriteFromISR (⟨⟨1, [], 0⟩⟩ : Queue T) a w1 k1).2.2
        b w2 k2).2.2.receive 0).1 = some b
    ∧ (((Queue.overwriteFromISR
        (Queue.overwriteFromISR (⟨⟨1, [], 0⟩⟩ : Queue T) a w1 k1).2.2
        b w2 k2).2.2.receive 0).2.receive 0).1 = none := by
  simp [Queue.overwrite, Queue.overwriteFromISR, Queue.receive, xQueueGenericSend,
    xQueueGenericSendFromISR, xQueueReceive, prvCopyDataToQueue, pdPASS, pdTRUE,
    errQUEUE_EMPTY]

/-- C9: on an empty queue, `receive(0)` and `receiveFromISR` both return an
empty optional and leave the queue exactly as it was: still empty, no tick
spent suspended, the caller's wake flag untouched. -/
theorem C9_receive_on_empty {T : Type} (q : Queue T) (h : q._handle.items = [])
    (taskWokenByReceive : Option Bool) (waiter : Bool) :
    q.receive 0 = (none, q)
    ∧ q.receiveFromISR taskWokenByReceive waiter = (none, taskWokenByReceive, q)
    ∧ (q.receive 0).2.messagesWaiting = 0
    ∧ (q.receiveFromISR taskWokenByReceive waiter).2.2.messagesWaiting = 0 := by
  obtain ⟨⟨n, items, ticks⟩⟩ := q
  simp only at h
  subst h
  simp [Queue.receive, Queue.receiveFromISR, xQueueReceive, xQueueReceiveFromISR,
    errQUEUE_EMPTY, pdFALSE, pdTRUE, Queue.messagesWaiting, uxQueueMessagesWaiting]

/-- C9 at a concrete input: a freshly constructed queue of capacity 3. -/
theorem C9_witness_fresh_queue :
    (⟨⟨3, [], 0⟩⟩ : Queue Nat).receive 0 = (none, ⟨⟨3, [], 0⟩⟩)
    ∧ (⟨⟨3, [], 0⟩⟩ : Queue Nat).receiveFromISR (some false) true
        = (none, some false, ⟨⟨3, [], 0⟩⟩)
    ∧ ((⟨⟨3, [], 0⟩⟩ : Queue Nat).receive 0).2.messagesWaiting = 0
    ∧ ((⟨⟨3, [], 0⟩⟩ : Queue Nat).receiveFromISR (some false) true).2.2.messagesWaiting
        = 0 :=
  C9_receive_on_empty ⟨⟨3, [], 0⟩⟩ rfl (some false) true

/-- C10: on a queue whose oldest item is `x`, `peek` (with any wait) and
`peekFromISR` return `x` and leave the queue exactly as it was, so
`messagesWaiting()` is the same before and after, a second peek returns `x`
again, and the next receive returns `x`. -/
theorem C10_peek_leaves_queue {T : Type} (q : Queue T) (x : T) (rest : List T)
    (h : q._handle.items = x :: rest) (t t2 t3 : TickType_t) :
    q.peek t = (some x, q)
    ∧ q.peekFromISR = some x
    ∧ (q.peek t).2.messagesWaiting = q.messagesWaiting
    ∧ ((q.peek t).2.peek t2).1 = some x
    ∧ ((q.peek t).2.receive t3).1 = some x
    ∧ ((q.peek t).2.receive t3).2.messagesWaiting + 1 = q.messagesWaiting := by
  obtain ⟨⟨n, items, ticks⟩⟩ := q
  simp only at h
  subst h
  simp [Queue.peek, Queue.peekFromISR, Queue.receive, xQueuePeek, xQueuePeekFromISR,
    xQueueReceive, pdPASS, pdTRUE, Queue.messagesWaiting, uxQueueMessagesWaiting]

/-- C10 at a concrete input: after sending 5 then 6 into a queue of capacity
2, peeking returns 5, the oldest item, and changes nothing. -/
theorem C10_witness_two_items :
    (⟨⟨2, [5, 6], 0⟩⟩ : Queue Nat).peek 0 = (some 5, ⟨⟨2, [5, 6], 0⟩⟩)
    ∧ (⟨⟨2, [5, 6], 0⟩⟩ : Queue Nat).peekFromISR = some 5
    ∧ ((⟨⟨2, [5, 6], 0⟩⟩ : Queue Nat).peek 0).2.messagesWaiting
        = (⟨⟨2, [5, 6], 0⟩⟩ : Queue Nat).messagesWaiting
    ∧ (((⟨⟨2, [5, 6], 0⟩⟩ : Queue Nat).peek 0).2.peek 0).1 = some 5
    ∧ (((⟨⟨2, [5, 6], 0⟩⟩ : Queue Nat).peek 0).2.receive 0).1 = some 5
    ∧ (((⟨⟨2, [5, 6], 0⟩⟩ : Queue Nat).peek 0).2.receive 0).2.messagesWaiting + 1
        = (⟨⟨2, [5, 6], 0⟩⟩ : Queue Nat).messagesWaiting :=
  C10_peek_leaves_queue ⟨⟨2, [5, 6], 0⟩⟩ 5 [6] rfl 0 0 0

/-- One operation keeps the capacity and keeps the occupancy within it;
`overwrite` is only considered on one-slot queues. -/
theorem Queue.applyOp_bounded {T : Type} (pointee : T → T) (N : Nat) (q : Queue T)
    (op : QueueOp T) (hov : op.isOverwrite = true → N = 1)
    (hcap : q._handle.uxLength = N) (hocc : q._handle.items.length ≤ N) :
    (q.applyOp pointee op)._handle.uxLength = N
    ∧ (q.applyOp pointee op)._handle.items.length ≤ N := by
  obtain ⟨⟨n, items, ticks⟩⟩ := q
  simp only at hcap hocc
  subst hcap
  cases op with
  | send x t =>
    by_cases h : items.length < n <;>
      simp [Queue.applyOp, Queue.send, xQueueGenericSend, prvCopyDataToQueue, h]
    · omega
    · exact hocc
  | sendToFront x t =>
    by_cases h : items.length < n <;>
      simp [Queue.applyOp, Queue.sendToFront, xQueueGenericSend, prvCopyDataToQueue, h]
    · omega
    · exact hocc
  | sendToBack x t =>
    by_cases h : items.length < n <;>
      simp [Queue.applyOp, Queue.sendToBack, xQueueGenericSend, prvCopyDataToQueue, h]
    · omega
    · exact hocc
  | overwrite x =>
    have h1 : n = 1 := hov rfl
    subst h1
    simp [Queue.applyOp, Queue.overwrite, xQueueGenericSend, prvCopyDataToQueue]
    omega
  | receive t =>
    cases items with
    | nil => simp [Queue.applyOp, Queue.receive, xQueueReceive, errQUEUE_EMPTY, pdTRUE]
    | cons y ys =>
      simp [Queue.applyOp, Queue.receive, xQueueReceive, pdPASS, pdTRUE]
      simp only [List.length_cons] at hocc
      omega
  | peek t =>
    cases items with
    | nil => simp [Queue.applyOp, Queue.peek, xQueuePeek, errQUEUE_EMPTY, pdTRUE]
    | cons y ys =>
      simp [Queue.applyOp, Queue.peek, xQueuePeek, pdPASS, pdTRUE]
      exact hocc
  | reset => simp [Queue.applyOp, Queue.reset, xQueueReset]

/-- Any sequence of operations keeps the capacity and keeps the occupancy
within it. -/
theorem Queue.applyOps_bounded {T : Type} (pointee : T → T) (N : Nat)
    (ops : List (QueueOp T)) :
    ∀ q : Queue T, (∀ op ∈ ops, op.isOverwrite = true → N = 1) →
      q._handle.uxLength = N → q._handle.items.length ≤ N →
      (q.applyOps pointee ops)._handle.uxLength = N
      ∧ (q.applyOps pointee ops)._handle.items.length ≤ N := by
  induction ops with
  | nil => intro q _ hcap hocc; exact ⟨hcap, hocc⟩
  | cons op ops ih =>
    intro q hov hcap hocc
    have h1 := Queue.applyOp_bounded pointee N q op
      (hov op (List.mem_cons_self op ops)) hcap hocc
    exact ih (q.applyOp pointee op)
      (fun o ho => hov o (List.mem_cons_of_mem op ho)) h1.1 h1.2

/-- C11: on a queue constructed with capacity `N`, after every sequence of
`send`, `sendToFront`, `sendToBack`, `overwrite` (on one-slot queues only),
`receive`, `peek` and `reset`: `messagesWaiting() ≤ N`,
`messagesWaiting() + spacesAvailable() = N`, and a `reset()` then passes its
assertion and leaves `messagesWaiting() = 0`. -/
theorem C11_occupancy_within_capacity {T : Type} (N : Nat) (heapOk : Bool)
    (q : Queue T) (hq : Queue.construct N heapOk = Except.ok q) (pointee : T → T)
    (ops : List (QueueOp T)) (hov : ∀ op ∈ ops, op.isOverwrite = true → N = 1) :
    (q.applyOps pointee ops).messagesWaiting ≤ N
    ∧ (q.applyOps pointee ops).messagesWaiting + (q.applyOps pointee ops).spacesAvailable = N
    ∧ (q.applyOps pointee ops).reset.1 = false
    ∧ (q.applyOps pointee ops).reset.2.messagesWaiting = 0 := by
  obtain ⟨hh, _⟩ := Queue.construct_ok N heapOk q hq
  have hb := Queue.applyOps_bounded pointee N ops q hov (by rw [hh]) (by rw [hh]; simp)
  refine ⟨hb.2, ?_, ?_, ?_⟩
  · simp only [Queue.messagesWaiting, Queue.spacesAvailable, uxQueueMessagesWaiting,
      uxQueueSpacesAvailable, hb.1]
    have := hb.2
    omega
  · simp [Queue.reset, xQueueReset, pdPASS]
  · simp [Queue.reset, xQueueReset, Queue.messagesWaiting, uxQueueMessagesWaiting]

/-- C11 at a concrete input: a one-slot queue through send, a rejected send,
two overwrites, a peek, a front insertion that is rejected, a receive and a
reset in the middle. -/
theorem C11_witness_one_slot :
    ((⟨⟨1, [], 0⟩⟩ : Queue Nat).applyOps wordAt
        [QueueOp.send 1 0, QueueOp.sendToBack 2 3, QueueOp.overwrite 100, QueueOp.peek 0,
          QueueOp.reset, QueueOp.overwrite 200, QueueOp.sendToFront 4 0,
          QueueOp.receive 0, QueueOp.send 5 0]).messagesWaiting ≤ 1
    ∧ ((⟨⟨1, [], 0⟩⟩ : Queue Nat).applyOps wordAt
        [QueueOp.send 1 0, QueueOp.sendToBack 2 3, QueueOp.overwrite 100, QueueOp.peek 0,
          QueueOp.reset, QueueOp.overwrite 200, QueueOp.sendToFront 4 0,
          QueueOp.receive 0, QueueOp.send 5 0]).messagesWaiting
      + ((⟨⟨1, [], 0⟩⟩ : Queue Nat).applyOps wordAt
        [QueueOp.send 1 0, QueueOp.sendToBack 2 3, QueueOp.overwrite 100, QueueOp.peek 0,
          QueueOp.reset, QueueOp.overwrite 200, QueueOp.sendToFront 4 0,
          QueueOp.receive 0, QueueOp.send 5 0]).spacesAvailable = 1
    ∧ ((⟨⟨1, [], 0⟩⟩ : Queue Nat).applyOps wordAt
        [QueueOp.send 1 0, QueueOp.sendToBack 2 3, QueueOp.overwrite 100, QueueOp.peek 0,
          QueueOp.reset, QueueOp.overwrite 200, QueueOp.sendToFront 4 0,
          QueueOp.receive 0, QueueOp.send 5 0]).reset.1 = false
    ∧ ((⟨⟨1, [], 0⟩⟩ : Queue Nat).applyOps wordAt
        [QueueOp.send 1 0, QueueOp.sendToBack 2 3, QueueOp.overwrite 100, QueueOp.peek 0,
          QueueOp.reset, QueueOp.overwrite 200, QueueOp.sendToFront 4 0,
          QueueOp.receive 0, QueueOp.send 5 0]).reset.2.messagesWaiting = 0 :=
  C11_occupancy_within_capacity 1 true ⟨⟨1, [], 0⟩⟩ rfl wordAt
    [QueueOp.send 1 0, QueueOp.sendToBack 2 3, QueueOp.overwrite 100, QueueOp.peek 0,
      QueueOp.reset, QueueOp.overwrite 200, QueueOp.sendToFront 4 0,
      QueueOp.receive 0, QueueOp.send 5 0]
    (fun _ _ _ => rfl)

/-- C12: on a queue that is not full, `sendToFront(x, ticks)` and
`sendToFrontFromISR(x, ...)` return true, the next receive returns `x`, and
the items that were queued before are then received in their previous order. -/
theorem C12_send_to_front_is_received_first {T : Type} (q : Queue T) (x : T)
    (h : q._handle.items.length < q._handle.uxLength)
    (ticksToWait : TickType_t) (woken waiter : Bool) :
    ((q.sendToFront x ticksToWait).1 = true
      ∧ ((q.sendToFront x ticksToWait).2.receive 0).1 = some x
      ∧ (((q.sendToFront x ticksToWait).2.receive 0).2.drain q._handle.items.length).1
          = q._handle.items.map some)
    ∧ ((q.sendToFrontFromISR x woken waiter).1 = true
      ∧ ((q.sendToFrontFromISR x woken waiter).2.2.receive 0).1 = some x
      ∧ (((q.sendToFrontFromISR x woken waiter).2.2.receive 0).2.drain
          q._handle.items.length).1 = q._handle.items.map some) := by
  have hd := (Queue.drain_all q._handle.items ⟨{ q._handle with items := q._handle.items }⟩
    rfl).1
  constructor
  · have hs : q.sendToFront x ticksToWait
        = (true, ⟨{ q._handle with items := x :: q._handle.items }⟩) := by
      simp [Queue.sendToFront, xQueueGenericSend, prvCopyDataToQueue, h, pdPASS, pdTRUE]
    have hr : Queue.receive (⟨{ q._handle with items := x :: q._handle.items }⟩ : Queue T) 0
        = (some x, ⟨{ q._handle with items := q._handle.items }⟩) := by
      simp [Queue.receive, xQueueReceive, pdPASS, pdTRUE]
    rw [hs]
    simp only [hr]
    exact ⟨trivial, trivial, hd⟩
  · have hs : q.sendToFrontFromISR x woken waiter
        = (true, (if waiter then true else woken),
            ⟨{ q._handle with items := x :: q._handle.items }⟩) := by
      cases waiter <;>
        simp [Queue.sendToFrontFromISR, xQueueGenericSendFromISR, prvCopyDataToQueue, h,
          pdPASS, pdTRUE, pdFALSE]
    have hr : Queue.receive (⟨{ q._handle with items := x :: q._handle.items }⟩ : Queue T) 0
        = (some x, ⟨{ q._handle with items := q._handle.items }⟩) := by
      simp [Queue.receive, xQueueReceive, pdPASS, pdTRUE]
    rw [hs]
    simp only [hr]
    exact ⟨trivial, trivial, hd⟩

/-- C12 at a concrete input: 9 sent to the front of a queue of capacity 3
holding 5 and 6 is received first, then 5 and 6. -/
theorem C12_witness_front_of_two :
    (((⟨⟨3, [5, 6], 0⟩⟩ : Queue Nat).sendToFront 9 0).1 = true
      ∧ (((⟨⟨3, [5, 6], 0⟩⟩ : Queue Nat).sendToFront 9 0).2.receive 0).1 = some 9
      ∧ ((((⟨⟨3, [5, 6], 0⟩⟩ : Queue Nat).sendToFront 9 0).2.receive 0).2.drain 2).1
          = [some 5, some 6])
    ∧ (((⟨⟨3, [5, 6], 0⟩⟩ : Queue Nat).sendToFrontFromISR 9 false true).1 = true
      ∧ (((⟨⟨3, [5, 6], 0⟩⟩ : Queue Nat).sendToFrontFromISR 9 false true).2.2.receive 0).1
          = some 9
      ∧ ((((⟨⟨3, [5, 6], 0⟩⟩ : Queue Nat).sendToFrontFromISR 9 false true).2.2.receive
          0).2.drain 2).1 = [some 5, some 6]) :=
  C12_send_to_front_is_received_first ⟨⟨3, [5, 6], 0⟩⟩ 9 (by decide) 0 false true

/-- C13: each from-ISR method is pinned to the kernel call it makes.  For
`sendFromISR`, `sendToBackFromISR` (kernel position back) and
`sendToFrontFromISR` (kernel position front), called with `temp = pdFALSE`:
the method returns true exactly when the kernel returned `pdTRUE`, the queue
afterwards is the queue the kernel left, and the caller's flag afterwards is
its value before, or-ed with "the kernel returned `pdTRUE` and left `pdTRUE`
in `temp`".  For `receiveFromISR`: the returned optional is the kernel's item
when the kernel returned `pdTRUE` and empty otherwise, the queue afterwards is
the queue the kernel left, a non-null flag is or-ed in the same way and a null
pointer stays null.  Spelled out on the kernel model: a send into a queue with
room returns true, enqueues the item at its position and leaves the flag
or-ed with "a task was woken"; a send into a full queue returns false and
leaves queue and flag as they were; a receive from a non-empty queue returns
the head, removes it and leaves the flag or-ed with "a task was woken"; a
receive from an empty queue returns nothing and leaves queue and flag as they
were. -/
theorem C13_wake_flag_is_or_of_before_and_woken {T : Type} (q : Queue T) (x : T)
    (flag waiter : Bool) (ptr : Option Bool) :
    q.sendFromISR x flag waiter
        = (decide ((xQueueGenericSendFromISR q._handle x pdFALSE waiter
              QueuePosition.queueSEND_TO_BACK).1 = pdTRUE),
           (flag || (decide ((xQueueGenericSendFromISR q._handle x pdFALSE waiter
              QueuePosition.queueSEND_TO_BACK).1 = pdTRUE)
            && decide ((xQueueGenericSendFromISR q._handle x pdFALSE waiter
              QueuePosition.queueSEND_TO_BACK).2.1 = pdTRUE))),
           ⟨(xQueueGenericSendFromISR q._handle x pdFALSE waiter
              QueuePosition.queueSEND_TO_BACK).2.2⟩)
    ∧ q.sendToBackFromISR x flag waiter
        = (decide ((xQueueGenericSendFromISR q._handle x pdFALSE waiter
              QueuePosition.queueSEND_TO_BACK).1 = pdTRUE),
           (flag || (decide ((xQueueGenericSendFromISR q._handle x pdFALSE waiter
              QueuePosition.queueSEND_TO_BACK).1 = pdTRUE)
            && decide ((xQueueGenericSendFromISR q._handle x pdFALSE waiter
              QueuePosition.queueSEND_TO_BACK).2.1 = pdTRUE))),
           ⟨(xQueueGenericSendFromISR q._handle x pdFALSE waiter
              QueuePosition.queueSEND_TO_BACK).2.2⟩)
    ∧ q.sendToFrontFromISR x flag waiter
        = (decide ((xQueueGenericSendFromISR q._handle x pdFALSE waiter
              QueuePosition.queueSEND_TO_FRONT).1 = pdTRUE),
           (flag || (decide ((xQueueGenericSendFromISR q._handle x pdFALSE waiter
              QueuePosition.queueSEND_TO_FRONT).1 = pdTRUE)
            && decide ((xQueueGenericSendFromISR q._handle x pdFALSE waiter
              QueuePosition.queueSEND_TO_FRONT).2.1 = pdTRUE))),
           ⟨(xQueueGenericSendFromISR q._handle x pdFALSE waiter
              QueuePosition.queueSEND_TO_FRONT).2.2⟩)
    ∧ q.receiveFromISR ptr waiter
        = ((if (xQueueReceiveFromISR q._handle pdFALSE waiter).1 = pdTRUE
              then (xQueueReceiveFromISR q._handle pdFALSE waiter).2.1 else none),
           ptr.map (fun b => b
            || (decide ((xQueueReceiveFromISR q._handle pdFALSE waiter).1 = pdTRUE)
              && decide ((xQueueReceiveFromISR q._handle pdFALSE waiter).2.2.1 = pdTRUE))),
           ⟨(xQueueReceiveFromISR q._handle pdFALSE waiter).2.2.2⟩)
    ∧ q.sendFromISR x flag waiter
        = (if q._handle.items.length < q._handle.uxLength
            then (true, (flag || waiter),
              ⟨⟨q._handle.uxLength, q._handle.items ++ [x], q._handle.ticksBlocked⟩⟩)
            else (false, flag, q))
    ∧ q.sendToBackFromISR x flag waiter
        = (if q._handle.items.length < q._handle.uxLength
            then (true, (flag || waiter),
              ⟨⟨q._handle.uxLength, q._handle.items ++ [x], q._handle.ticksBlocked⟩⟩)
            else (false, flag, q))
    ∧ q.sendToFrontFromISR x flag waiter
        = (if q._handle.items.length < q._handle.uxLength
            then (true, (flag || waiter),
              ⟨⟨q._handle.uxLength, x :: q._handle.items, q._handle.ticksBlocked⟩⟩)
            else (false, flag, q))
    ∧ q.receiveFromISR ptr waiter
        = (match q._handle.items with
           | [] => (none, ptr, q)
           | y :: ys => (some y, ptr.map (fun b => b || waiter),
              ⟨⟨q._handle.uxLength, ys, q._handle.ticksBlocked⟩⟩)) := by
  obtain ⟨⟨n, items, ticks⟩⟩ := q
  refine ⟨?_, ?_, ?_, ?_, ?_, ?_, ?_, ?_⟩
  · by_cases h : items.length < n <;> cases waiter <;> cases flag <;>
      simp [Queue.sendFromISR, xQueueGenericSendFromISR, prvCopyDataToQueue, h, pdPASS,
        pdTRUE, pdFALSE, errQUEUE_FULL]
  · by_cases h : items.length < n <;> cases waiter <;> cases flag <;>
      simp [Queue.sendToBackFromISR, xQueueGenericSendFromISR, prvCopyDataToQueue, h, pdPASS,
        pdTRUE, pdFALSE, errQUEUE_FULL]
  · by_cases h : items.length < n <;> cases waiter <;> cases flag <;>
      simp [Queue.sendToFrontFromISR, xQueueGenericSendFromISR, prvCopyDataToQueue, h, pdPASS,
        pdTRUE, pdFALSE, errQUEUE_FULL]
  · cases items <;> cases waiter <;> cases ptr <;>
      simp [Queue.receiveFromISR, xQueueReceiveFromISR, pdPASS, pdTRUE, pdFALSE]
  · by_cases h : items.length < n <;> cases waiter <;> cases flag <;>
      simp [Queue.sendFromISR, xQueueGenericSendFromISR, prvCopyDataToQueue, h, pdPASS,
        pdTRUE, pdFALSE, errQUEUE_FULL]
  · by_cases h : items.length < n <;> cases waiter <;> cases flag <;>
      simp [Queue.sendToBackFromISR, xQueueGenericSendFromISR, prvCopyDataToQueue, h, pdPASS,
        pdTRUE, pdFALSE, errQUEUE_FULL]
  · by_cases h : items.length < n <;> cases waiter <;> cases flag <;>
      simp [Queue.sendToFrontFromISR, xQueueGenericSendFromISR, prvCopyDataToQueue, h, pdPASS,
        pdTRUE, pdFALSE, errQUEUE_FULL]
  · cases items <;> cases waiter <;> cases ptr <;>
      simp [Queue.receiveFromISR, xQueueReceiveFromISR, pdPASS, pdTRUE, pdFALSE]

/-! ## Callbacks -/

/-- C14: for every non-empty callback registered on a `GpTimer`, an
`mcpwm::Timer` (each of its three events), an `mcpwm::Fault` and an
`mcpwm::Operator` (each of their two events), an `mcpwm::Comparators` and an
`mcpwm::CaptureChannel`, whatever the driver answers: the handler passed to the
driver is non-null, the user context passed is the facade itself, and the
handler invoked with that context and event data `e` returns exactly what the
callback returns for that facade and `e`. -/
theorem C14_handler_forwards_to_callback (σ E : Type) (reg : RegisterDriver σ)
    (cb : Addr → E → Bool) (other other2 : EventCallBack E) :
    (∀ t : GpTimerObject σ E,
      Forwards ((t.registerEventCallbacks reg (some cb)).cbs.bind (fun c => c.on_alarm))
        t.self (t.registerEventCallbacks reg (some cb)).obj
        (t.registerEventCallbacks reg (some cb)).user_data cb)
    ∧ (∀ t : mcpwm.TimerObject σ E,
      Forwards ((t.registerEventCallBacks reg (some cb) other other2).cbs.bind
          (fun c => c.on_full))
        t.self (t.registerEventCallBacks reg (some cb) other other2).obj
        (t.registerEventCallBacks reg (some cb) other other2).user_data cb
      ∧ Forwards ((t.registerEventCallBacks reg other (some cb) other2).cbs.bind
          (fun c => c.on_empty))
        t.self (t.registerEventCallBacks reg other (some cb) other2).obj
        (t.registerEventCallBacks reg other (some cb) other2).user_data cb
      ∧ Forwards ((t.registerEventCallBacks reg other other2 (some cb)).cbs.bind
          (fun c => c.on_stop))
        t.self (t.registerEventCallBacks reg other other2 (some cb)).obj
        (t.registerEventCallBacks reg other other2 (some cb)).user_data cb)
    ∧ (∀ f : mcpwm.Fault σ E,
      Forwards ((f.registerEventCallbacks reg (some cb) other).cbs.bind
          (fun c => c.on_fault_enter))
        f.self (f.registerEventCallbacks reg (some cb) other).obj
        (f.registerEventCallbacks reg (some cb) other).user_data cb
      ∧ Forwards ((f.registerEventCallbacks reg other (some cb)).cbs.bind
          (fun c => c.on_fault_exit))
        f.self (f.registerEventCallbacks reg other (some cb)).obj
        (f.registerEventCallbacks reg other (some cb)).user_data cb)
    ∧ (∀ o : mcpwm.Operator σ E,
      Forwards ((o.registerEventCallbacks reg (some cb) other).cbs.bind
          (fun c => c.on_brake_cbc))
        o.self (o.registerEventCallbacks reg (some cb) other).obj
        (o.registerEventCallbacks reg (some cb) other).user_data cb
      ∧ Forwards ((o.registerEventCallbacks reg other (some cb)).cbs.bind
          (fun c => c.on_brake_ost))
        o.self (o.registerEventCallbacks reg other (some cb)).obj
        (o.registerEventCallbacks reg other (some cb)).user_data cb)
    ∧ (∀ c : mcpwm.Comparators σ E,
      Forwards ((c.registerEventCallBacks reg (some cb)).cbs.bind (fun s => s.on_reach))
        c.self (c.registerEventCallBacks reg (some cb)).obj
        (c.registerEventCallBacks reg (some cb)).user_data cb)
    ∧ (∀ c : mcpwm.CaptureChannel σ E,
      Forwards ((c.registerEventCallbacks reg (some cb)).cbs.bind (fun s => s.on_cap))
        c.self (c.registerEventCallbacks reg (some cb)).obj
        (c.registerEventCallbacks reg (some cb)).user_data cb) := by
  refine ⟨?_, ?_, ?_, ?_, ?_, ?_⟩
  · intro t
    simp [Forwards, GpTimerObject.registerEventCallbacks, GpTimerObject.on_alarm, deliver,
      heapOf, trampoline]
  · intro t
    simp [Forwards, mcpwm.TimerObject.registerEventCallBacks, mcpwm.TimerObject.on_full,
      mcpwm.TimerObject.on_empty, mcpwm.TimerObject.on_stop, deliver, heapOf, trampoline]
  · intro f
    simp [Forwards, mcpwm.Fault.registerEventCallbacks, mcpwm.Fault.on_fault_enter,
      mcpwm.Fault.on_fault_exit, deliver, heapOf, trampoline]
  · intro o
    simp [Forwards, mcpwm.Operator.registerEventCallbacks, mcpwm.Operator.on_brake_cbc,
      mcpwm.Operator.on_brake_ost, deliver, heapOf, trampoline]
  · intro c
    simp [Forwards, mcpwm.Comparators.registerEventCallBacks, mcpwm.Comparators.on_reach,
      deliver, heapOf, trampoline]
  · intro c
    simp [Forwards, mcpwm.CaptureChannel.registerEventCallbacks,
      mcpwm.CaptureChannel.on_cap, deliver, heapOf, trampoline]

/-- C15 (the code at the failing input): `PulseCounter::registerEventCallbacks`
called with an empty callback, on any pulse counter and whatever the driver
answers, stores the empty callback and still hands the driver a non-null
`on_reach` handler; a watch-point event delivered to that handler calls the
empty function.  `GpTimer::registerEventCallbacks` with an empty callback
hands the driver a null handler, so that an alarm calls nothing. -/
theorem C15_empty_callback_still_installs_handler (σ E : Type) (reg : RegisterDriver σ)
    (u : PulseCounterObject σ E) (t : GpTimerObject σ E) (e : E) :
    ((u.registerEventCallbacks reg none).cbs.bind (fun c => c.on_reach)).isSome = true
    ∧ (u.registerEventCallbacks reg none).obj._callback.isNone = true
    ∧ (u.registerEventCallbacks reg none).user_data = u.self
    ∧ deliver ((u.registerEventCallbacks reg none).cbs.bind (fun c => c.on_reach))
        (heapOf u.self (u.registerEventCallbacks reg none).obj)
        (u.registerEventCallbacks reg none).user_data e = Dispatch.bad_function_call
    ∧ ((t.registerEventCallbacks reg none).cbs.bind (fun c => c.on_alarm)).isSome = false
    ∧ deliver ((t.registerEventCallbacks reg none).cbs.bind (fun c => c.on_alarm))
        (heapOf t.self (t.registerEventCallbacks reg none).obj)
        (t.registerEventCallbacks reg none).user_data e = Dispatch.notInvoked := by
  simp [PulseCounterObject.registerEventCallbacks, PulseCounterObject.on_reach,
    GpTimerObject.registerEventCallbacks, deliver, heapOf, trampoline]

/-- C16 (as stated, refuted): against the GPTimer driver as documented, a timer
whose callback was registered in `INIT` and which was then enabled has recorded
state `ENABLE`, and a further `registerEventCallbacks` succeeds. -/
theorem C16_counterexample_register_while_enabled :
    (freshTimerObject.registerEventCallbacks gptimerRegisterDocumented
        (some (fun _ _ => true))).thrown = none
    ∧ (GpTimer.enable gptimerDocumentedPaired
        (freshTimerObject.registerEventCallbacks gptimerRegisterDocumented
          (some (fun _ _ => true))).obj.toGpTimer).1 = none
    ∧ enabledTimerObject.getState = State.ENABLE
    ∧ (enabledTimerObject.registerEventCallbacks gptimerRegisterDocumented
        (some (fun _ _ => false))).thrown = none :=
  ⟨rfl, rfl, rfl, rfl⟩

/-- C16 (amended): `registerEventCallbacks` of `GpTimer` and of `PulseCounter`
does not consult the recorded state: it throws exactly what `CHECK_THROW`
makes of the driver's answer.  Against the drivers as documented, with the
recorded state in step with the driver's: a first registration succeeds in
`INIT` and fails with `ESP_ERR_INVALID_STATE` in `ENABLE` and `RUN`; once a
registration has been accepted, registering again succeeds in every state. -/
theorem C16_registration_follows_driver :
    (∀ (σ E : Type) (reg : RegisterDriver σ) (cb : EventCallBack E) (t : GpTimerObject σ E),
      (t.registerEventCallbacks reg cb).thrown
        = CHECK_THROW (reg (some [cb.isSome]) t._gptimer).1)
    ∧ (∀ (σ E : Type) (reg : RegisterDriver σ) (cb : EventCallBack E)
        (u : PulseCounterObject σ E),
      (u.registerEventCallbacks reg cb).thrown = CHECK_THROW (reg (some [true]) u._unit).1)
    ∧ (∀ (E : Type) (s : State) (accepted : Bool) (log : List GptimerCall) (self : Addr)
        (old cb : EventCallBack E),
      (GpTimerObject.registerEventCallbacks gptimerRegisterDocumented cb
        { _state := s, _gptimer := (s, accepted), calls := log, self := self,
          _callback := old }).thrown
        = if accepted = true ∨ s = State.INIT then none else some ESP_ERR_INVALID_STATE)
    ∧ (∀ (E : Type) (s : State) (accepted : Bool) (log : List PcntCall) (self : Addr)
        (old cb : EventCallBack E),
      (PulseCounterObject.registerEventCallbacks pcntRegisterDocumented cb
        { _state := s, _unit := (decide (s ≠ State.INIT), accepted), calls := log,
          self := self, _callback := old }).thrown
        = if accepted = true ∨ s = State.INIT then none else some ESP_ERR_INVALID_STATE) := by
  refine ⟨?_, ?_, ?_, ?_⟩
  · intro σ E reg cb t
    cases cb <;> simp [GpTimerObject.registerEventCallbacks]
  · intro σ E reg cb u
    simp [PulseCounterObject.registerEventCallbacks]
  · intro E s accepted log self old cb
    cases s <;> cases accepted <;> rfl
  · intro E s accepted log self old cb
    cases s <;> cases accepted <;> rfl

/-! ## GPIO inputs -/

/-- With a driver whose calls succeed, constructing an input with an interrupt
type and a callback succeeds, increments the count, and issues pin reset,
direction, interrupt type, the service installation when the count was zero,
and the handler addition. -/
theorem GPIOInput.construct_with_callback {σ : Type} (drv : GpioDriver σ)
    (hOk : ∀ (c : GpioCall) (s : σ), (drv c s).1 = ESP_OK)
    (self : Addr) (num : Nat) (intType : gpio_int_type_t) (cb : Nat)
    (hint : intType ≠ gpio_int_type_t.GPIO_INTR_DISABLE) (w : GpioWorld σ) :
    (GPIOInput.construct drv self num intType (some cb) w).1
        = Except.ok { gpio_num := num, self := self, _callback := some cb }
    ∧ (GPIOInput.construct drv self num intType (some cb) w).2._isrHandlerCount
        = w._isrHandlerCount + 1
    ∧ (GPIOInput.construct drv self num intType (some cb) w).2.calls
        = w.calls ++ [GpioCall.gpio_reset_pin num,
            GpioCall.gpio_set_direction num gpio_mode_t.GPIO_MODE_INPUT,
            GpioCall.gpio_set_intr_type num intType]
          ++ (if w._isrHandlerCount = 0 then [GpioCall.gpio_install_isr_service 0] else [])
          ++ [GpioCall.gpio_isr_handler_add num self] := by
  by_cases hc : w._isrHandlerCount = 0 <;>
    simp [GPIOInput.construct, GpioWorld.call, CHECK_THROW, hOk, hint, hc]

/-- With a driver whose calls succeed, destroying an input that holds a
callback passes the assertion, decrements the count, and issues the handler
removal followed, when the count reached zero, by the service removal. -/
theorem GPIOInput.destroy_with_callback {σ : Type} (drv : GpioDriver σ)
    (hOk : ∀ (c : GpioCall) (s : σ), (drv c s).1 = ESP_OK)
    (g : GPIOInput) (hg : g._callback.isSome = true) (w : GpioWorld σ) :
    (GPIOInput.destroy drv g w).1 = false
    ∧ (GPIOInput.destroy drv g w).2._isrHandlerCount = w._isrHandlerCount - 1
    ∧ (GPIOInput.destroy drv g w).2.calls
        = w.calls ++ [GpioCall.gpio_isr_handler_remove g.gpio_num]
          ++ (if w._isrHandlerCount - 1 = 0 then [GpioCall.gpio_uninstall_isr_service]
              else []) := by
  by_cases hc : w._isrHandlerCount - 1 = 0 <;>
    simp [GPIOInput.destroy, GpioWorld.call, hOk, hg, hc]

/-- C17: starting with no `GPIOInput` alive and with a driver whose calls
succeed, constructing three inputs that each carry an interrupt type and a
callback succeeds and issues `gpio_install_isr_service` exactly once, within
the first construction.  Destroying the three in any order: the first two
destructions issue only their handler removals, and the third issues its
handler removal followed by the one `gpio_uninstall_isr_service`; no assertion
fails. -/
theorem C17_isr_service_installed_once_removed_once {σ : Type} (drv : GpioDriver σ)
    (hOk : ∀ (c : GpioCall) (s : σ), (drv c s).1 = ESP_OK) (hw : σ)
    (a1 a2 a3 : Addr) (p1 p2 p3 : Nat) (t1 t2 t3 : gpio_int_type_t) (c1 c2 c3 : Nat)
    (h1 : t1 ≠ gpio_int_type_t.GPIO_INTR_DISABLE)
    (h2 : t2 ≠ gpio_int_type_t.GPIO_INTR_DISABLE)
    (h3 : t3 ≠ gpio_int_type_t.GPIO_INTR_DISABLE)
    (x y z : GPIOInput)
    (horder : [x, y, z].Perm [⟨p1, a1, some c1⟩, ⟨p2, a2, some c2⟩, ⟨p3, a3, some c3⟩]) :
    (GPIOInput.fromNothing drv hw
        [⟨a1, p1, t1, some c1⟩, ⟨a2, p2, t2, some c2⟩, ⟨a3, p3, t3, some c3⟩]).1
      = [Except.ok ⟨p1, a1, some c1⟩, Except.ok ⟨p2, a2, some c2⟩,
          Except.ok ⟨p3, a3, some c3⟩]
    ∧ (GPIOInput.fromNothing drv hw
        [⟨a1, p1, t1, some c1⟩, ⟨a2, p2, t2, some c2⟩, ⟨a3, p3, t3, some c3⟩]).2.calls
      = [GpioCall.gpio_reset_pin p1,
          GpioCall.gpio_set_direction p1 gpio_mode_t.GPIO_MODE_INPUT,
          GpioCall.gpio_set_intr_type p1 t1,
          GpioCall.gpio_install_isr_service 0,
          GpioCall.gpio_isr_handler_add p1 a1,
          GpioCall.gpio_reset_pin p2,
          GpioCall.gpio_set_direction p2 gpio_mode_t.GPIO_MODE_INPUT,
          GpioCall.gpio_set_intr_type p2 t2,
          GpioCall.gpio_isr_handler_add p2 a2,
          GpioCall.gpio_reset_pin p3,
          GpioCall.gpio_set_direction p3 gpio_mode_t.GPIO_MODE_INPUT,
          GpioCall.gpio_set_intr_type p3 t3,
          GpioCall.gpio_isr_handler_add p3 a3]
    ∧ (GPIOInput.destroyAll drv [x, y] (GPIOInput.fromNothing drv hw
        [⟨a1, p1, t1, some c1⟩, ⟨a2, p2, t2, some c2⟩, ⟨a3, p3, t3, some c3⟩]).2).1 = false
    ∧ (GPIOInput.destroyAll drv [x, y] (GPIOInput.fromNothing drv hw
        [⟨a1, p1, t1, some c1⟩, ⟨a2, p2, t2, some c2⟩, ⟨a3, p3, t3, some c3⟩]).2).2.calls
      = (GPIOInput.fromNothing drv hw
          [⟨a1, p1, t1, some c1⟩, ⟨a2, p2, t2, some c2⟩, ⟨a3, p3, t3, some c3⟩]).2.calls
        ++ [GpioCall.gpio_isr_handler_remove x.gpio_num,
            GpioCall.gpio_isr_handler_remove y.gpio_num]
    ∧ (GPIOInput.destroyAll drv [x, y, z] (GPIOInput.fromNothing drv hw
        [⟨a1, p1, t1, some c1⟩, ⟨a2, p2, t2, some c2⟩, ⟨a3, p3, t3, some c3⟩]).2).1 = false
    ∧ (GPIOInput.destroyAll drv [x, y, z] (GPIOInput.fromNothing drv hw
        [⟨a1, p1, t1, some c1⟩, ⟨a2, p2, t2, some c2⟩, ⟨a3, p3, t3, some c3⟩]).2).2.calls
      = (GPIOInput.fromNothing drv hw
          [⟨a1, p1, t1, some c1⟩, ⟨a2, p2, t2, some c2⟩, ⟨a3, p3, t3, some c3⟩]).2.calls
        ++ [GpioCall.gpio_isr_handler_remove x.gpio_num,
            GpioCall.gpio_isr_handler_remove y.gpio_num,
            GpioCall.gpio_isr_handler_remove z.gpio_num,
            GpioCall.gpio_uninstall_isr_service] := by
  -- the three constructions
  have k1 := GPIOInput.construct_with_callback drv hOk a1 p1 t1 c1 h1
    { _isrHandlerCount := 0, hw := hw, calls := [] }
  have k2 := GPIOInput.construct_with_callback drv hOk a2 p2 t2 c2 h2
    (GPIOInput.construct drv a1 p1 t1 (some c1)
      { _isrHandlerCount := 0, hw := hw, calls := [] }).2
  have k3 := GPIOInput.construct_with_callback drv hOk a3 p3 t3 c3 h3
    (GPIOInput.construct drv a2 p2 t2 (some c2)
      (GPIOInput.construct drv a1 p1 t1 (some c1)
        { _isrHandlerCount := 0, hw := hw, calls := [] }).2).2
  have hres : (GPIOInput.fromNothing drv hw
      [⟨a1, p1, t1, some c1⟩, ⟨a2, p2, t2, some c2⟩, ⟨a3, p3, t3, some c3⟩]).1
      = [Except.ok ⟨p1, a1, some c1⟩, Except.ok ⟨p2, a2, some c2⟩,
          Except.ok ⟨p3, a3, some c3⟩] := by
    simp only [GPIOInput.fromNothing, GPIOInput.constructAll, k1.1, k2.1, k3.1]
  have hcount : (GPIOInput.fromNothing drv hw
      [⟨a1, p1, t1, some c1⟩, ⟨a2, p2, t2, some c2⟩, ⟨a3, p3, t3, some c3⟩]).2._isrHandlerCount
      = 3 := by
    simp only [GPIOInput.fromNothing, GPIOInput.constructAll, k3.2.1, k2.2.1, k1.2.1]
    norm_num
  have hcalls : (GPIOInput.fromNothing drv hw
      [⟨a1, p1, t1, some c1⟩, ⟨a2, p2, t2, some c2⟩, ⟨a3, p3, t3, some c3⟩]).2.calls
      = [GpioCall.gpio_reset_pin p1,
          GpioCall.gpio_set_direction p1 gpio_mode_t.GPIO_MODE_INPUT,
          GpioCall.gpio_set_intr_type p1 t1,
          GpioCall.gpio_install_isr_service 0,
          GpioCall.gpio_isr_handler_add p1 a1,
          GpioCall.gpio_reset_pin p2,
          GpioCall.gpio_set_direction p2 gpio_mode_t.GPIO_MODE_INPUT,
          GpioCall.gpio_set_intr_type p2 t2,
          GpioCall.gpio_isr_handler_add p2 a2,
          GpioCall.gpio_reset_pin p3,
          GpioCall.gpio_set_direction p3 gpio_mode_t.GPIO_MODE_INPUT,
          GpioCall.gpio_set_intr_type p3 t3,
          GpioCall.gpio_isr_handler_add p3 a3] := by
    simp only [GPIOInput.fromNothing, GPIOInput.constructAll, k3.2.2, k2.2.2, k2.2.1,
      k1.2.2, k1.2.1]
    norm_num
  -- every object of the order holds a callback
  have hmem : ∀ g ∈ [x, y, z], g._callback.isSome = true := by
    intro g hgmem
    have := horder.subset hgmem
    simp only [List.mem_cons, List.mem_singleton, List.not_mem_nil, or_false] at this
    rcases this with h | h | h <;> subst h <;> rfl
  have hx := hmem x (by simp)
  have hy := hmem y (by simp)
  have hz := hmem z (by simp)
  generalize GPIOInput.fromNothing drv hw
      [⟨a1, p1, t1, some c1⟩, ⟨a2, p2, t2, some c2⟩, ⟨a3, p3, t3, some c3⟩] = r at *
  have d1 := GPIOInput.destroy_with_callback drv hOk x hx r.2
  have d2 := GPIOInput.destroy_with_callback drv hOk y hy (GPIOInput.destroy drv x r.2).2
  have d3 := GPIOInput.destroy_with_callback drv hOk z hz
    (GPIOInput.destroy drv y (GPIOInput.destroy drv x r.2).2).2
  have e1 : (GPIOInput.destroy drv x r.2).2._isrHandlerCount = 2 := by
    rw [d1.2.1, hcount]; norm_num
  have e2 : (GPIOInput.destroy drv y (GPIOInput.destroy drv x r.2).2).2._isrHandlerCount
      = 1 := by
    rw [d2.2.1, e1]; norm_num
  refine ⟨hres, hcalls, ?_, ?_, ?_, ?_⟩
  · simp [GPIOInput.destroyAll, d1.1, d2.1]
  · simp [GPIOInput.destroyAll, d1.1, d2.1, d2.2.2, d1.2.2, e1, hcount]
  · simp [GPIOInput.destroyAll, d1.1, d2.1, d3.1]
  · simp [GPIOInput.destroyAll, d1.1, d2.1, d3.1, d3.2.2, d2.2.2, d1.2.2, e1, e2, hcount]

/-- C17 at a concrete input: inputs on pins 4, 5 and 6 against the driver
whose calls all succeed, destroyed in the order 5, 6, 4: the handler removals
for 5, 6 and 4, then the one service removal. -/
theorem C17_witness_three_pins :
    (GPIOInput.destroyAll gpioAlwaysOk [⟨5, 20, some 2⟩, ⟨6, 30, some 3⟩, ⟨4, 10, some 1⟩]
      (GPIOInput.fromNothing gpioAlwaysOk ()
        [⟨10, 4, gpio_int_type_t.GPIO_INTR_POSEDGE, some 1⟩,
         ⟨20, 5, gpio_int_type_t.GPIO_INTR_NEGEDGE, some 2⟩,
         ⟨30, 6, gpio_int_type_t.GPIO_INTR_ANYEDGE, some 3⟩]).2).2.calls
      = (GPIOInput.fromNothing gpioAlwaysOk ()
        [⟨10, 4, gpio_int_type_t.GPIO_INTR_POSEDGE, some 1⟩,
         ⟨20, 5, gpio_int_type_t.GPIO_INTR_NEGEDGE, some 2⟩,
         ⟨30, 6, gpio_int_type_t.GPIO_INTR_ANYEDGE, some 3⟩]).2.calls
        ++ [GpioCall.gpio_isr_handler_remove 5, GpioCall.gpio_isr_handler_remove 6,
            GpioCall.gpio_isr_handler_remove 4, GpioCall.gpio_uninstall_isr_service] :=
  (C17_isr_service_installed_once_removed_once gpioAlwaysOk (fun _ _ => rfl) ()
    10 20 30 4 5 6 gpio_int_type_t.GPIO_INTR_POSEDGE gpio_int_type_t.GPIO_INTR_NEGEDGE
    gpio_int_type_t.GPIO_INTR_ANYEDGE 1 2 3 (by decide) (by decide) (by decide)
    ⟨5, 20, some 2⟩ ⟨6, 30, some 3⟩ ⟨4, 10, some 1⟩ (by decide)).2.2.2.2.2

/-- C18 (as stated, refuted): constructing an input on pin 4 with a rising-edge
interrupt and an empty callback, against the driver whose calls all succeed
and with no driver call issued before, throws `ESP_ERR_INVALID_ARG` after the
pin reset, the direction and the interrupt type have been issued. -/
theorem C18_counterexample_three_calls_before_rejection :
    (GPIOInput.construct gpioAlwaysOk 10 4 gpio_int_type_t.GPIO_INTR_POSEDGE none
        { _isrHandlerCount := 0, hw := (), calls := [] }).1
      = Except.error ESP_ERR_INVALID_ARG
    ∧ (GPIOInput.construct gpioAlwaysOk 10 4 gpio_int_type_t.GPIO_INTR_POSEDGE none
        { _isrHandlerCount := 0, hw := (), calls := [] }).2.calls
      = [GpioCall.gpio_reset_pin 4,
          GpioCall.gpio_set_direction 4 gpio_mode_t.GPIO_MODE_INPUT,
          GpioCall.gpio_set_intr_type 4 gpio_int_type_t.GPIO_INTR_POSEDGE] :=
  ⟨rfl, rfl⟩

/-- C18 (amended): constructing an input with an interrupt type other than
`GPIO_INTR_DISABLE` and an empty callback never yields an object, whatever the
driver answers; it issues neither the ISR service installation nor the
handler addition and leaves `_isrHandlerCount` unchanged.  When the pin
reset, direction and interrupt type calls succeed, these three calls are
exactly what is issued and the exception carries `ESP_ERR_INVALID_ARG`. -/
theorem C18_empty_callback_rejected_after_pin_setup {σ : Type} (drv : GpioDriver σ)
    (self : Addr) (num : Nat) (intType : gpio_int_type_t)
    (hint : intType ≠ gpio_int_type_t.GPIO_INTR_DISABLE) (w : GpioWorld σ) :
    (∃ e, (GPIOInput.construct drv self num intType none w).1 = Except.error e)
    ∧ (GPIOInput.construct drv self num intType none w).2._isrHandlerCount
        = w._isrHandlerCount
    ∧ (∀ c ∈ (GPIOInput.construct drv self num intType none w).2.calls,
        c ∈ w.calls ∨ c = GpioCall.gpio_reset_pin num
          ∨ c = GpioCall.gpio_set_direction num gpio_mode_t.GPIO_MODE_INPUT
          ∨ c = GpioCall.gpio_set_intr_type num intType)
    ∧ ((∀ (c : GpioCall) (s : σ), (drv c s).1 = ESP_OK) →
        (GPIOInput.construct drv self num intType none w).1
          = Except.error ESP_ERR_INVALID_ARG
        ∧ (GPIOInput.construct drv self num intType none w).2.calls
          = w.calls ++ [GpioCall.gpio_reset_pin num,
              GpioCall.gpio_set_direction num gpio_mode_t.GPIO_MODE_INPUT,
              GpioCall.gpio_set_intr_type num intType]) := by
  by_cases h0 : (drv (GpioCall.gpio_reset_pin num) w.hw).1 = ESP_OK
  · by_cases h1 : (drv (GpioCall.gpio_set_direction num gpio_mode_t.GPIO_MODE_INPUT)
        (drv (GpioCall.gpio_reset_pin num) w.hw).2).1 = ESP_OK
    · by_cases h2 : (drv (GpioCall.gpio_set_intr_type num intType)
          (drv (GpioCall.gpio_set_direction num gpio_mode_t.GPIO_MODE_INPUT)
            (drv (GpioCall.gpio_reset_pin num) w.hw).2).2).1 = ESP_OK
      · have hA : (GPIOInput.construct drv self num intType none w).1
            = Except.error ESP_ERR_INVALID_ARG := by
          simp [GPIOInput.construct, GpioWorld.call, CHECK_THROW, h0, h1, h2, hint]
        have hB : (GPIOInput.construct drv self num intType none w).2._isrHandlerCount
            = w._isrHandlerCount := by
          simp [GPIOInput.construct, GpioWorld.call, CHECK_THROW, h0, h1, h2, hint]
        have hC : (GPIOInput.construct drv self num intType none w).2.calls
            = w.calls ++ [GpioCall.gpio_reset_pin num,
                GpioCall.gpio_set_direction num gpio_mode_t.GPIO_MODE_INPUT,
                GpioCall.gpio_set_intr_type num intType] := by
          simp [GPIOInput.construct, GpioWorld.call, CHECK_THROW, h0, h1, h2, hint]
        refine ⟨⟨_, hA⟩, hB, ?_, fun _ => ⟨hA, hC⟩⟩
        intro c hc
        rw [hC] at hc
        simp only [List.mem_append, List.mem_cons, List.mem_singleton, List.not_mem_nil,
          or_false] at hc
        exact hc
      · have hA : (GPIOInput.construct drv self num intType none w).1
            = Except.error (drv (GpioCall.gpio_set_intr_type num intType)
                (drv (GpioCall.gpio_set_direction num gpio_mode_t.GPIO_MODE_INPUT)
                  (drv (GpioCall.gpio_reset_pin num) w.hw).2).2).1 := by
          simp [GPIOInput.construct, GpioWorld.call, CHECK_THROW, h0, h1, h2]
        have hB : (GPIOInput.construct drv self num intType none w).2._isrHandlerCount
            = w._isrHandlerCount := by
          simp [GPIOInput.construct, GpioWorld.call, CHECK_THROW, h0, h1, h2]
        have hC : (GPIOInput.construct drv self num intType none w).2.calls
            = w.calls ++ [GpioCall.gpio_reset_pin num,
                GpioCall.gpio_set_direction num gpio_mode_t.GPIO_MODE_INPUT,
                GpioCall.gpio_set_intr_type num intType] := by
          simp [GPIOInput.construct, GpioWorld.call, CHECK_THROW, h0, h1, h2]
        refine ⟨⟨_, hA⟩, hB, ?_, fun hOk => absurd (hOk _ _) h2⟩
        intro c hc
        rw [hC] at hc
        simp only [List.mem_append, List.mem_cons, List.mem_singleton, List.not_mem_nil,
          or_false] at hc
        exact hc
    · have hA : (GPIOInput.construct drv self num intType none w).1
          = Except.error (drv (GpioCall.gpio_set_direction num gpio_mode_t.GPIO_MODE_INPUT)
              (drv (GpioCall.gpio_reset_pin num) w.hw).2).1 := by
        simp [GPIOInput.construct, GpioWorld.call, CHECK_THROW, h0, h1]
      have hB : (GPIOInput.construct drv self num intType none w).2._isrHandlerCount
          = w._isrHandlerCount := by
        simp [GPIOInput.construct, GpioWorld.call, CHECK_THROW, h0, h1]
      have hC : (GPIOInput.construct drv self num intType none w).2.calls
          = w.calls ++ [GpioCall.gpio_reset_pin num,
              GpioCall.gpio_set_direction num gpio_mode_t.GPIO_MODE_INPUT] := by
        simp [GPIOInput.construct, GpioWorld.call, CHECK_THROW, h0, h1]
      refine ⟨⟨_, hA⟩, hB, ?_, fun hOk => absurd (hOk _ _) h1⟩
      intro c hc
      rw [hC] at hc
      simp only [List.mem_append, List.mem_cons, List.mem_singleton, List.not_mem_nil,
        or_false] at hc
      rcases hc with hc | hc | hc
      · exact Or.inl hc
      · exact Or.inr (Or.inl hc)
      · exact Or.inr (Or.inr (Or.inl hc))
  · have hA : (GPIOInput.construct drv self num intType none w).1
        = Except.error (drv (GpioCall.gpio_reset_pin num) w.hw).1 := by
      simp [GPIOInput.construct, GpioWorld.call, CHECK_THROW, h0]
    have hB : (GPIOInput.construct drv self num intType none w).2._isrHandlerCount
        = w._isrHandlerCount := by
      simp [GPIOInput.construct, GpioWorld.call, CHECK_THROW, h0]
    have hC : (GPIOInput.construct drv self num intType none w).2.calls
        = w.calls ++ [GpioCall.gpio_reset_pin num] := by
      simp [GPIOInput.construct, GpioWorld.call, CHECK_THROW, h0]
    refine ⟨⟨_, hA⟩, hB, ?_, fun hOk => absurd (hOk _ _) h0⟩
    intro c hc
    rw [hC] at hc
    simp only [List.mem_append, List.mem_cons, List.mem_singleton, List.not_mem_nil,
      or_false] at hc
    rcases hc with hc | hc
    · exact Or.inl hc
    · exact Or.inr (Or.inl hc)

/-- C18 (amended) at a concrete input: pin 4, rising edge, empty callback, one
input already alive. -/
theorem C18_witness_pin_four :
    (GPIOInput.construct gpioAlwaysOk 10 4 gpio_int_type_t.GPIO_INTR_POSEDGE none
        { _isrHandlerCount := 1, hw := (), calls := [] }).2._isrHandlerCount = 1
    ∧ (GPIOInput.construct gpioAlwaysOk 10 4 gpio_int_type_t.GPIO_INTR_POSEDGE none
        { _isrHandlerCount := 1, hw := (), calls := [] }).1
      = Except.error ESP_ERR_INVALID_ARG :=
  ⟨(C18_empty_callback_rejected_after_pin_setup gpioAlwaysOk 10 4
      gpio_int_type_t.GPIO_INTR_POSEDGE (by decide)
      { _isrHandlerCount := 1, hw := (), calls := [] }).2.1,
   ((C18_empty_callback_rejected_after_pin_setup gpioAlwaysOk 10 4
      gpio_int_type_t.GPIO_INTR_POSEDGE (by decide)
      { _isrHandlerCount := 1, hw := (), calls := [] }).2.2.2 (fun _ _ => rfl)).1⟩

/-! ## Composition and LEDC -/

/-- C19: with a driver whose calls succeed, constructing a `BdcMotor` allocates
timer, operator, comparator A, comparator B, generator A, generator B in this
order (and then runs the seven configuration calls of the constructor body);
destroying a motor releases generator B, generator A, comparator B,
comparator A, operator and timer in this order, each once, the timer being
disabled just before its release when it is enabled; no assertion fails. -/
theorem C19_members_built_in_order_released_in_reverse {σ : Type} (drv : mcpwm.Driver σ)
    (hOk : ∀ (c : mcpwm.Call) (s : σ), (drv c s).1 = ESP_OK)
    (pwmAGpio pwmBGpio : Nat) (hw : σ) (m : BdcMotor) (w : mcpwm.World σ) :
    (BdcMotor.construct drv pwmAGpio pwmBGpio { hw := hw, calls := [] }).result
      = Except.ok { _timer_isEnable := false }
    ∧ (BdcMotor.construct drv pwmAGpio pwmBGpio { hw := hw, calls := [] }).aborted = false
    ∧ (BdcMotor.construct drv pwmAGpio pwmBGpio { hw := hw, calls := [] }).world.calls
      = [mcpwm.Call.timer mcpwm.TimerCall.mcpwm_new_timer,
          mcpwm.Call.mcpwm_new_operator,
          mcpwm.Call.mcpwm_new_comparator mcpwm.Side.A,
          mcpwm.Call.mcpwm_new_comparator mcpwm.Side.B,
          mcpwm.Call.mcpwm_new_generator mcpwm.Side.A pwmAGpio,
          mcpwm.Call.mcpwm_new_generator mcpwm.Side.B pwmBGpio,
          mcpwm.Call.mcpwm_operator_connect_timer,
          mcpwm.Call.mcpwm_comparator_set_compare_value mcpwm.Side.A 0,
          mcpwm.Call.mcpwm_comparator_set_compare_value mcpwm.Side.B 0,
          mcpwm.Call.mcpwm_generator_set_action_on_timer_event mcpwm.Side.A,
          mcpwm.Call.mcpwm_generator_set_action_on_compare_event mcpwm.Side.A mcpwm.Side.A,
          mcpwm.Call.mcpwm_generator_set_action_on_timer_event mcpwm.Side.B,
          mcpwm.Call.mcpwm_generator_set_action_on_compare_event mcpwm.Side.B mcpwm.Side.B]
    ∧ (BdcMotor.destroy drv m w).1 = false
    ∧ (BdcMotor.destroy drv m w).2.calls
      = w.calls ++ [mcpwm.Call.mcpwm_del_generator mcpwm.Side.B,
          mcpwm.Call.mcpwm_del_generator mcpwm.Side.A,
          mcpwm.Call.mcpwm_del_comparator mcpwm.Side.B,
          mcpwm.Call.mcpwm_del_comparator mcpwm.Side.A,
          mcpwm.Call.mcpwm_del_operator]
        ++ (if m._timer_isEnable then
              [mcpwm.Call.timer mcpwm.TimerCall.mcpwm_timer_disable]
            else [])
        ++ [mcpwm.Call.timer mcpwm.TimerCall.mcpwm_del_timer] := by
  obtain ⟨en⟩ := m
  refine ⟨?_, ?_, ?_, ?_, ?_⟩
  · simp [BdcMotor.construct, BdcMotor.constructMembers, BdcMotor.members,
      BdcMotor.Member.ctor, BdcMotor.runSteps, BdcMotor.constructorBody, mcpwm.Timer.ctor,
      mcpwm.Timer.construct, mcpwm.Timer.driverCall, mcpwm.timerDriver, mcpwm.World.call,
      mcpwm.Operator.ctor, mcpwm.Operator.connect, mcpwm.Comparators.ctor,
      mcpwm.Comparators.setCompareValue, mcpwm.Generators.ctor,
      mcpwm.Generators.setActionOnTimerEvent, mcpwm.Generators.setActionOnCompareEvent,
      CHECK_THROW, hOk]
  · simp [BdcMotor.construct, BdcMotor.constructMembers, BdcMotor.members,
      BdcMotor.Member.ctor, BdcMotor.runSteps, BdcMotor.constructorBody, mcpwm.Timer.ctor,
      mcpwm.Timer.construct, mcpwm.Timer.driverCall, mcpwm.timerDriver, mcpwm.World.call,
      mcpwm.Operator.ctor, mcpwm.Operator.connect, mcpwm.Comparators.ctor,
      mcpwm.Comparators.setCompareValue, mcpwm.Generators.ctor,
      mcpwm.Generators.setActionOnTimerEvent, mcpwm.Generators.setActionOnCompareEvent,
      CHECK_THROW, hOk]
  · simp [BdcMotor.construct, BdcMotor.constructMembers, BdcMotor.members,
      BdcMotor.Member.ctor, BdcMotor.runSteps, BdcMotor.constructorBody, mcpwm.Timer.ctor,
      mcpwm.Timer.construct, mcpwm.Timer.driverCall, mcpwm.timerDriver, mcpwm.World.call,
      mcpwm.Operator.ctor, mcpwm.Operator.connect, mcpwm.Comparators.ctor,
      mcpwm.Comparators.setCompareValue, mcpwm.Generators.ctor,
      mcpwm.Generators.setActionOnTimerEvent, mcpwm.Generators.setActionOnCompareEvent,
      CHECK_THROW, hOk]
  · cases en <;>
      simp [BdcMotor.destroy, BdcMotor.destroyMembers, BdcMotor.members,
        BdcMotor.Member.dtor, mcpwm.Timer.dtor, mcpwm.Timer.destroy, mcpwm.Timer.driverCall,
        mcpwm.timerDriver, mcpwm.World.call, mcpwm.Operator.dtor, mcpwm.Comparators.dtor,
        mcpwm.Generators.dtor, hOk]
  · cases en <;>
      simp [BdcMotor.destroy, BdcMotor.destroyMembers, BdcMotor.members,
        BdcMotor.Member.dtor, mcpwm.Timer.dtor, mcpwm.Timer.destroy, mcpwm.Timer.driverCall,
        mcpwm.timerDriver, mcpwm.World.call, mcpwm.Operator.dtor, mcpwm.Comparators.dtor,
        mcpwm.Generators.dtor, hOk]

/-- C19 at a concrete input: a motor on pins 16 and 17 against the driver
whose calls all succeed, destroyed while enabled after one earlier call. -/
theorem C19_witness_pins_16_17 :
    (BdcMotor.construct mcpwmAlwaysOk 16 17 { hw := (), calls := [] }).result
      = Except.ok { _timer_isEnable := false }
    ∧ (BdcMotor.destroy mcpwmAlwaysOk { _timer_isEnable := true }
        { hw := (), calls := [mcpwm.Call.mcpwm_new_operator] }).2.calls
      = [mcpwm.Call.mcpwm_new_operator] ++ [mcpwm.Call.mcpwm_del_generator mcpwm.Side.B,
          mcpwm.Call.mcpwm_del_generator mcpwm.Side.A,
          mcpwm.Call.mcpwm_del_comparator mcpwm.Side.B,
          mcpwm.Call.mcpwm_del_comparator mcpwm.Side.A,
          mcpwm.Call.mcpwm_del_operator]
        ++ (if true then [mcpwm.Call.timer mcpwm.TimerCall.mcpwm_timer_disable] else [])
        ++ [mcpwm.Call.timer mcpwm.TimerCall.mcpwm_del_timer] :=
  ⟨(C19_members_built_in_order_released_in_reverse mcpwmAlwaysOk (fun _ _ => rfl) 16 17 ()
      { _timer_isEnable := true } { hw := (), calls := [mcpwm.Call.mcpwm_new_operator] }).1,
   (C19_members_built_in_order_released_in_reverse mcpwmAlwaysOk (fun _ _ => rfl) 16 17 ()
      { _timer_isEnable := true }
      { hw := (), calls := [mcpwm.Call.mcpwm_new_operator] }).2.2.2.2⟩

/-- C20 (the code at the failing input): for every driver and channel,
`stop(idleLevel)` asks the driver for idle level 0 when `idleLevel` is true and
1 when it is false.  So `stop(false)` and `stop()` request level 1, `stop(true)`
requests level 0, and the destructor requests level 0, which is not the level
`stop()` requests. -/
theorem C20_stop_requests_the_opposite_level {σ : Type} (drv : LedcDriver σ)
    (ch : LedcChannel σ) (idleLevel : Bool) :
    (ch.stop drv idleLevel).2.calls
      = ch.calls ++ [LedcCall.ledc_stop ch.speedMode ch._channelId
          (if idleLevel then 0 else 1)]
    ∧ (ch.stop drv false).2.calls
      = ch.calls ++ [LedcCall.ledc_stop ch.speedMode ch._channelId 1]
    ∧ (ch.stop drv true).2.calls
      = ch.calls ++ [LedcCall.ledc_stop ch.speedMode ch._channelId 0]
    ∧ (ch.stopDefault drv).2.calls
      = ch.calls ++ [LedcCall.ledc_stop ch.speedMode ch._channelId 1]
    ∧ (ch.destroy drv).calls
      = ch.calls ++ [LedcCall.ledc_stop ch.speedMode ch._channelId 0]
    ∧ (ch.stopDefault drv).2.calls ≠ (ch.destroy drv).calls := by
  simp [LedcChannel.stop, LedcChannel.stopDefault, LedcChannel.destroy,
    LedcChannel.driverCall]

/-! ## Drive modes, recorded state -/

/-- C21: with a driver whose calls succeed, each drive mode throws nothing and
issues exactly two force-level calls, generator A first, both with hold
enabled: forward (-1, 0), reverse (0, -1), coast (0, 0), brake (1, 1).  The
four pairs of levels are pairwise distinct, and reverse is forward with A and
B exchanged. -/
theorem C21_drive_modes_force_levels {σ : Type} (drv : mcpwm.Driver σ)
    (hOk : ∀ (c : mcpwm.Call) (s : σ), (drv c s).1 = ESP_OK) (hw : σ) :
    ((BdcMotor.forward drv { hw := hw, calls := [] }).1 = none
      ∧ (BdcMotor.forward drv { hw := hw, calls := [] }).2.calls
        = [mcpwm.Call.mcpwm_generator_set_force_level mcpwm.Side.A (-1) true,
            mcpwm.Call.mcpwm_generator_set_force_level mcpwm.Side.B 0 true])
    ∧ ((BdcMotor.reverse drv { hw := hw, calls := [] }).1 = none
      ∧ (BdcMotor.reverse drv { hw := hw, calls := [] }).2.calls
        = [mcpwm.Call.mcpwm_generator_set_force_level mcpwm.Side.A 0 true,
            mcpwm.Call.mcpwm_generator_set_force_level mcpwm.Side.B (-1) true])
    ∧ ((BdcMotor.coast drv { hw := hw, calls := [] }).1 = none
      ∧ (BdcMotor.coast drv { hw := hw, calls := [] }).2.calls
        = [mcpwm.Call.mcpwm_generator_set_force_level mcpwm.Side.A 0 true,
            mcpwm.Call.mcpwm_generator_set_force_level mcpwm.Side.B 0 true])
    ∧ ((BdcMotor.brake drv { hw := hw, calls := [] }).1 = none
      ∧ (BdcMotor.brake drv { hw := hw, calls := [] }).2.calls
        = [mcpwm.Call.mcpwm_generator_set_force_level mcpwm.Side.A 1 true,
            mcpwm.Call.mcpwm_generator_set_force_level mcpwm.Side.B 1 true])
    ∧ ((BdcMotor.forward drv { hw := hw, calls := [] }).2.calls
        ≠ (BdcMotor.reverse drv { hw := hw, calls := [] }).2.calls
      ∧ (BdcMotor.forward drv { hw := hw, calls := [] }).2.calls
        ≠ (BdcMotor.coast drv { hw := hw, calls := [] }).2.calls
      ∧ (BdcMotor.forward drv { hw := hw, calls := [] }).2.calls
        ≠ (BdcMotor.brake drv { hw := hw, calls := [] }).2.calls
      ∧ (BdcMotor.reverse drv { hw := hw, calls := [] }).2.calls
        ≠ (BdcMotor.coast drv { hw := hw, calls := [] }).2.calls
      ∧ (BdcMotor.reverse drv { hw := hw, calls := [] }).2.calls
        ≠ (BdcMotor.brake drv { hw := hw, calls := [] }).2.calls
      ∧ (BdcMotor.coast drv { hw := hw, calls := [] }).2.calls
        ≠ (BdcMotor.brake drv { hw := hw, calls := [] }).2.calls)
    ∧ (BdcMotor.forced mcpwm.Side.A (BdcMotor.reverse drv { hw := hw, calls := [] }).2.calls
        = BdcMotor.forced mcpwm.Side.B (BdcMotor.forward drv { hw := hw, calls := [] }).2.calls
      ∧ BdcMotor.forced mcpwm.Side.B (BdcMotor.reverse drv { hw := hw, calls := [] }).2.calls
        = BdcMotor.forced mcpwm.Side.A
            (BdcMotor.forward drv { hw := hw, calls := [] }).2.calls) := by
  have hf : (BdcMotor.forward drv { hw := hw, calls := [] }).1 = none
      ∧ (BdcMotor.forward drv { hw := hw, calls := [] }).2.calls
        = [mcpwm.Call.mcpwm_generator_set_force_level mcpwm.Side.A (-1) true,
            mcpwm.Call.mcpwm_generator_set_force_level mcpwm.Side.B 0 true] := by
    simp [BdcMotor.forward, BdcMotor.runSteps, mcpwm.Generators.setForceLevel,
      mcpwm.World.call, CHECK_THROW, hOk]
  have hr : (BdcMotor.reverse drv { hw := hw, calls := [] }).1 = none
      ∧ (BdcMotor.reverse drv { hw := hw, calls := [] }).2.calls
        = [mcpwm.Call.mcpwm_generator_set_force_level mcpwm.Side.A 0 true,
            mcpwm.Call.mcpwm_generator_set_force_level mcpwm.Side.B (-1) true] := by
    simp [BdcMotor.reverse, BdcMotor.runSteps, mcpwm.Generators.setForceLevel,
      mcpwm.World.call, CHECK_THROW, hOk]
  have hc : (BdcMotor.coast drv { hw := hw, calls := [] }).1 = none
      ∧ (BdcMotor.coast drv { hw := hw, calls := [] }).2.calls
        = [mcpwm.Call.mcpwm_generator_set_force_level mcpwm.Side.A 0 true,
            mcpwm.Call.mcpwm_generator_set_force_level mcpwm.Side.B 0 true] := by
    simp [BdcMotor.coast, BdcMotor.runSteps, mcpwm.Generators.setForceLevel,
      mcpwm.World.call, CHECK_THROW, hOk]
  have hb : (BdcMotor.brake drv { hw := hw, calls := [] }).1 = none
      ∧ (BdcMotor.brake drv { hw := hw, calls := [] }).2.calls
        = [mcpwm.Call.mcpwm_generator_set_force_level mcpwm.Side.A 1 true,
            mcpwm.Call.mcpwm_generator_set_force_level mcpwm.Side.B 1 true] := by
    simp [BdcMotor.brake, BdcMotor.runSteps, mcpwm.Generators.setForceLevel,
      mcpwm.World.call, CHECK_THROW, hOk]
  refine ⟨hf, hr, hc, hb, ?_, ?_⟩
  · rw [hf.2, hr.2, hc.2, hb.2]
    decide
  · rw [hf.2, hr.2]
    decide

/-- C21 at a concrete input: forward against the driver whose calls all
succeed. -/
theorem C21_witness_forward :
    (BdcMotor.forward mcpwmAlwaysOk { hw := (), calls := [] }).1 = none
    ∧ (BdcMotor.forward mcpwmAlwaysOk { hw := (), calls := [] }).2.calls
      = [mcpwm.Call.mcpwm_generator_set_force_level mcpwm.Side.A (-1) true,
          mcpwm.Call.mcpwm_generator_set_force_level mcpwm.Side.B 0 true] :=
  (C21_drive_modes_force_levels mcpwmAlwaysOk (fun _ _ => rfl) ()).1

/-- C23: for both facades, every driver and every recorded state before the
call: when the driver call of `enable`, `disable`, `start` or `stop` answers
`ESP_OK`, the method throws nothing and `getState()` afterwards is `ENABLE`,
`INIT`, `RUN`, `ENABLE` respectively. -/
theorem C23_state_after_successful_operation {σ τ : Type}
    (drvT : GptimerDriver σ) (drvP : PcntDriver τ) (t : GpTimer σ) (u : PulseCounter τ) :
    (((drvT GptimerCall.gptimer_enable t._gptimer).1 = ESP_OK →
        (t.enable drvT).1 = none ∧ (t.enable drvT).2.getState = State.ENABLE)
      ∧ ((drvT GptimerCall.gptimer_disable t._gptimer).1 = ESP_OK →
        (t.disable drvT).1 = none ∧ (t.disable drvT).2.getState = State.INIT)
      ∧ ((drvT GptimerCall.gptimer_start t._gptimer).1 = ESP_OK →
        (t.start drvT).1 = none ∧ (t.start drvT).2.getState = State.RUN)
      ∧ ((drvT GptimerCall.gptimer_stop t._gptimer).1 = ESP_OK →
        (t.stop drvT).1 = none ∧ (t.stop drvT).2.getState = State.ENABLE))
    ∧ (((drvP PcntCall.pcnt_unit_enable u._unit).1 = ESP_OK →
        (u.enable drvP).1 = none ∧ (u.enable drvP).2.getState = State.ENABLE)
      ∧ ((drvP PcntCall.pcnt_unit_disable u._unit).1 = ESP_OK →
        (u.disable drvP).1 = none ∧ (u.disable drvP).2.getState = State.INIT)
      ∧ ((drvP PcntCall.pcnt_unit_start u._unit).1 = ESP_OK →
        (u.start drvP).1 = none ∧ (u.start drvP).2.getState = State.RUN)
      ∧ ((drvP PcntCall.pcnt_unit_stop u._unit).1 = ESP_OK →
        (u.stop drvP).1 = none ∧ (u.stop drvP).2.getState = State.ENABLE)) := by
  refine ⟨⟨?_, ?_, ?_, ?_⟩, ⟨?_, ?_, ?_, ?_⟩⟩ <;> intro h
  · simp [GpTimer.enable, GpTimer.driverCall, GpTimer.getState, CHECK_THROW, h]
  · simp [GpTimer.disable, GpTimer.driverCall, GpTimer.getState, CHECK_THROW, h]
  · simp [GpTimer.start, GpTimer.driverCall, GpTimer.getState, CHECK_THROW, h]
  · simp [GpTimer.stop, GpTimer.driverCall, GpTimer.getState, CHECK_THROW, h]
  · simp [PulseCounter.enable, PulseCounter.driverCall, PulseCounter.getState, CHECK_THROW, h]
  · simp [PulseCounter.disable, PulseCounter.driverCall, PulseCounter.getState, CHECK_THROW, h]
  · simp [PulseCounter.start, PulseCounter.driverCall, PulseCounter.getState, CHECK_THROW, h]
  · simp [PulseCounter.stop, PulseCounter.driverCall, PulseCounter.getState, CHECK_THROW, h]

/-- C23 at a concrete input: against the PCNT driver as documented, `stop()`
on an enabled pulse counter whose recorded state is `RUN`, and `start()` on a
timer whose driver is enabled while the recorded state is `INIT`, succeed and
record `ENABLE` and `RUN`. -/
theorem C23_witness_state_ignored :
    ((PulseCounter.stop pcntDocumented ⟨State.RUN, true, []⟩).1 = none
      ∧ (PulseCounter.stop pcntDocumented ⟨State.RUN, true, []⟩).2.getState = State.ENABLE)
    ∧ ((GpTimer.start gptimerDocumented ⟨State.INIT, State.ENABLE, []⟩).1 = none
      ∧ (GpTimer.start gptimerDocumented ⟨State.INIT, State.ENABLE, []⟩).2.getState
          = State.RUN) :=
  ⟨(C23_state_after_successful_operation gptimerDocumented pcntDocumented
      ⟨State.INIT, State.ENABLE, []⟩ ⟨State.RUN, true, []⟩).2.2.2.2 rfl,
   (C23_state_after_successful_operation gptimerDocumented pcntDocumented
      ⟨State.INIT, State.ENABLE, []⟩ ⟨State.RUN, true, []⟩).1.2.2.1 rfl⟩

/-! ## Registration and reference count under driver failures -/

/-- C22 (the code at the failing input): a timer registers a non-empty
callback, which the driver accepts, and then an empty one, which the driver
rejects with `ESP_FAIL`.  Afterwards the stored callback is empty while the
driver still has the non-null handler of the first registration installed,
and an alarm makes that handler call the empty function. -/
theorem C22_failed_deregistration_leaves_handler_on_empty_callback :
    ((freshTimerNothingInstalled.1.registerEventCallbacks registerFailsAfterFirst
        (some (fun _ _ => true))).thrown = none)
    ∧ (((GpTimerObject.registerAndInstall registerFailsAfterFirst (some (fun _ _ => true))
        freshTimerNothingInstalled).1.registerEventCallbacks registerFailsAfterFirst
          none).thrown = some ESP_FAIL)
    ∧ (GpTimerObject.registerAllAndInstall registerFailsAfterFirst
        [some (fun _ _ => true), none] freshTimerNothingInstalled).1._callback.isSome = false
    ∧ (GpTimerObject.registerAllAndInstall registerFailsAfterFirst
        [some (fun _ _ => true), none] freshTimerNothingInstalled).2.on_alarm.isSome = true
    ∧ GpTimerObject.alarm (GpTimerObject.registerAllAndInstall registerFailsAfterFirst
        [some (fun _ _ => true), none] freshTimerNothingInstalled) ()
      = Dispatch.bad_function_call
    ∧ GpTimerObject.alarm (GpTimerObject.registerAllAndInstall registerFailsAfterFirst
        [some (fun _ _ => true)] freshTimerNothingInstalled) ()
      = Dispatch.returned true :=
  ⟨rfl, rfl, rfl, rfl, rfl, rfl⟩

/-- The general form of the failing scenario: whenever a registration of an
empty callback is rejected while a non-null handler is installed for the
timer, the stored callback is empty afterwards, the handler stays installed,
and an alarm calls the empty function. -/
theorem GpTimerObject.rejected_empty_registration {σ E : Type} (reg : RegisterDriver σ)
    (p : GpTimerObject σ E × InstalledAlarm σ E) (e : E)
    (hinst : p.2.on_alarm = some GpTimerObject.on_alarm) (hctx : p.2.user_ctx = p.1.self)
    (hfail : (reg (some [false]) p.1._gptimer).1 ≠ ESP_OK) :
    (GpTimerObject.registerAndInstall reg none p).1._callback = none
    ∧ (GpTimerObject.registerAndInstall reg none p).2.on_alarm.isSome = true
    ∧ GpTimerObject.alarm (GpTimerObject.registerAndInstall reg none p) e
      = Dispatch.bad_function_call := by
  obtain ⟨t, inst⟩ := p
  simp only at hinst hctx hfail
  simp [GpTimerObject.registerAndInstall, GpTimerObject.registerEventCallbacks,
    GpTimerObject.alarm, GpTimerObject.on_alarm, CHECK_THROW, hfail, hinst, hctx, deliver,
    heapOf, trampoline]

/-- C24 (the code at the failing input): starting with no input alive and the
ISR service not installed, constructing an input on pin 4 with a callback,
against a driver whose handler addition fails for that pin, throws after the
service was installed and the count incremented: no object is alive, the
count is 1 and the service is installed.  An input then constructed on pin 5
and destroyed again leaves the count at 1 and the service installed, with no
input alive. -/
theorem C24_throwing_constructor_keeps_count_and_service :
    (GPIOInput.construct gpioHandlerAddFailsOnPin4 10 4 gpio_int_type_t.GPIO_INTR_POSEDGE
        (some 1) { _isrHandlerCount := 0, hw := false, calls := [] }).1
      = Except.error ESP_ERR_INVALID_STATE
    ∧ (GPIOInput.construct gpioHandlerAddFailsOnPin4 10 4 gpio_int_type_t.GPIO_INTR_POSEDGE
        (some 1) { _isrHandlerCount := 0, hw := false, calls := [] }).2.calls
      = [GpioCall.gpio_reset_pin 4,
          GpioCall.gpio_set_direction 4 gpio_mode_t.GPIO_MODE_INPUT,
          GpioCall.gpio_set_intr_type 4 gpio_int_type_t.GPIO_INTR_POSEDGE,
          GpioCall.gpio_install_isr_service 0,
          GpioCall.gpio_isr_handler_add 4 10]
    ∧ (GPIOInput.construct gpioHandlerAddFailsOnPin4 10 4 gpio_int_type_t.GPIO_INTR_POSEDGE
        (some 1) { _isrHandlerCount := 0, hw := false, calls := [] }).2._isrHandlerCount = 1
    ∧ (GPIOInput.construct gpioHandlerAddFailsOnPin4 10 4 gpio_int_type_t.GPIO_INTR_POSEDGE
        (some 1) { _isrHandlerCount := 0, hw := false, calls := [] }).2.hw = true
    ∧ GPIOInput.holdingCallback [] = 0
    ∧ (GPIOInput.construct gpioHandlerAddFailsOnPin4 20 5 gpio_int_type_t.GPIO_INTR_POSEDGE
        (some 2)
        (GPIOInput.construct gpioHandlerAddFailsOnPin4 10 4
          gpio_int_type_t.GPIO_INTR_POSEDGE (some 1)
          { _isrHandlerCount := 0, hw := false, calls := [] }).2).1
      = Except.ok ⟨5, 20, some 2⟩
    ∧ (GPIOInput.destroy gpioHandlerAddFailsOnPin4 ⟨5, 20, some 2⟩
        (GPIOInput.construct gpioHandlerAddFailsOnPin4 20 5
          gpio_int_type_t.GPIO_INTR_POSEDGE (some 2)
          (GPIOInput.construct gpioHandlerAddFailsOnPin4 10 4
            gpio_int_type_t.GPIO_INTR_POSEDGE (some 1)
            { _isrHandlerCount := 0, hw := false, calls := [] }).2).2).2._isrHandlerCount = 1
    ∧ (GPIOInput.destroy gpioHandlerAddFailsOnPin4 ⟨5, 20, some 2⟩
        (GPIOInput.construct gpioHandlerAddFailsOnPin4 20 5
          gpio_int_type_t.GPIO_INTR_POSEDGE (some 2)
          (GPIOInput.construct gpioHandlerAddFailsOnPin4 10 4
            gpio_int_type_t.GPIO_INTR_POSEDGE (some 1)
            { _isrHandlerCount := 0, hw := false, calls := [] }).2).2).2.hw = true :=
  ⟨rfl, rfl, rfl, rfl, rfl, rfl, rfl, rfl⟩

/-! ## Conversions of the DAC and the ADC -/

/-- C25: for every `valueMlVolt` from 0 to 3300, `setVoltageMlVolt` passes
`valueMlVolt * 255 / 3300` rounded down to `setVoltageRaw`; this value is at
most 255, is unchanged by the conversion to 8 bits, reaches the driver as it
is, does not decrease when `valueMlVolt` grows, and is 0 for 0 and 255 for
3300. -/
theorem C25_millivolt_to_raw_within_full_scale {σ : Type} (drv : DacDriver σ)
    (d : DacOneshot σ) (valueMlVolt smaller : Nat) (hv : valueMlVolt ≤ 3300)
    (hs : smaller ≤ valueMlVolt) :
    DacOneshot.rawArgument valueMlVolt = valueMlVolt * 255 / 3300
    ∧ DacOneshot.rawArgument valueMlVolt ≤ 255
    ∧ DacOneshot.rawArgument valueMlVolt % 2 ^ 8 = DacOneshot.rawArgument valueMlVolt
    ∧ (d.setVoltageMlVolt drv valueMlVolt).2.calls
        = d.calls ++ [DacCall.dac_oneshot_output_voltage (valueMlVolt * 255 / 3300)]
    ∧ DacOneshot.rawArgument smaller ≤ DacOneshot.rawArgument valueMlVolt
    ∧ DacOneshot.rawArgument 0 = 0
    ∧ DacOneshot.rawArgument 3300 = 255 := by
  have h16 : valueMlVolt % 2 ^ 16 = valueMlVolt := Nat.mod_eq_of_lt (by norm_num; omega)
  have hs16 : smaller % 2 ^ 16 = smaller := Nat.mod_eq_of_lt (by norm_num; omega)
  have hle : valueMlVolt * 255 / 3300 ≤ 255 := by omega
  have h8 : valueMlVolt * 255 / 3300 % 2 ^ 8 = valueMlVolt * 255 / 3300 :=
    Nat.mod_eq_of_lt (by norm_num; omega)
  refine ⟨?_, ?_, ?_, ?_, ?_, ?_, ?_⟩
  · simp only [DacOneshot.rawArgument, h16]
  · simp only [DacOneshot.rawArgument, h16]; exact hle
  · simp only [DacOneshot.rawArgument, h16]; exact h8
  · simp only [DacOneshot.setVoltageMlVolt, DacOneshot.setVoltageRaw,
      DacOneshot.rawArgument, h16, h8]
  · simp only [DacOneshot.rawArgument, h16, hs16]
    omega
  · rfl
  · rfl

/-- C25 at a concrete input: 1650 mV becomes the raw value 127. -/
theorem C25_witness_half_scale :
    DacOneshot.rawArgument 1650 = 1650 * 255 / 3300
    ∧ (DacOneshot.setVoltageMlVolt dacAlwaysOk 1650 ⟨(), []⟩).2.calls
        = [] ++ [DacCall.dac_oneshot_output_voltage (1650 * 255 / 3300)] :=
  ⟨(C25_millivolt_to_raw_within_full_scale dacAlwaysOk ⟨(), []⟩ 1650 100 (by decide)
      (by decide)).1,
   (C25_millivolt_to_raw_within_full_scale dacAlwaysOk ⟨(), []⟩ 1650 100 (by decide)
      (by decide)).2.2.2.1⟩

/-- C26 (as stated, refuted): 3300 mV reaches the driver as 255, and the larger
16-bit value 3313 mV reaches it as 0: the product 3313 * 255 / 3300 is 256,
which is 0 in 8 bits. -/
theorem C26_counterexample_wraps_above_full_scale :
    3313 < 2 ^ 16
    ∧ DacOneshot.rawArgument 3313 = 256
    ∧ (DacOneshot.setVoltageMlVolt dacAlwaysOk 3300 ⟨(), []⟩).2.calls
        = [DacCall.dac_oneshot_output_voltage 255]
    ∧ (DacOneshot.setVoltageMlVolt dacAlwaysOk 3313 ⟨(), []⟩).2.calls
        = [DacCall.dac_oneshot_output_voltage 0]
    ∧ DacOneshot.rawSent 3313 < DacOneshot.rawSent 3300 := by
  refine ⟨by decide, rfl, rfl, rfl, by decide⟩

/-- C26 (amended): for every 16-bit `valueMlVolt` the driver receives
`valueMlVolt * 255 / 3300` rounded down and reduced to 8 bits.  Up to 3312 mV
this value does not decrease when `valueMlVolt` grows, and from 3300 mV to
3312 mV it is the full-scale value 255. -/
theorem C26_raw_sent_wraps_to_eight_bits {σ : Type} (drv : DacDriver σ)
    (d : DacOneshot σ) (valueMlVolt smaller upTo overScale : Nat)
    (h16 : valueMlVolt < 2 ^ 16) (hs : smaller ≤ upTo) (hu : upTo ≤ 3312)
    (ho : 3300 ≤ overScale) (ho2 : overScale ≤ 3312) :
    (d.setVoltageMlVolt drv valueMlVolt).2.calls
        = d.calls ++ [DacCall.dac_oneshot_output_voltage (valueMlVolt * 255 / 3300 % 256)]
    ∧ DacOneshot.rawSent valueMlVolt = valueMlVolt * 255 / 3300 % 256
    ∧ DacOneshot.rawSent smaller ≤ DacOneshot.rawSent upTo
    ∧ DacOneshot.rawSent overScale = 255 := by
  have hv : valueMlVolt % 2 ^ 16 = valueMlVolt := Nat.mod_eq_of_lt h16
  have e16 : (2 : Nat) ^ 16 = 65536 := by norm_num
  have e8 : (2 : Nat) ^ 8 = 256 := by norm_num
  refine ⟨?_, ?_, ?_, ?_⟩
  · simp only [DacOneshot.setVoltageMlVolt, DacOneshot.setVoltageRaw,
      DacOneshot.rawArgument, hv, e8]
  · simp only [DacOneshot.rawSent, DacOneshot.rawArgument, hv, e8]
  · have m1 : smaller % 65536 = smaller := Nat.mod_eq_of_lt (by omega)
    have m2 : upTo % 65536 = upTo := Nat.mod_eq_of_lt (by omega)
    have q1 : smaller * 255 / 3300 ≤ upTo * 255 / 3300 := by omega
    have q2 : upTo * 255 / 3300 < 256 := by omega
    have r1 : smaller * 255 / 3300 % 256 = smaller * 255 / 3300 :=
      Nat.mod_eq_of_lt (by omega)
    have r2 : upTo * 255 / 3300 % 256 = upTo * 255 / 3300 := Nat.mod_eq_of_lt q2
    simp only [DacOneshot.rawSent, DacOneshot.rawArgument, e16, e8, m1, m2, r1, r2]
    exact q1
  · have m1 : overScale % 65536 = overScale := Nat.mod_eq_of_lt (by omega)
    have q1 : overScale * 255 / 3300 = 255 := by omega
    simp only [DacOneshot.rawSent, DacOneshot.rawArgument, e16, e8, m1, q1]

/-- C26 (amended) at a concrete input: 40000 mV reaches the driver as
40000 * 255 / 3300 reduced to 8 bits, which is 18. -/
theorem C26_witness_forty_volts :
    (DacOneshot.setVoltageMlVolt dacAlwaysOk 40000 ⟨(), []⟩).2.calls
        = [] ++ [DacCall.dac_oneshot_output_voltage (40000 * 255 / 3300 % 256)]
    ∧ DacOneshot.rawSent 3312 = 255 :=
  ⟨(C26_raw_sent_wraps_to_eight_bits dacAlwaysOk ⟨(), []⟩ 40000 10 3000 3312 (by decide)
      (by decide) (by decide) (by decide) (by decide)).1,
   (C26_raw_sent_wraps_to_eight_bits dacAlwaysOk ⟨(), []⟩ 40000 10 3000 3312 (by decide)
      (by decide) (by decide) (by decide) (by decide)).2.2.2⟩

/-- On raw values from 0 up to 2^13 and a positive divisor, the `int`
expression of `readMlVolt` is the exact quotient rounded down. -/
theorem AdcOneshot.toMlVolt_exact (raw m : Int) (h0 : 0 ≤ raw) (h1 : raw < 8192)
    (hm : 0 < m) : AdcOneshot.toMlVolt raw m = raw * 3300 / m := by
  have hw : wrapInt32 (raw * 3300) = raw * 3300 := by
    have e : (raw * 3300 + 2 ^ 31) % 2 ^ 32 = raw * 3300 + 2 ^ 31 :=
      Int.emod_eq_of_lt (by norm_num; omega) (by norm_num; omega)
    simp only [wrapInt32, e]
    omega
  rw [AdcOneshot.toMlVolt, hw]
  exact Int.tdiv_eq_ediv (by omega) (by omega)

/-- After `configure`, whatever the driver answers, the divisor recorded for
the channel is 2 to the configured bit width. -/
theorem AdcOneshot.configure_records_power {σ : Type} (drv : AdcDriver σ)
    (a : AdcOneshot σ) (channel atten : Nat) (bitwidth : adc_bitwidth_t) :
    (a.configure drv channel atten bitwidth).2._maxRawValue channel
      = some (2 ^ bitwidth.bits) := by
  cases bitwidth <;>
    simp [AdcOneshot.configure, adc_bitwidth_t.toInt, adc_bitwidth_t.bits, wrapInt32]

/-- C27: after `configure(channel, atten, b)`, whatever the driver answers to
the configuration, the divisor recorded for the channel is 2^b (2^12 for the
default) and is not zero; and when the driver then reads a raw value `r` with
`0 ≤ r < 2^b`, `readMlVolt` returns `r * 3300 / 2^b` rounded down, which is at
least 0 and below 3300, and which does not decrease when the raw value
grows. -/
theorem C27_raw_to_millivolt {σ : Type} (drv : AdcDriver σ) (a : AdcOneshot σ)
    (channel atten : Nat) (bitwidth : adc_bitwidth_t) (r larger : Int)
    (hok : (drv.adc_oneshot_read channel
      (a.configure drv channel atten bitwidth).2._handle).1 = ESP_OK)
    (hraw : (drv.adc_oneshot_read channel
      (a.configure drv channel atten bitwidth).2._handle).2.1 = r)
    (h0 : 0 ≤ r) (hle : r ≤ larger) (hlt : larger < 2 ^ bitwidth.bits) :
    (a.configure drv channel atten bitwidth).2._maxRawValue channel
      = some (2 ^ bitwidth.bits)
    ∧ (2 : Int) ^ bitwidth.bits ≠ 0
    ∧ ((a.configure drv channel atten bitwidth).2.readMlVolt drv channel).1
      = Except.ok (r * 3300 / 2 ^ bitwidth.bits)
    ∧ 0 ≤ r * 3300 / 2 ^ bitwidth.bits
    ∧ r * 3300 / 2 ^ bitwidth.bits < 3300
    ∧ AdcOneshot.toMlVolt r (2 ^ bitwidth.bits)
      ≤ AdcOneshot.toMlVolt larger (2 ^ bitwidth.bits) := by
  have hrec := AdcOneshot.configure_records_power drv a channel atten bitwidth
  have hpos : (0 : Int) < 2 ^ bitwidth.bits := by positivity
  have hb : (2 : Int) ^ bitwidth.bits ≤ 8192 := by
    cases bitwidth <;> simp [adc_bitwidth_t.bits]
  have hr : r < 8192 := by omega
  have hl : larger < 8192 := by omega
  have e1 := AdcOneshot.toMlVolt_exact r (2 ^ bitwidth.bits) h0 hr hpos
  have e2 := AdcOneshot.toMlVolt_exact larger (2 ^ bitwidth.bits) (by omega) hl hpos
  have hread : ((a.configure drv channel atten bitwidth).2.readMlVolt drv channel).1
      = Except.ok (r * 3300 / 2 ^ bitwidth.bits) := by
    simp only [AdcOneshot.readMlVolt, AdcOneshot.readRaw, CHECK_THROW, hok, if_true, hraw,
      hrec, e1]
  refine ⟨hrec, by omega, hread, ?_, ?_, ?_⟩
  · exact Int.ediv_nonneg (by omega) (by omega)
  · exact Int.ediv_lt_of_lt_mul hpos (by nlinarith)
  · rw [e1, e2]
    exact Int.ediv_le_ediv hpos (by omega)

/-- C27 at a concrete input: channel 6 configured for 10 bits, the driver
reading the raw value 512: `readMlVolt` returns 512 * 3300 / 1024 = 1650. -/
theorem C27_witness_ten_bits :
    ((AdcOneshot.configure adcReads512 6 3 adc_bitwidth_t.ADC_BITWIDTH_10
        ⟨(), fun _ => none⟩).2.readMlVolt adcReads512 6).1
      = Except.ok (512 * 3300 / 2 ^ adc_bitwidth_t.ADC_BITWIDTH_10.bits)
    ∧ (512 : Int) * 3300 / 2 ^ adc_bitwidth_t.ADC_BITWIDTH_10.bits < 3300 :=
  ⟨(C27_raw_to_millivolt adcReads512 ⟨(), fun _ => none⟩ 6 3
      adc_bitwidth_t.ADC_BITWIDTH_10 512 1000 rfl rfl (by decide) (by decide)
      (by decide)).2.2.1,
   (C27_raw_to_millivolt adcReads512 ⟨(), fun _ => none⟩ 6 3
      adc_bitwidth_t.ADC_BITWIDTH_10 512 1000 rfl rfl (by decide) (by decide)
      (by decide)).2.2.2.2.1⟩

end idf
